import Mathlib

/-!
# Identifier registry and resource API types

The namespace `Cache` embeds `client-go/tools/cache/identity.go`, the namespace
`V1beta2` the declarations of `k8s.io/api/resource/v1beta2/types.go`.

## Resource API types

`types.go` declares data only. Its structs are mirrored field by field: a Go
pointer or optional value becomes an `Option`, a slice a list, a map an
association list, a string type a string, so that a nil and an empty slice
or map are one value; the `json` and `protobuf` tags of the fields are kept
in the table `structTags`. What acts on these values
(validation, the matching of tolerations, eviction, the gathering of pools,
the allocator, the JSON codec) is declared elsewhere; each such function is
introduced by a comment that starts `Modelled from the spec:`.

## Identifier registry

A shallow embedding of the identifier registry: the process-wide
`identifierRegistry` map becomes an explicit state that every operation
receives and returns, Go's `error` result becomes an `Option String`
(`none` is the nil error), and a sequence of calls is a list that is run
against a starting registry. Every operation holds the registry mutex for its
whole body, so calls are modelled as atomic steps taken one after another.
-/

set_option autoImplicit false

namespace Cache

/-! ## Data model -/

/-- Mirror of `schema.GroupVersionResource`: three plain strings. -/
structure GroupVersionResource where
  Group : String
  Version : String
  Resource : String
  deriving DecidableEq, Repr

/-- Modelled from the spec: `GroupVersionResource.Empty` lives in
`k8s.io/apimachinery/pkg/runtime/schema`, which is not among the sources; a
GVR is empty when Group, Version and Resource are all empty. -/
def GroupVersionResource.Empty (gvr : GroupVersionResource) : Bool :=
  gvr.Group.length == 0 && gvr.Version.length == 0 && gvr.Resource.length == 0

/-- Modelled from the spec: `GroupVersionResource.String` lives in
`k8s.io/apimachinery/pkg/runtime/schema`, which is not among the sources; it
is `Group + "/" + Version + ", Resource=" + Resource`. -/
def GroupVersionResource.String (gvr : GroupVersionResource) : String :=
  gvr.Group ++ "/" ++ gvr.Version ++ ", Resource=" ++ gvr.Resource

/-- The `keys map[string]bool` of `identifierRegistry`: a Go map from strings
to booleans, where looking up an absent key yields `false`. -/
abbrev Registry := String → Bool

/-- The registry built by `make(map[string]bool)`: no key is present. -/
def emptyRegistry : Registry := fun _ => false

/-- Mirror of the `Identifier` struct. -/
structure Identifier where
  name : String
  gvr : GroupVersionResource
  unique : Bool
  deriving DecidableEq, Repr

/-- The composite key computed on the first line of `registerIdentifier`. -/
def registryKey (name : String) (gvr : GroupVersionResource) : String :=
  name ++ "/" ++ gvr.String

/-- The message of the error `registerIdentifier` builds with `fmt.Errorf`. -/
def notUniqueError (name : String) (gvr : GroupVersionResource) : String :=
  "Identifier " ++ name ++ " (gvr=" ++ gvr.String ++
    ") is not unique - metrics will not be published for this identifier"

/-! ## Operations -/

/-- Embedding of `registerIdentifier`: returns the registry after the call and
the error (`none` when the key was not registered before). -/
def registerIdentifier (reg : Registry) (name : String) (gvr : GroupVersionResource) :
    Registry × Option String :=
  let key := registryKey name gvr
  if reg key then
    (reg, some (notUniqueError name gvr))
  else
    (Function.update reg key true, none)

/-- Embedding of `NewIdentifier`: returns the registry after the call, the
identifier and the error. -/
def NewIdentifier (reg : Registry) (name : String) (gvr : GroupVersionResource) :
    Registry × Identifier × Option String :=
  let id : Identifier := { name := name, gvr := gvr, unique := false }
  if name == "" || gvr.Empty then
    (reg, id, none)
  else
    match registerIdentifier reg id.name id.gvr with
    | (reg', some err) => (reg', id, some err)
    | (reg', none) => (reg', { id with unique := true }, none)

/-- Embedding of `Identifier.Name`. -/
def Identifier.Name (id : Identifier) : String := id.name

/-- Embedding of `Identifier.GroupVersionResource`. -/
def Identifier.GroupVersionResource (id : Identifier) : GroupVersionResource := id.gvr

/-- Embedding of `Identifier.IsUnique`. -/
def Identifier.IsUnique (id : Identifier) : Bool := id.unique

/-- Embedding of `ResetRegisteredIdentitiesForTest`: the map is replaced by a
newly made one. -/
def ResetRegisteredIdentitiesForTest (_reg : Registry) : Registry :=
  emptyRegistry

/-! ## Call sequences -/

/-- Runs a sequence of `NewIdentifier` calls, given by their arguments, from
the registry `reg`; returns the final registry and the results in call order. -/
def runNewIdentifiers (reg : Registry) :
    List (String × GroupVersionResource) → Registry × List (Identifier × Option String)
  | [] => (reg, [])
  | (name, gvr) :: rest =>
    let r := NewIdentifier reg name gvr
    let rs := runNewIdentifiers r.1 rest
    (rs.1, r.2 :: rs.2)

/-- One call on the registry: a `NewIdentifier` with its arguments, or a
`ResetRegisteredIdentitiesForTest`. -/
inductive Call where
  | newIdentifier (name : String) (gvr : GroupVersionResource)
  | reset
  deriving DecidableEq, Repr

/-- Runs a sequence of calls from the registry `reg`; a reset returns
nothing, so only the `NewIdentifier` results are collected. -/
def runCalls (reg : Registry) : List Call → Registry × List (Identifier × Option String)
  | [] => (reg, [])
  | Call.newIdentifier name gvr :: rest =>
    let r := NewIdentifier reg name gvr
    let rs := runCalls r.1 rest
    (rs.1, r.2 :: rs.2)
  | Call.reset :: rest => runCalls (ResetRegisteredIdentitiesForTest reg) rest

/-- The results of a run whose identifier has the given name and GVR and
reports `IsUnique()` true. -/
def uniqueHolders (results : List (Identifier × Option String)) (name : String)
    (gvr : GroupVersionResource) : List (Identifier × Option String) :=
  results.filter (fun r => r.1.name == name && r.1.gvr == gvr && r.1.IsUnique)

/-- The GVR of pods used by the tests. -/
def podsGVR : GroupVersionResource := { Group := "", Version := "v1", Resource := "pods" }

/-- The GVR of config maps used by the tests. -/
def configMapsGVR : GroupVersionResource :=
  { Group := "", Version := "v1", Resource := "configmaps" }

end Cache

namespace V1beta2

/-! ## Data model of `k8s.io/api/resource/v1beta2/types.go`

Go pointers and optional values become `Option`, slices become lists, and a
Go map becomes an association list that is read with `List.lookup`. -/

/-- Modelled from the spec: `resource.Quantity` is declared in
`k8s.io/apimachinery/pkg/api/resource`, which is not among the sources; a
quantity is taken as a whole number of units. -/
abbrev Quantity := Nat

/-- Modelled from the spec: `metav1.Time` is declared in
`k8s.io/apimachinery/pkg/apis/meta/v1`, which is not among the sources; a time
is taken as a number of seconds. -/
abbrev Time := Int

/-- Modelled from the spec: `metav1.TypeMeta` is declared in
`k8s.io/apimachinery/pkg/apis/meta/v1`, which is not among the sources; it
holds the kind and the API version of an object. -/
structure TypeMeta where
  Kind : String
  APIVersion : String
  deriving DecidableEq, Repr

/-- Modelled from the spec: `metav1.ObjectMeta` is declared in
`k8s.io/apimachinery/pkg/apis/meta/v1`, which is not among the sources; only
the object name, which tells two objects apart, is kept. -/
structure ObjectMeta where
  Name : String
  deriving DecidableEq, Repr

/-- Modelled from the spec: `v1.NodeSelector` is declared in
`k8s.io/api/core/v1`, which is not among the sources; it is kept as an
uninterpreted list of terms. -/
structure NodeSelector where
  NodeSelectorTerms : List String
  deriving DecidableEq, Repr

/-- Mirror of `QualifiedName`. -/
abbrev QualifiedName := String

/-- Mirror of `FullyQualifiedName`. -/
abbrev FullyQualifiedName := String

/-- Mirror of `ResourcePool`. -/
structure ResourcePool where
  Name : String
  Generation : Int
  ResourceSliceCount : Int
  deriving DecidableEq, Repr

/-- Mirror of `Counter`. -/
structure Counter where
  Value : Quantity
  deriving DecidableEq, Repr

/-- Mirror of `CounterSet`. -/
structure CounterSet where
  Name : String
  Counters : List (String × Counter)
  deriving DecidableEq, Repr

/-- Mirror of `DeviceCounterConsumption`. -/
structure DeviceCounterConsumption where
  CounterSet : String
  Counters : List (String × Counter)
  deriving DecidableEq, Repr

/-- Mirror of `DeviceCapacity`. -/
structure DeviceCapacity where
  Value : Quantity
  deriving DecidableEq, Repr

/-- Mirror of `DeviceAttribute`: four optional values. -/
structure DeviceAttribute where
  IntValue : Option Int
  BoolValue : Option Bool
  StringValue : Option String
  VersionValue : Option String
  deriving DecidableEq, Repr

/-- Mirror of `DeviceTaintEffect`, a string type. -/
abbrev DeviceTaintEffect := String

/-- Mirror of the constant `DeviceTaintEffectNoSchedule`. -/
def DeviceTaintEffectNoSchedule : DeviceTaintEffect := "NoSchedule"

/-- Mirror of the constant `DeviceTaintEffectNoExecute`. -/
def DeviceTaintEffectNoExecute : DeviceTaintEffect := "NoExecute"

/-- Mirror of `DeviceTaint`. -/
structure DeviceTaint where
  Key : String
  Value : String
  Effect : DeviceTaintEffect
  TimeAdded : Option Time
  deriving DecidableEq, Repr

/-- Mirror of `Device`. -/
structure Device where
  Name : String
  Attributes : List (QualifiedName × DeviceAttribute)
  Capacity : List (QualifiedName × DeviceCapacity)
  ConsumesCounters : List DeviceCounterConsumption
  NodeName : Option String
  NodeSelector : Option NodeSelector
  AllNodes : Option Bool
  Taints : List DeviceTaint
  BindsToNode : Option Bool
  BindingConditions : List String
  BindingFailureConditions : List String
  deriving DecidableEq, Repr

/-- Mirror of `ResourceSliceSpec`. -/
structure ResourceSliceSpec where
  Driver : String
  Pool : ResourcePool
  NodeName : Option String
  NodeSelector : Option NodeSelector
  AllNodes : Option Bool
  Devices : List Device
  PerDeviceNodeSelection : Option Bool
  SharedCounters : List CounterSet
  deriving DecidableEq, Repr

/-- Mirror of `ResourceSlice`. -/
structure ResourceSlice where
  TypeMeta : TypeMeta
  ObjectMeta : ObjectMeta
  Spec : ResourceSliceSpec
  deriving DecidableEq, Repr

/-- Mirror of `DeviceTolerationOperator`, a string type. -/
abbrev DeviceTolerationOperator := String

/-- Mirror of the constant `DeviceTolerationOpExists`. -/
def DeviceTolerationOpExists : DeviceTolerationOperator := "Exists"

/-- Mirror of the constant `DeviceTolerationOpEqual`. -/
def DeviceTolerationOpEqual : DeviceTolerationOperator := "Equal"

/-- Mirror of `DeviceToleration`. -/
structure DeviceToleration where
  Key : String
  Operator : DeviceTolerationOperator
  Value : String
  Effect : DeviceTaintEffect
  TolerationSeconds : Option Int
  deriving DecidableEq, Repr

/-- Mirror of `CELDeviceSelector`. -/
structure CELDeviceSelector where
  Expression : String
  deriving DecidableEq, Repr

/-- Mirror of `DeviceSelector`. -/
structure DeviceSelector where
  CEL : Option CELDeviceSelector
  deriving DecidableEq, Repr

/-- Mirror of `DeviceAllocationMode`, a string type. -/
abbrev DeviceAllocationMode := String

/-- Mirror of the constant `DeviceAllocationModeExactCount`. -/
def DeviceAllocationModeExactCount : DeviceAllocationMode := "ExactCount"

/-- Mirror of the constant `DeviceAllocationModeAll`. -/
def DeviceAllocationModeAll : DeviceAllocationMode := "All"

/-- Mirror of `ExactDeviceRequest`. -/
structure ExactDeviceRequest where
  DeviceClassName : String
  Selectors : List DeviceSelector
  AllocationMode : DeviceAllocationMode
  Count : Int
  AdminAccess : Option Bool
  Tolerations : List DeviceToleration
  deriving DecidableEq, Repr

/-- Mirror of `DeviceSubRequest`. -/
structure DeviceSubRequest where
  Name : String
  DeviceClassName : String
  Selectors : List DeviceSelector
  AllocationMode : DeviceAllocationMode
  Count : Int
  Tolerations : List DeviceToleration
  deriving DecidableEq, Repr

/-- Mirror of `DeviceRequest`. -/
structure DeviceRequest where
  Name : String
  Exactly : Option ExactDeviceRequest
  FirstAvailable : List DeviceSubRequest
  deriving DecidableEq, Repr

/-- Modelled from the spec: `runtime.RawExtension` is declared in
`k8s.io/apimachinery/pkg/runtime`, which is not among the sources; it is kept
as its raw text. -/
structure RawExtension where
  Raw : String
  deriving DecidableEq, Repr

/-- Modelled from the spec: `metav1.Condition` is declared in
`k8s.io/apimachinery/pkg/apis/meta/v1`, which is not among the sources; only
the type and the status of a condition are kept. -/
structure Condition where
  ConditionType : String
  Status : String
  deriving DecidableEq, Repr

/-- Modelled from the spec: `types.UID` is declared in
`k8s.io/apimachinery/pkg/types`, which is not among the sources; it is a
string type. -/
abbrev UID := String

/-- Mirror of `DeviceConstraint`. -/
structure DeviceConstraint where
  Requests : List String
  MatchAttribute : Option FullyQualifiedName
  deriving DecidableEq, Repr

/-- Mirror of `OpaqueDeviceConfiguration`. -/
structure OpaqueDeviceConfiguration where
  Driver : String
  Parameters : RawExtension
  deriving DecidableEq, Repr

/-- Mirror of `DeviceConfiguration`. -/
structure DeviceConfiguration where
  Opaque : Option OpaqueDeviceConfiguration
  deriving DecidableEq, Repr

/-- Mirror of `DeviceClaimConfiguration`; the embedded `DeviceConfiguration`
is a field of the same name. -/
structure DeviceClaimConfiguration where
  Requests : List String
  DeviceConfiguration : DeviceConfiguration
  deriving DecidableEq, Repr

/-- Mirror of `DeviceClaim`. -/
structure DeviceClaim where
  Requests : List DeviceRequest
  Constraints : List DeviceConstraint
  Config : List DeviceClaimConfiguration
  deriving DecidableEq, Repr

/-- Mirror of `ResourceClaimSpec`. -/
structure ResourceClaimSpec where
  Devices : DeviceClaim
  deriving DecidableEq, Repr

/-- Mirror of `ResourceClaimConsumerReference`. -/
structure ResourceClaimConsumerReference where
  APIGroup : String
  Resource : String
  Name : String
  UID : UID
  deriving DecidableEq, Repr

/-- Mirror of `DeviceRequestAllocationResult`. -/
structure DeviceRequestAllocationResult where
  Request : String
  Driver : String
  Pool : String
  Device : String
  AdminAccess : Option Bool
  Tolerations : List DeviceToleration
  BindingConditions : List String
  BindingFailureConditions : List String
  deriving DecidableEq, Repr

/-- Mirror of `AllocationConfigSource`, a string type. -/
abbrev AllocationConfigSource := String

/-- Mirror of the constant `AllocationConfigSourceClass`. -/
def AllocationConfigSourceClass : AllocationConfigSource := "FromClass"

/-- Mirror of the constant `AllocationConfigSourceClaim`. -/
def AllocationConfigSourceClaim : AllocationConfigSource := "FromClaim"

/-- Mirror of `DeviceAllocationConfiguration`; the embedded
`DeviceConfiguration` is a field of the same name. -/
structure DeviceAllocationConfiguration where
  Source : AllocationConfigSource
  Requests : List String
  DeviceConfiguration : DeviceConfiguration
  deriving DecidableEq, Repr

/-- Mirror of `DeviceAllocationResult`. -/
structure DeviceAllocationResult where
  Results : List DeviceRequestAllocationResult
  Config : List DeviceAllocationConfiguration
  deriving DecidableEq, Repr

/-- Mirror of `AllocationResult`. -/
structure AllocationResult where
  Devices : DeviceAllocationResult
  NodeSelector : Option NodeSelector
  AllocationTimestamp : Option Time
  deriving DecidableEq, Repr

/-- Mirror of `NetworkDeviceData`. -/
structure NetworkDeviceData where
  InterfaceName : String
  IPs : List String
  HardwareAddress : String
  deriving DecidableEq, Repr

/-- Mirror of `AllocatedDeviceStatus`. -/
structure AllocatedDeviceStatus where
  Driver : String
  Pool : String
  Device : String
  Conditions : List Condition
  Data : Option RawExtension
  NetworkData : Option NetworkDeviceData
  deriving DecidableEq, Repr

/-- Mirror of `ResourceClaimStatus`. -/
structure ResourceClaimStatus where
  Allocation : Option AllocationResult
  ReservedFor : List ResourceClaimConsumerReference
  Devices : List AllocatedDeviceStatus
  deriving DecidableEq, Repr

/-- Mirror of `ResourceClaim`. -/
structure ResourceClaim where
  TypeMeta : TypeMeta
  ObjectMeta : ObjectMeta
  Spec : ResourceClaimSpec
  Status : ResourceClaimStatus
  deriving DecidableEq, Repr

/-- Mirror of `DeviceClassConfiguration`; the embedded `DeviceConfiguration`
is a field of the same name. -/
structure DeviceClassConfiguration where
  DeviceConfiguration : DeviceConfiguration
  deriving DecidableEq, Repr

/-- Mirror of `DeviceClassSpec`. -/
structure DeviceClassSpec where
  Selectors : List DeviceSelector
  Config : List DeviceClassConfiguration
  deriving DecidableEq, Repr

/-- Mirror of `DeviceClass`. -/
structure DeviceClass where
  TypeMeta : TypeMeta
  ObjectMeta : ObjectMeta
  Spec : DeviceClassSpec
  deriving DecidableEq, Repr

/-- Mirror of the constant `ResourceSliceMaxSharedCapacity`. -/
def ResourceSliceMaxSharedCapacity : Nat := 128

/-- Mirror of the constant `ResourceSliceMaxDevices`. -/
def ResourceSliceMaxDevices : Nat := 128

/-- Mirror of the constant `BindingConditionsMaxSize`. -/
def BindingConditionsMaxSize : Nat := 4

/-- Mirror of the constant `BindingFailureConditionsMaxSize`. -/
def BindingFailureConditionsMaxSize : Nat := 4

/-- Mirror of the constant `ResourceSliceMaxSharedCounters`. -/
def ResourceSliceMaxSharedCounters : Nat := 32

/-- Mirror of the constant `ResourceSliceMaxAttributesAndCapacitiesPerDevice`. -/
def ResourceSliceMaxAttributesAndCapacitiesPerDevice : Nat := 32

/-- Mirror of the constant `ResourceSliceMaxCountersPerDevice`. -/
def ResourceSliceMaxCountersPerDevice : Nat := 32

/-- Mirror of the constant `ResourceSliceMaxDeviceCountersPerSlice`. -/
def ResourceSliceMaxDeviceCountersPerSlice : Nat := 1024

/-- Mirror of the constant `DeviceTaintsMaxLength`. -/
def DeviceTaintsMaxLength : Nat := 4

/-! ## One-of groups -/

/-- How a one-of group can be violated: no member is set, or the listed
members are set together. -/
inductive OneOfViolation where
  | noneSet
  | severalSet (names : List String)
  deriving DecidableEq, Repr

/-- Modelled from the spec: validation lives in `pkg/apis/resource/validation`,
which is not among the sources; a one-of group must be validated as
exactly-one-populated, so the check counts the members that are set and
reports a violation unless there is exactly one (`none` is acceptance). -/
def validateOneOf (set : List String) : Option OneOfViolation :=
  match set with
  | [] => some OneOfViolation.noneSet
  | [_] => none
  | names => some (OneOfViolation.severalSet names)

/-- The JSON name of a field when the field is set, and nothing otherwise. -/
def setWhen (isSet : Bool) (name : String) : List String :=
  if isSet then [name] else []

/-- The members of the `NodeSelection` one-of group (the fields marked
`+oneOf=NodeSelection`) that are set in a slice, by JSON name. -/
def ResourceSliceSpec.nodeSelectionSet (spec : ResourceSliceSpec) : List String :=
  setWhen spec.NodeName.isSome "nodeName" ++
  setWhen spec.NodeSelector.isSome "nodeSelector" ++
  setWhen spec.AllNodes.isSome "allNodes" ++
  setWhen spec.PerDeviceNodeSelection.isSome "perDeviceNodeSelection"

/-- Modelled from the spec: the validation of the node-selection group of a
slice (validation is not among the sources): exactly one of NodeName,
NodeSelector, AllNodes and PerDeviceNodeSelection must be set. -/
def validateNodeSelection (spec : ResourceSliceSpec) : Option OneOfViolation :=
  validateOneOf spec.nodeSelectionSet

/-- Modelled from the spec: the node-scoping mode of a slice as a tagged
variant, one case per member of the group. -/
inductive NodeSelection where
  | nodeName (name : String)
  | nodeSelector (selector : NodeSelector)
  | allNodes (all : Bool)
  | perDeviceNodeSelection (perDevice : Bool)
  deriving DecidableEq, Repr

/-- Modelled from the spec: reads the node-scoping mode off a slice; there is
one when a single member of the group is set. -/
def ResourceSliceSpec.nodeSelection (spec : ResourceSliceSpec) : Option NodeSelection :=
  match spec.NodeName, spec.NodeSelector, spec.AllNodes, spec.PerDeviceNodeSelection with
  | some name, none, none, none => some (NodeSelection.nodeName name)
  | none, some selector, none, none => some (NodeSelection.nodeSelector selector)
  | none, none, some all, none => some (NodeSelection.allNodes all)
  | none, none, none, some perDevice => some (NodeSelection.perDeviceNodeSelection perDevice)
  | _, _, _, _ => none

/-- The members of the `ValueType` one-of group (the fields marked
`+oneOf=ValueType`) that are set in an attribute, by JSON name. -/
def DeviceAttribute.valueSet (a : DeviceAttribute) : List String :=
  setWhen a.IntValue.isSome "int" ++
  setWhen a.BoolValue.isSome "bool" ++
  setWhen a.StringValue.isSome "string" ++
  setWhen a.VersionValue.isSome "version"

/-- Modelled from the spec: the validation of the value of an attribute
(validation is not among the sources): a `DeviceAttribute` must have exactly
one field set. -/
def validateDeviceAttribute (a : DeviceAttribute) : Option OneOfViolation :=
  validateOneOf a.valueSet

/-- Modelled from the spec: the value of an attribute as a tagged union of
integer, boolean, string and version. -/
inductive AttributeValue where
  | int (value : Int)
  | bool (value : Bool)
  | string (value : String)
  | version (value : String)
  deriving DecidableEq, Repr

/-- Modelled from the spec: reads the tagged value off an attribute; there is
one when a single field is set. -/
def DeviceAttribute.value (a : DeviceAttribute) : Option AttributeValue :=
  match a.IntValue, a.BoolValue, a.StringValue, a.VersionValue with
  | some i, none, none, none => some (AttributeValue.int i)
  | none, some b, none, none => some (AttributeValue.bool b)
  | none, none, some s, none => some (AttributeValue.string s)
  | none, none, none, some v => some (AttributeValue.version v)
  | _, _, _, _ => none

/-- The members of the `deviceRequestType` one-of group that are set in a
request, by JSON name: `Exactly` is set when it is not nil, `FirstAvailable`
when it is not empty. -/
def DeviceRequest.requestTypeSet (r : DeviceRequest) : List String :=
  setWhen r.Exactly.isSome "exactly" ++
  setWhen (!r.FirstAvailable.isEmpty) "firstAvailable"

/-- Modelled from the spec: the validation of the kind of a request
(validation is not among the sources): one of Exactly or FirstAvailable must
be set. -/
def validateDeviceRequest (r : DeviceRequest) : Option OneOfViolation :=
  validateOneOf r.requestTypeSet

/-- The fields of a device besides `Name` that are set, by JSON name: a
pointer is set when it is not nil, a slice or map when it is not empty. -/
def Device.setFields (d : Device) : List String :=
  setWhen (!d.Attributes.isEmpty) "attributes" ++
  setWhen (!d.Capacity.isEmpty) "capacity" ++
  setWhen (!d.ConsumesCounters.isEmpty) "consumesCounters" ++
  setWhen d.NodeName.isSome "nodeName" ++
  setWhen d.NodeSelector.isSome "nodeSelector" ++
  setWhen d.AllNodes.isSome "allNodes" ++
  setWhen (!d.Taints.isEmpty) "taints" ++
  setWhen d.BindsToNode.isSome "bindsToNode" ++
  setWhen (!d.BindingConditions.isEmpty) "bindingConditions" ++
  setWhen (!d.BindingFailureConditions.isEmpty) "bindingFailureConditions"

/-- The members of the `DeviceNodeSelection` one-of group that are set in a
device, by JSON name. -/
def Device.nodeSelectionSet (d : Device) : List String :=
  setWhen d.NodeName.isSome "nodeName" ++
  setWhen d.NodeSelector.isSome "nodeSelector" ++
  setWhen d.AllNodes.isSome "allNodes"

/-- The number of counters a device consumes, over all its consumption
entries. -/
def Device.counterCount (d : Device) : Nat :=
  (d.ConsumesCounters.map (fun c => c.Counters.length)).sum

/-- A device named "gpu-0" with the first `n` of these fields set:
attributes, capacity, consumesCounters, nodeName, taints, bindsToNode,
bindingConditions, bindingFailureConditions. -/
def sampleDevice (n : Nat) : Device :=
  { Name := "gpu-0"
    Attributes := if 1 ≤ n then
      [("model", { IntValue := none, BoolValue := none, StringValue := some "a100",
                   VersionValue := none })] else []
    Capacity := if 2 ≤ n then [("memory", { Value := 40 })] else []
    ConsumesCounters := if 3 ≤ n then
      [{ CounterSet := "gpu-0-counters", Counters := [("memory", { Value := 40 })] }] else []
    NodeName := if 4 ≤ n then some "node-1" else none
    NodeSelector := none
    AllNodes := none
    Taints := if 5 ≤ n then
      [{ Key := "gpu-maint", Value := "", Effect := DeviceTaintEffectNoExecute,
         TimeAdded := some 0 }] else []
    BindsToNode := if 6 ≤ n then some true else none
    BindingConditions := if 7 ≤ n then ["Ready"] else []
    BindingFailureConditions := if 8 ≤ n then ["Failed"] else [] }

/-! ## Ceilings of a slice -/

/-- The number of counters of a slice, summed over all its counter sets: the
quantity that `ResourceSliceMaxSharedCounters` bounds. -/
def ResourceSliceSpec.sharedCounterCount (spec : ResourceSliceSpec) : Nat :=
  (spec.SharedCounters.map (fun s => s.Counters.length)).sum

/-- The counter sets of a slice that hold at least one counter. -/
def ResourceSliceSpec.nonEmptyCounterSets (spec : ResourceSliceSpec) : List CounterSet :=
  spec.SharedCounters.filter (fun s => !s.Counters.isEmpty)

/-! ## Taints and tolerations -/

/-- Modelled from the spec: the matching of a toleration against a taint is
not among the sources. An empty toleration effect matches every taint effect,
an empty toleration key matches every taint key, the operator `Exists`
ignores the value and the operator `Equal` requires the same value; no other
operator matches. -/
def ToleratesTaint (t : DeviceToleration) (x : DeviceTaint) : Bool :=
  if t.Effect != "" && t.Effect != x.Effect then false
  else if t.Key != "" && t.Key != x.Key then false
  else if t.Operator == DeviceTolerationOpExists then true
  else if t.Operator == DeviceTolerationOpEqual then t.Value == x.Value
  else false

/-- Modelled from the spec: the validation of a toleration (validation is not
among the sources), with the rules documented on the fields of
`DeviceToleration`: with an empty key the operator must be `Exists`, the
operator is `Exists` or `Equal`, with `Exists` the value must be empty, and
the effect is empty, `NoSchedule` or `NoExecute`. -/
def validToleration (t : DeviceToleration) : Bool :=
  (t.Key != "" || t.Operator == DeviceTolerationOpExists) &&
  (t.Operator == DeviceTolerationOpExists || t.Operator == DeviceTolerationOpEqual) &&
  (t.Operator != DeviceTolerationOpExists || t.Value == "") &&
  (t.Effect == "" || t.Effect == DeviceTaintEffectNoSchedule ||
    t.Effect == DeviceTaintEffectNoExecute)

/-- Modelled from the spec: the period a `TolerationSeconds` value stands for;
zero and negative values are treated as 0. -/
def tolerationPeriod (seconds : Int) : Int :=
  if seconds ≤ 0 then 0 else seconds

/-- Modelled from the spec: eviction on account of a taint is not among the
sources. Gives the time by which the consumers of a claim with toleration `t`
are evicted from a device with taint `x`, or `none` when they are not evicted
on its account. Only a `NoExecute` taint evicts; the time the taint was added
is `TimeAdded`, or `now` while it has not been set; a taint that is not
tolerated evicts at once; a tolerated one evicts `TolerationSeconds` after the
taint was added, and never when `TolerationSeconds` is not set. -/
def evictionDeadline (now : Time) (x : DeviceTaint) (t : DeviceToleration) : Option Time :=
  if x.Effect != DeviceTaintEffectNoExecute then none
  else
    let added := x.TimeAdded.getD now
    if !ToleratesTaint t x then some added
    else
      match t.TolerationSeconds with
      | none => none
      | some seconds => some (added + tolerationPeriod seconds)

/-! ## Pools -/

/-- Modelled from the spec: gathering the slices of a pool is not among the
sources. One step of the pass over the slices of a pool: `current` holds the
slices seen so far with the highest generation; an older slice is ignored, a
newer one replaces them all, and one of the same generation joins them. -/
def addSlice (current : List ResourceSlice) (s : ResourceSlice) : List ResourceSlice :=
  match current with
  | [] => [s]
  | c :: _ =>
    if s.Spec.Pool.Generation < c.Spec.Pool.Generation then current
    else if c.Spec.Pool.Generation < s.Spec.Pool.Generation then [s]
    else current ++ [s]

/-- Modelled from the spec: the slices a consumer uses, found in one pass. -/
def currentSlices (slices : List ResourceSlice) : List ResourceSlice :=
  slices.foldl addSlice []

/-- In the words of the spec: a slice is at the maximum generation observed
when no slice of the collection has a higher generation. -/
def atMaxGeneration (slices : List ResourceSlice) (s : ResourceSlice) : Bool :=
  slices.all (fun t => decide (t.Spec.Pool.Generation ≤ s.Spec.Pool.Generation))

/-- Modelled from the spec: the distinct slices of a collection that belong to
the pool with the given name. -/
def slicesOfPool (all : List ResourceSlice) (pool : String) : List ResourceSlice :=
  (all.filter (fun s => s.Spec.Pool.Name == pool)).dedup

/-- Modelled from the spec: what a consumer sees of a pool: its devices, or
that the view is incomplete. -/
inductive PoolView where
  | incomplete
  | devices (devices : List Device)
  deriving DecidableEq, Repr

/-- Modelled from the spec: the view of a pool given the slices observed. The
devices of the slices at the highest generation are reported when the number
of these slices is the `ResourceSliceCount` each of them declares; otherwise
the pool is incomplete. -/
def gatherPool (all : List ResourceSlice) (pool : String) : PoolView :=
  let current := currentSlices (slicesOfPool all pool)
  if current.all (fun s => s.Spec.Pool.ResourceSliceCount == (current.length : Int)) then
    PoolView.devices (current.flatMap (fun s => s.Spec.Devices))
  else
    PoolView.incomplete

/-- A slice of the pool "pool-a" of the driver "gpu.example.com" on the node
"node-1", with the given object name, generation, slice count and devices. -/
def sampleSlice (name : String) (generation count : Int) (devices : List Device) :
    ResourceSlice :=
  { TypeMeta := { Kind := "ResourceSlice", APIVersion := "resource.k8s.io/v1beta2" }
    ObjectMeta := { Name := name }
    Spec := { Driver := "gpu.example.com"
              Pool := { Name := "pool-a", Generation := generation,
                        ResourceSliceCount := count }
              NodeName := some "node-1", NodeSelector := none, AllNodes := none
              Devices := devices, PerDeviceNodeSelection := none, SharedCounters := [] } }

/-! ## Counters -/

/-- Modelled from the spec: the allocator is not among the sources. The
quantity a slice declares for a counter of one of its counter sets. -/
def declaredCounter (spec : ResourceSliceSpec) (set name : String) : Option Quantity :=
  match spec.SharedCounters.find? (fun s => s.Name == set) with
  | none => none
  | some s => (s.Counters.lookup name).map (fun c => c.Value)

/-- Modelled from the spec: the quantity of a counter that a device declares
to consume in `ConsumesCounters`. -/
def Device.consumption (d : Device) (set name : String) : Quantity :=
  ((d.ConsumesCounters.filter (fun e => e.CounterSet == set)).map
    (fun e => ((e.Counters.lookup name).map (fun c => c.Value)).getD 0)).sum

/-- Modelled from the spec: the consumption of a counter already committed to
the allocated devices. -/
def committed (allocated : List Device) (set name : String) : Quantity :=
  (allocated.map (fun d => d.consumption set name)).sum

/-- The counters a device refers to, as pairs of counter set and counter. -/
def Device.counterRefs (d : Device) : List (String × String) :=
  d.ConsumesCounters.flatMap (fun e => e.Counters.map (fun c => (e.CounterSet, c.1)))

/-- Modelled from the spec: the check made before a device is allocated: for
every counter the device refers to, the slice declares the counter and the
committed consumption plus the consumption of the device does not exceed the
declared quantity. -/
def countersAvailable (spec : ResourceSliceSpec) (allocated : List Device) (d : Device) :
    Bool :=
  d.counterRefs.all (fun r =>
    match declaredCounter spec r.1 r.2 with
    | none => false
    | some q => decide (committed allocated r.1 r.2 + d.consumption r.1 r.2 ≤ q))

/-- Modelled from the spec: allocating one device of a slice: the device is
one of the slice, is not allocated yet and its counters are available;
otherwise the device is no candidate and nothing changes. -/
def allocateDevice (spec : ResourceSliceSpec) (allocated : List Device) (d : Device) :
    Option (List Device) :=
  if spec.Devices.contains d && !allocated.any (fun a => a.Name == d.Name) &&
      countersAvailable spec allocated d then
    some (allocated ++ [d])
  else
    none

/-- Modelled from the spec: one allocation decision for the devices chosen for
a claim: all of them are allocated, or none is. -/
def allocateClaim (spec : ResourceSliceSpec) (allocated : List Device)
    (devices : List Device) : Option (List Device) :=
  devices.foldlM (allocateDevice spec) allocated

/-- Modelled from the spec: the devices allocated after a sequence of
allocation decisions, starting with nothing allocated; a decision that fails
leaves the allocation as it was. -/
def allocateClaims (spec : ResourceSliceSpec) (claims : List (List Device)) : List Device :=
  claims.foldl (fun allocated devices => (allocateClaim spec allocated devices).getD allocated) []

/-- A device that consumes the given quantity of the counter "mem-slices" of
the counter set "gpu-0-counters". -/
def memDevice (name : String) (quantity : Quantity) : Device :=
  { Name := name, Attributes := [], Capacity := []
    ConsumesCounters := [{ CounterSet := "gpu-0-counters",
                           Counters := [("mem-slices", { Value := quantity })] }]
    NodeName := none, NodeSelector := none, AllNodes := none, Taints := []
    BindsToNode := none, BindingConditions := [], BindingFailureConditions := [] }

/-- A slice with the counter "mem-slices" of 32 units and two devices that
consume 20 units each. -/
def memSlice : ResourceSliceSpec :=
  { Driver := "gpu.example.com"
    Pool := { Name := "pool-a", Generation := 1, ResourceSliceCount := 1 }
    NodeName := some "node-1", NodeSelector := none, AllNodes := none
    Devices := [memDevice "gpu-0-part-a" 20, memDevice "gpu-0-part-b" 20]
    PerDeviceNodeSelection := none
    SharedCounters := [{ Name := "gpu-0-counters",
                         Counters := [("mem-slices", { Value := 32 })] }] }

/-! ## JSON -/

/-- A JSON value. -/
inductive Json where
  | null
  | bool (b : Bool)
  | num (n : Int)
  | str (s : String)
  | arr (items : List Json)
  | obj (fields : List (String × Json))

/-- How a Go type is written to JSON and read back: the encoder, the decoder,
the zero value an absent field is read as, and what `omitempty` leaves out. -/
structure Codec (α : Type) where
  enc : α → Json
  dec : Json → Option α
  zero : α
  empty : α → Bool

/-- A codec round-trips when decoding an encoded value gives the value back
and only the zero value is left out by `omitempty`. -/
structure Codec.RoundTrips {α : Type} (c : Codec α) : Prop where
  dec_enc : ∀ a, c.dec (c.enc a) = some a
  eq_zero_of_empty : ∀ a, c.empty a = true → a = c.zero

/-- A codec never writes `null`, which is how a nil pointer is written. -/
def Codec.NeverNull {α : Type} (c : Codec α) : Prop :=
  ∀ a, c.enc a ≠ Json.null

/-- A Go string is written as a JSON string; the empty string is left out by
`omitempty`. -/
def stringCodec : Codec String :=
  { enc := Json.str
    dec := fun j => match j with
      | Json.str s => some s
      | _ => none
    zero := ""
    empty := fun s => s == "" }

/-- A Go `int64` is written as a JSON number; zero is left out by `omitempty`. -/
def intCodec : Codec Int :=
  { enc := Json.num
    dec := fun j => match j with
      | Json.num n => some n
      | _ => none
    zero := 0
    empty := fun n => n == 0 }

/-- A Go `bool` is written as a JSON boolean; `false` is left out by `omitempty`. -/
def boolCodec : Codec Bool :=
  { enc := Json.bool
    dec := fun j => match j with
      | Json.bool b => some b
      | _ => none
    zero := false
    empty := fun b => !b }

/-- A Go pointer is written as `null` when nil and as the value it points to
otherwise; a nil pointer is left out by `omitempty`. -/
def ptrCodec {α : Type} (c : Codec α) : Codec (Option α) :=
  { enc := fun p => match p with
      | none => Json.null
      | some a => c.enc a
    dec := fun j => match j with
      | Json.null => some none
      | j => (c.dec j).map some
    zero := none
    empty := fun p => p.isNone }

/-- Decodes the items of a JSON array one by one. -/
def decodeList {α : Type} (dec : Json → Option α) : List Json → Option (List α)
  | [] => some []
  | j :: rest =>
    match dec j, decodeList dec rest with
    | some a, some as => some (a :: as)
    | _, _ => none

/-- Decodes the values of a JSON object one by one, keeping the keys. -/
def decodeEntries {α : Type} (dec : Json → Option α) :
    List (String × Json) → Option (List (String × α))
  | [] => some []
  | (k, j) :: rest =>
    match dec j, decodeEntries dec rest with
    | some a, some as => some ((k, a) :: as)
    | _, _ => none

/-- A Go slice is written as a JSON array, and `null` is read as the slice
without elements; a slice without elements is left out by `omitempty`. -/
def listCodec {α : Type} (c : Codec α) : Codec (List α) :=
  { enc := fun xs => Json.arr (xs.map c.enc)
    dec := fun j => match j with
      | Json.arr items => decodeList c.dec items
      | Json.null => some []
      | _ => none
    zero := []
    empty := fun xs => xs.isEmpty }

/-- A Go map with string keys is written as a JSON object; a map without
entries is left out by `omitempty`. -/
def mapCodec {α : Type} (c : Codec α) : Codec (List (String × α)) :=
  { enc := fun kvs => Json.obj (kvs.map (fun kv => (kv.1, c.enc kv.2)))
    dec := fun j => match j with
      | Json.obj fields => decodeEntries c.dec fields
      | Json.null => some []
      | _ => none
    zero := []
    empty := fun kvs => kvs.isEmpty }

/-- How the fields of a Go struct are written into a JSON object and read
back: the JSON names used, the entries written for a value, the reading of a
value from the entries of an object, and the zero value. -/
structure FieldsCodec (β : Type) where
  keys : List String
  emit : β → List (String × Json)
  read : List (String × Json) → Option β
  zero : β

/-- The fields round-trip when only entries under their JSON names are
written, and a value is read back from any object in which the entries under
these names are the ones written for it. -/
structure FieldsCodec.RoundTrips {β : Type} (F : FieldsCodec β) : Prop where
  lookup_emit : ∀ b k, k ∉ F.keys → (F.emit b).lookup k = none
  read_emit : ∀ b fs, (∀ k ∈ F.keys, fs.lookup k = (F.emit b).lookup k) → F.read fs = some b

/-- No fields. -/
def FieldsCodec.nil : FieldsCodec Unit :=
  { keys := [], emit := fun _ => [], read := fun _ => some (), zero := () }

/-- A field with a `json` tag followed by other fields: the field is written
under its name unless it is tagged `omitempty` and empty, and an absent entry
is read as the zero value. -/
def FieldsCodec.field {α β : Type} (name : String) (omitempty : Bool) (c : Codec α)
    (rest : FieldsCodec β) : FieldsCodec (α × β) :=
  { keys := name :: rest.keys
    emit := fun p =>
      (if omitempty && c.empty p.1 then [] else [(name, c.enc p.1)]) ++ rest.emit p.2
    read := fun fs =>
      match (match fs.lookup name with
             | none => some c.zero
             | some j => c.dec j), rest.read fs with
      | some a, some b => some (a, b)
      | _, _ => none
    zero := (c.zero, rest.zero) }

/-- An embedded struct tagged `json:",inline"` followed by other fields: its
fields are written into the same object. -/
def FieldsCodec.inline {α β : Type} (F : FieldsCodec α) (rest : FieldsCodec β) :
    FieldsCodec (α × β) :=
  { keys := F.keys ++ rest.keys
    emit := fun p => F.emit p.1 ++ rest.emit p.2
    read := fun fs =>
      match F.read fs, rest.read fs with
      | some a, some b => some (a, b)
      | _, _ => none
    zero := (F.zero, rest.zero) }

/-- A Go struct is written as a JSON object of its fields; `omitempty` never
leaves a struct out. -/
def Codec.object {β : Type} (F : FieldsCodec β) : Codec β :=
  { enc := fun b => Json.obj (F.emit b)
    dec := fun j => match j with
      | Json.obj fields => F.read fields
      | _ => none
    zero := F.zero
    empty := fun _ => false }

/-- The fields of a struct given through its tuple of field values. -/
def FieldsCodec.iso {β γ : Type} (F : FieldsCodec β) (f : β → γ) (g : γ → β) :
    FieldsCodec γ :=
  { keys := F.keys
    emit := fun x => F.emit (g x)
    read := fun fs => (F.read fs).map f
    zero := f F.zero }

/-- The codecs of the types that are declared in other packages. -/
structure ExternalCodecs where
  objectMeta : Codec ObjectMeta
  nodeSelector : Codec NodeSelector
  quantity : Codec Quantity
  time : Codec Time
  rawExtension : Codec RawExtension
  condition : Codec Condition

/-- What the codecs of the structs of `types.go` use of the codecs of the
types of other packages: each is decoded to what was encoded, and those that
are used behind a pointer are never written as `null`. It is proved of
`externalCodecs`. -/
structure ExternalCodecs.RoundTrip (E : ExternalCodecs) : Prop where
  objectMeta : E.objectMeta.RoundTrips
  nodeSelector : E.nodeSelector.RoundTrips
  nodeSelector_neverNull : E.nodeSelector.NeverNull
  quantity : E.quantity.RoundTrips
  time : E.time.RoundTrips
  time_neverNull : E.time.NeverNull
  rawExtension : E.rawExtension.RoundTrips
  rawExtension_neverNull : E.rawExtension.NeverNull
  condition : E.condition.RoundTrips

/-! ## JSON codecs of the API types -/

/-- The JSON fields of `TypeMeta` as its tags declare them: `kind` (omitempty),
`apiVersion` (omitempty). -/
def typeMetaFields : FieldsCodec TypeMeta :=
  FieldsCodec.iso
    (FieldsCodec.field "kind" true stringCodec
      (FieldsCodec.field "apiVersion" true stringCodec
        FieldsCodec.nil))
    (fun (v1, v2, _) => { Kind := v1, APIVersion := v2 })
    (fun x => (x.Kind, x.APIVersion, ()))

/-- The JSON codec of `TypeMeta`: an object with the fields of `typeMetaFields`. -/
def typeMetaCodec : Codec TypeMeta :=
  Codec.object typeMetaFields

/-- The JSON fields of `ResourcePool` as its tags declare them: `name`,
`generation`, `resourceSliceCount`. -/
def resourcePoolFields : FieldsCodec ResourcePool :=
  FieldsCodec.iso
    (FieldsCodec.field "name" false stringCodec
      (FieldsCodec.field "generation" false intCodec
        (FieldsCodec.field "resourceSliceCount" false intCodec
          FieldsCodec.nil)))
    (fun (v1, v2, v3, _) => { Name := v1, Generation := v2, ResourceSliceCount := v3 })
    (fun x => (x.Name, x.Generation, x.ResourceSliceCount, ()))

/-- The JSON codec of `ResourcePool`: an object with the fields of `resourcePoolFields`. -/
def resourcePoolCodec : Codec ResourcePool :=
  Codec.object resourcePoolFields

/-- The JSON fields of `Counter` as its tags declare them: `value`. -/
def counterFields (E : ExternalCodecs) : FieldsCodec Counter :=
  FieldsCodec.iso
    (FieldsCodec.field "value" false E.quantity
      FieldsCodec.nil)
    (fun (v1, _) => { Value := v1 })
    (fun x => (x.Value, ()))

/-- The JSON codec of `Counter`: an object with the fields of `counterFields`. -/
def counterCodec (E : ExternalCodecs) : Codec Counter :=
  Codec.object (counterFields E)

/-- The JSON fields of `CounterSet` as its tags declare them: `name`, `counters`
(omitempty). -/
def counterSetFields (E : ExternalCodecs) : FieldsCodec CounterSet :=
  FieldsCodec.iso
    (FieldsCodec.field "name" false stringCodec
      (FieldsCodec.field "counters" true (mapCodec (counterCodec E))
        FieldsCodec.nil))
    (fun (v1, v2, _) => { Name := v1, Counters := v2 })
    (fun x => (x.Name, x.Counters, ()))

/-- The JSON codec of `CounterSet`: an object with the fields of `counterSetFields`. -/
def counterSetCodec (E : ExternalCodecs) : Codec CounterSet :=
  Codec.object (counterSetFields E)

/-- The JSON fields of `DeviceCounterConsumption` as its tags declare them:
`counterSet`, `counters` (omitempty). -/
def deviceCounterConsumptionFields (E : ExternalCodecs) : FieldsCodec DeviceCounterConsumption :=
  FieldsCodec.iso
    (FieldsCodec.field "counterSet" false stringCodec
      (FieldsCodec.field "counters" true (mapCodec (counterCodec E))
        FieldsCodec.nil))
    (fun (v1, v2, _) => { CounterSet := v1, Counters := v2 })
    (fun x => (x.CounterSet, x.Counters, ()))

/-- The JSON codec of `DeviceCounterConsumption`: an object with the fields of `deviceCounterConsumptionFields`. -/
def deviceCounterConsumptionCodec (E : ExternalCodecs) : Codec DeviceCounterConsumption :=
  Codec.object (deviceCounterConsumptionFields E)

/-- The JSON fields of `DeviceCapacity` as its tags declare them: `value`. -/
def deviceCapacityFields (E : ExternalCodecs) : FieldsCodec DeviceCapacity :=
  FieldsCodec.iso
    (FieldsCodec.field "value" false E.quantity
      FieldsCodec.nil)
    (fun (v1, _) => { Value := v1 })
    (fun x => (x.Value, ()))

/-- The JSON codec of `DeviceCapacity`: an object with the fields of `deviceCapacityFields`. -/
def deviceCapacityCodec (E : ExternalCodecs) : Codec DeviceCapacity :=
  Codec.object (deviceCapacityFields E)

/-- The JSON fields of `DeviceAttribute` as its tags declare them: `int`
(omitempty), `bool` (omitempty), `string` (omitempty), `version`
(omitempty). -/
def deviceAttributeFields : FieldsCodec DeviceAttribute :=
  FieldsCodec.iso
    (FieldsCodec.field "int" true (ptrCodec intCodec)
      (FieldsCodec.field "bool" true (ptrCodec boolCodec)
        (FieldsCodec.field "string" true (ptrCodec stringCodec)
          (FieldsCodec.field "version" true (ptrCodec stringCodec)
            FieldsCodec.nil))))
    (fun (v1, v2, v3, v4, _) =>
      { IntValue := v1
        BoolValue := v2
        StringValue := v3
        VersionValue := v4 })
    (fun x => (x.IntValue, x.BoolValue, x.StringValue, x.VersionValue, ()))

/-- The JSON codec of `DeviceAttribute`: an object with the fields of `deviceAttributeFields`. -/
def deviceAttributeCodec : Codec DeviceAttribute :=
  Codec.object deviceAttributeFields

/-- The JSON fields of `DeviceTaint` as its tags declare them: `key`, `value`
(omitempty), `effect`, `timeAdded` (omitempty). -/
def deviceTaintFields (E : ExternalCodecs) : FieldsCodec DeviceTaint :=
  FieldsCodec.iso
    (FieldsCodec.field "key" false stringCodec
      (FieldsCodec.field "value" true stringCodec
        (FieldsCodec.field "effect" false stringCodec
          (FieldsCodec.field "timeAdded" true (ptrCodec E.time)
            FieldsCodec.nil))))
    (fun (v1, v2, v3, v4, _) => { Key := v1, Value := v2, Effect := v3, TimeAdded := v4 })
    (fun x => (x.Key, x.Value, x.Effect, x.TimeAdded, ()))

/-- The JSON codec of `DeviceTaint`: an object with the fields of `deviceTaintFields`. -/
def deviceTaintCodec (E : ExternalCodecs) : Codec DeviceTaint :=
  Codec.object (deviceTaintFields E)

/-- The JSON fields of `Device` as its tags declare them: `name`, `attributes`
(omitempty), `capacity` (omitempty), `consumesCounters` (omitempty),
`nodeName` (omitempty), `nodeSelector` (omitempty), `allNodes` (omitempty),
`taints` (omitempty), `bindsToNode` (omitempty), `bindingConditions`
(omitempty), `bindingFailureConditions` (omitempty). -/
def deviceFields (E : ExternalCodecs) : FieldsCodec Device :=
  FieldsCodec.iso
    (FieldsCodec.field "name" false stringCodec
      (FieldsCodec.field "attributes" true (mapCodec deviceAttributeCodec)
        (FieldsCodec.field "capacity" true (mapCodec (deviceCapacityCodec E))
          (FieldsCodec.field "consumesCounters" true (listCodec (deviceCounterConsumptionCodec E))
            (FieldsCodec.field "nodeName" true (ptrCodec stringCodec)
              (FieldsCodec.field "nodeSelector" true (ptrCodec E.nodeSelector)
                (FieldsCodec.field "allNodes" true (ptrCodec boolCodec)
                  (FieldsCodec.field "taints" true (listCodec (deviceTaintCodec E))
                    (FieldsCodec.field "bindsToNode" true (ptrCodec boolCodec)
                      (FieldsCodec.field "bindingConditions" true (listCodec stringCodec)
                        (FieldsCodec.field "bindingFailureConditions" true (listCodec stringCodec)
                          FieldsCodec.nil)))))))))))
    (fun (v1, v2, v3, v4, v5, v6, v7, v8, v9, v10, v11, _) =>
      { Name := v1
        Attributes := v2
        Capacity := v3
        ConsumesCounters := v4
        NodeName := v5
        NodeSelector := v6
        AllNodes := v7
        Taints := v8
        BindsToNode := v9
        BindingConditions := v10
        BindingFailureConditions := v11 })
    (fun x => (x.Name, x.Attributes, x.Capacity, x.ConsumesCounters, x.NodeName,
      x.NodeSelector, x.AllNodes, x.Taints, x.BindsToNode, x.BindingConditions,
      x.BindingFailureConditions, ()))

/-- The JSON codec of `Device`: an object with the fields of `deviceFields`. -/
def deviceCodec (E : ExternalCodecs) : Codec Device :=
  Codec.object (deviceFields E)

/-- The JSON fields of `ResourceSliceSpec` as its tags declare them: `driver`,
`pool`, `nodeName` (omitempty), `nodeSelector` (omitempty), `allNodes`
(omitempty), `devices`, `perDeviceNodeSelection` (omitempty),
`sharedCounters` (omitempty). -/
def resourceSliceSpecFields (E : ExternalCodecs) : FieldsCodec ResourceSliceSpec :=
  FieldsCodec.iso
    (FieldsCodec.field "driver" false stringCodec
      (FieldsCodec.field "pool" false resourcePoolCodec
        (FieldsCodec.field "nodeName" true (ptrCodec stringCodec)
          (FieldsCodec.field "nodeSelector" true (ptrCodec E.nodeSelector)
            (FieldsCodec.field "allNodes" true (ptrCodec boolCodec)
              (FieldsCodec.field "devices" false (listCodec (deviceCodec E))
                (FieldsCodec.field "perDeviceNodeSelection" true (ptrCodec boolCodec)
                  (FieldsCodec.field "sharedCounters" true (listCodec (counterSetCodec E))
                    FieldsCodec.nil))))))))
    (fun (v1, v2, v3, v4, v5, v6, v7, v8, _) =>
      { Driver := v1
        Pool := v2
        NodeName := v3
        NodeSelector := v4
        AllNodes := v5
        Devices := v6
        PerDeviceNodeSelection := v7
        SharedCounters := v8 })
    (fun x => (x.Driver, x.Pool, x.NodeName, x.NodeSelector, x.AllNodes, x.Devices,
      x.PerDeviceNodeSelection, x.SharedCounters, ()))

/-- The JSON codec of `ResourceSliceSpec`: an object with the fields of `resourceSliceSpecFields`. -/
def resourceSliceSpecCodec (E : ExternalCodecs) : Codec ResourceSliceSpec :=
  Codec.object (resourceSliceSpecFields E)

/-- The JSON fields of `ResourceSlice` as its tags declare them: the fields of
the embedded `TypeMeta`, `metadata` (omitempty), `spec`. -/
def resourceSliceFields (E : ExternalCodecs) : FieldsCodec ResourceSlice :=
  FieldsCodec.iso
    (FieldsCodec.inline typeMetaFields
      (FieldsCodec.field "metadata" true E.objectMeta
        (FieldsCodec.field "spec" false (resourceSliceSpecCodec E)
          FieldsCodec.nil)))
    (fun (v1, v2, v3, _) => { TypeMeta := v1, ObjectMeta := v2, Spec := v3 })
    (fun x => (x.TypeMeta, x.ObjectMeta, x.Spec, ()))

/-- The JSON codec of `ResourceSlice`: an object with the fields of `resourceSliceFields`. -/
def resourceSliceCodec (E : ExternalCodecs) : Codec ResourceSlice :=
  Codec.object (resourceSliceFields E)

/-- The JSON fields of `DeviceToleration` as its tags declare them: `key`
(omitempty), `operator` (omitempty), `value` (omitempty), `effect`
(omitempty), `tolerationSeconds` (omitempty). -/
def deviceTolerationFields : FieldsCodec DeviceToleration :=
  FieldsCodec.iso
    (FieldsCodec.field "key" true stringCodec
      (FieldsCodec.field "operator" true stringCodec
        (FieldsCodec.field "value" true stringCodec
          (FieldsCodec.field "effect" true stringCodec
            (FieldsCodec.field "tolerationSeconds" true (ptrCodec intCodec)
              FieldsCodec.nil)))))
    (fun (v1, v2, v3, v4, v5, _) =>
      { Key := v1
        Operator := v2
        Value := v3
        Effect := v4
        TolerationSeconds := v5 })
    (fun x => (x.Key, x.Operator, x.Value, x.Effect, x.TolerationSeconds, ()))

/-- The JSON codec of `DeviceToleration`: an object with the fields of `deviceTolerationFields`. -/
def deviceTolerationCodec : Codec DeviceToleration :=
  Codec.object deviceTolerationFields

/-- The JSON fields of `CELDeviceSelector` as its tags declare them:
`expression`. -/
def celDeviceSelectorFields : FieldsCodec CELDeviceSelector :=
  FieldsCodec.iso
    (FieldsCodec.field "expression" false stringCodec
      FieldsCodec.nil)
    (fun (v1, _) => { Expression := v1 })
    (fun x => (x.Expression, ()))

/-- The JSON codec of `CELDeviceSelector`: an object with the fields of `celDeviceSelectorFields`. -/
def celDeviceSelectorCodec : Codec CELDeviceSelector :=
  Codec.object celDeviceSelectorFields

/-- The JSON fields of `DeviceSelector` as its tags declare them: `cel`
(omitempty). -/
def deviceSelectorFields : FieldsCodec DeviceSelector :=
  FieldsCodec.iso
    (FieldsCodec.field "cel" true (ptrCodec celDeviceSelectorCodec)
      FieldsCodec.nil)
    (fun (v1, _) => { CEL := v1 })
    (fun x => (x.CEL, ()))

/-- The JSON codec of `DeviceSelector`: an object with the fields of `deviceSelectorFields`. -/
def deviceSelectorCodec : Codec DeviceSelector :=
  Codec.object deviceSelectorFields

/-- The JSON fields of `ExactDeviceRequest` as its tags declare them:
`deviceClassName`, `selectors` (omitempty), `allocationMode` (omitempty),
`count` (omitempty), `adminAccess` (omitempty), `tolerations` (omitempty). -/
def exactDeviceRequestFields : FieldsCodec ExactDeviceRequest :=
  FieldsCodec.iso
    (FieldsCodec.field "deviceClassName" false stringCodec
      (FieldsCodec.field "selectors" true (listCodec deviceSelectorCodec)
        (FieldsCodec.field "allocationMode" true stringCodec
          (FieldsCodec.field "count" true intCodec
            (FieldsCodec.field "adminAccess" true (ptrCodec boolCodec)
              (FieldsCodec.field "tolerations" true (listCodec deviceTolerationCodec)
                FieldsCodec.nil))))))
    (fun (v1, v2, v3, v4, v5, v6, _) =>
      { DeviceClassName := v1
        Selectors := v2
        AllocationMode := v3
        Count := v4
        AdminAccess := v5
        Tolerations := v6 })
    (fun x => (x.DeviceClassName, x.Selectors, x.AllocationMode, x.Count,
      x.AdminAccess, x.Tolerations, ()))

/-- The JSON codec of `ExactDeviceRequest`: an object with the fields of `exactDeviceRequestFields`. -/
def exactDeviceRequestCodec : Codec ExactDeviceRequest :=
  Codec.object exactDeviceRequestFields

/-- The JSON fields of `DeviceSubRequest` as its tags declare them: `name`,
`deviceClassName`, `selectors` (omitempty), `allocationMode` (omitempty),
`count` (omitempty), `tolerations` (omitempty). -/
def deviceSubRequestFields : FieldsCodec DeviceSubRequest :=
  FieldsCodec.iso
    (FieldsCodec.field "name" false stringCodec
      (FieldsCodec.field "deviceClassName" false stringCodec
        (FieldsCodec.field "selectors" true (listCodec deviceSelectorCodec)
          (FieldsCodec.field "allocationMode" true stringCodec
            (FieldsCodec.field "count" true intCodec
              (FieldsCodec.field "tolerations" true (listCodec deviceTolerationCodec)
                FieldsCodec.nil))))))
    (fun (v1, v2, v3, v4, v5, v6, _) =>
      { Name := v1
        DeviceClassName := v2
        Selectors := v3
        AllocationMode := v4
        Count := v5
        Tolerations := v6 })
    (fun x => (x.Name, x.DeviceClassName, x.Selectors, x.AllocationMode, x.Count,
      x.Tolerations, ()))

/-- The JSON codec of `DeviceSubRequest`: an object with the fields of `deviceSubRequestFields`. -/
def deviceSubRequestCodec : Codec DeviceSubRequest :=
  Codec.object deviceSubRequestFields

/-- The JSON fields of `DeviceRequest` as its tags declare them: `name`,
`exactly` (omitempty), `firstAvailable` (omitempty). -/
def deviceRequestFields : FieldsCodec DeviceRequest :=
  FieldsCodec.iso
    (FieldsCodec.field "name" false stringCodec
      (FieldsCodec.field "exactly" true (ptrCodec exactDeviceRequestCodec)
        (FieldsCodec.field "firstAvailable" true (listCodec deviceSubRequestCodec)
          FieldsCodec.nil)))
    (fun (v1, v2, v3, _) => { Name := v1, Exactly := v2, FirstAvailable := v3 })
    (fun x => (x.Name, x.Exactly, x.FirstAvailable, ()))

/-- The JSON codec of `DeviceRequest`: an object with the fields of `deviceRequestFields`. -/
def deviceRequestCodec : Codec DeviceRequest :=
  Codec.object deviceRequestFields

/-- The JSON fields of `DeviceConstraint` as its tags declare them: `requests`
(omitempty), `matchAttribute` (omitempty). -/
def deviceConstraintFields : FieldsCodec DeviceConstraint :=
  FieldsCodec.iso
    (FieldsCodec.field "requests" true (listCodec stringCodec)
      (FieldsCodec.field "matchAttribute" true (ptrCodec stringCodec)
        FieldsCodec.nil))
    (fun (v1, v2, _) => { Requests := v1, MatchAttribute := v2 })
    (fun x => (x.Requests, x.MatchAttribute, ()))

/-- The JSON codec of `DeviceConstraint`: an object with the fields of `deviceConstraintFields`. -/
def deviceConstraintCodec : Codec DeviceConstraint :=
  Codec.object deviceConstraintFields

/-- The JSON fields of `OpaqueDeviceConfiguration` as its tags declare them:
`driver`, `parameters`. -/
def opaqueDeviceConfigurationFields (E : ExternalCodecs) : FieldsCodec OpaqueDeviceConfiguration :=
  FieldsCodec.iso
    (FieldsCodec.field "driver" false stringCodec
      (FieldsCodec.field "parameters" false E.rawExtension
        FieldsCodec.nil))
    (fun (v1, v2, _) => { Driver := v1, Parameters := v2 })
    (fun x => (x.Driver, x.Parameters, ()))

/-- The JSON codec of `OpaqueDeviceConfiguration`: an object with the fields of `opaqueDeviceConfigurationFields`. -/
def opaqueDeviceConfigurationCodec (E : ExternalCodecs) : Codec OpaqueDeviceConfiguration :=
  Codec.object (opaqueDeviceConfigurationFields E)

/-- The JSON fields of `DeviceConfiguration` as its tags declare them: `opaque`
(omitempty). -/
def deviceConfigurationFields (E : ExternalCodecs) : FieldsCodec DeviceConfiguration :=
  FieldsCodec.iso
    (FieldsCodec.field "opaque" true (ptrCodec (opaqueDeviceConfigurationCodec E))
      FieldsCodec.nil)
    (fun (v1, _) => { Opaque := v1 })
    (fun x => (x.Opaque, ()))

/-- The JSON codec of `DeviceConfiguration`: an object with the fields of `deviceConfigurationFields`. -/
def deviceConfigurationCodec (E : ExternalCodecs) : Codec DeviceConfiguration :=
  Codec.object (deviceConfigurationFields E)

/-- The JSON fields of `DeviceClaimConfiguration` as its tags declare them:
`requests` (omitempty), the fields of the embedded `DeviceConfiguration`. -/
def deviceClaimConfigurationFields (E : ExternalCodecs) : FieldsCodec DeviceClaimConfiguration :=
  FieldsCodec.iso
    (FieldsCodec.field "requests" true (listCodec stringCodec)
      (FieldsCodec.inline (deviceConfigurationFields E)
        FieldsCodec.nil))
    (fun (v1, v2, _) => { Requests := v1, DeviceConfiguration := v2 })
    (fun x => (x.Requests, x.DeviceConfiguration, ()))

/-- The JSON codec of `DeviceClaimConfiguration`: an object with the fields of `deviceClaimConfigurationFields`. -/
def deviceClaimConfigurationCodec (E : ExternalCodecs) : Codec DeviceClaimConfiguration :=
  Codec.object (deviceClaimConfigurationFields E)

/-- The JSON fields of `DeviceClaim` as its tags declare them: `requests`,
`constraints` (omitempty), `config` (omitempty). -/
def deviceClaimFields (E : ExternalCodecs) : FieldsCodec DeviceClaim :=
  FieldsCodec.iso
    (FieldsCodec.field "requests" false (listCodec deviceRequestCodec)
      (FieldsCodec.field "constraints" true (listCodec deviceConstraintCodec)
        (FieldsCodec.field "config" true (listCodec (deviceClaimConfigurationCodec E))
          FieldsCodec.nil)))
    (fun (v1, v2, v3, _) => { Requests := v1, Constraints := v2, Config := v3 })
    (fun x => (x.Requests, x.Constraints, x.Config, ()))

/-- The JSON codec of `DeviceClaim`: an object with the fields of `deviceClaimFields`. -/
def deviceClaimCodec (E : ExternalCodecs) : Codec DeviceClaim :=
  Codec.object (deviceClaimFields E)

/-- The JSON fields of `ResourceClaimSpec` as its tags declare them: `devices`. -/
def resourceClaimSpecFields (E : ExternalCodecs) : FieldsCodec ResourceClaimSpec :=
  FieldsCodec.iso
    (FieldsCodec.field "devices" false (deviceClaimCodec E)
      FieldsCodec.nil)
    (fun (v1, _) => { Devices := v1 })
    (fun x => (x.Devices, ()))

/-- The JSON codec of `ResourceClaimSpec`: an object with the fields of `resourceClaimSpecFields`. -/
def resourceClaimSpecCodec (E : ExternalCodecs) : Codec ResourceClaimSpec :=
  Codec.object (resourceClaimSpecFields E)

/-- The JSON fields of `ResourceClaimConsumerReference` as its tags declare
them: `apiGroup` (omitempty), `resource`, `name`, `uid`. -/
def resourceClaimConsumerReferenceFields : FieldsCodec ResourceClaimConsumerReference :=
  FieldsCodec.iso
    (FieldsCodec.field "apiGroup" true stringCodec
      (FieldsCodec.field "resource" false stringCodec
        (FieldsCodec.field "name" false stringCodec
          (FieldsCodec.field "uid" false stringCodec
            FieldsCodec.nil))))
    (fun (v1, v2, v3, v4, _) => { APIGroup := v1, Resource := v2, Name := v3, UID := v4 })
    (fun x => (x.APIGroup, x.Resource, x.Name, x.UID, ()))

/-- The JSON codec of `ResourceClaimConsumerReference`: an object with the fields of `resourceClaimConsumerReferenceFields`. -/
def resourceClaimConsumerReferenceCodec : Codec ResourceClaimConsumerReference :=
  Codec.object resourceClaimConsumerReferenceFields

/-- The JSON fields of `DeviceRequestAllocationResult` as its tags declare them:
`request`, `driver`, `pool`, `device`, `adminAccess` (omitempty),
`tolerations` (omitempty), `bindingConditions` (omitempty),
`bindingFailureConditions` (omitempty). -/
def deviceRequestAllocationResultFields : FieldsCodec DeviceRequestAllocationResult :=
  FieldsCodec.iso
    (FieldsCodec.field "request" false stringCodec
      (FieldsCodec.field "driver" false stringCodec
        (FieldsCodec.field "pool" false stringCodec
          (FieldsCodec.field "device" false stringCodec
            (FieldsCodec.field "adminAccess" true (ptrCodec boolCodec)
              (FieldsCodec.field "tolerations" true (listCodec deviceTolerationCodec)
                (FieldsCodec.field "bindingConditions" true (listCodec stringCodec)
                  (FieldsCodec.field "bindingFailureConditions" true (listCodec stringCodec)
                    FieldsCodec.nil))))))))
    (fun (v1, v2, v3, v4, v5, v6, v7, v8, _) =>
      { Request := v1
        Driver := v2
        Pool := v3
        Device := v4
        AdminAccess := v5
        Tolerations := v6
        BindingConditions := v7
        BindingFailureConditions := v8 })
    (fun x => (x.Request, x.Driver, x.Pool, x.Device, x.AdminAccess, x.Tolerations,
      x.BindingConditions, x.BindingFailureConditions, ()))

/-- The JSON codec of `DeviceRequestAllocationResult`: an object with the fields of `deviceRequestAllocationResultFields`. -/
def deviceRequestAllocationResultCodec : Codec DeviceRequestAllocationResult :=
  Codec.object deviceRequestAllocationResultFields

/-- The JSON fields of `DeviceAllocationConfiguration` as its tags declare them:
`source`, `requests` (omitempty), the fields of the embedded
`DeviceConfiguration`. -/
def deviceAllocationConfigurationFields (E : ExternalCodecs) : FieldsCodec DeviceAllocationConfiguration :=
  FieldsCodec.iso
    (FieldsCodec.field "source" false stringCodec
      (FieldsCodec.field "requests" true (listCodec stringCodec)
        (FieldsCodec.inline (deviceConfigurationFields E)
          FieldsCodec.nil)))
    (fun (v1, v2, v3, _) => { Source := v1, Requests := v2, DeviceConfiguration := v3 })
    (fun x => (x.Source, x.Requests, x.DeviceConfiguration, ()))

/-- The JSON codec of `DeviceAllocationConfiguration`: an object with the fields of `deviceAllocationConfigurationFields`. -/
def deviceAllocationConfigurationCodec (E : ExternalCodecs) : Codec DeviceAllocationConfiguration :=
  Codec.object (deviceAllocationConfigurationFields E)

/-- The JSON fields of `DeviceAllocationResult` as its tags declare them:
`results` (omitempty), `config` (omitempty). -/
def deviceAllocationResultFields (E : ExternalCodecs) : FieldsCodec DeviceAllocationResult :=
  FieldsCodec.iso
    (FieldsCodec.field "results" true (listCodec deviceRequestAllocationResultCodec)
      (FieldsCodec.field "config" true (listCodec (deviceAllocationConfigurationCodec E))
        FieldsCodec.nil))
    (fun (v1, v2, _) => { Results := v1, Config := v2 })
    (fun x => (x.Results, x.Config, ()))

/-- The JSON codec of `DeviceAllocationResult`: an object with the fields of `deviceAllocationResultFields`. -/
def deviceAllocationResultCodec (E : ExternalCodecs) : Codec DeviceAllocationResult :=
  Codec.object (deviceAllocationResultFields E)

/-- The JSON fields of `AllocationResult` as its tags declare them: `devices`
(omitempty), `nodeSelector` (omitempty), `allocationTimestamp` (omitempty). -/
def allocationResultFields (E : ExternalCodecs) : FieldsCodec AllocationResult :=
  FieldsCodec.iso
    (FieldsCodec.field "devices" true (deviceAllocationResultCodec E)
      (FieldsCodec.field "nodeSelector" true (ptrCodec E.nodeSelector)
        (FieldsCodec.field "allocationTimestamp" true (ptrCodec E.time)
          FieldsCodec.nil)))
    (fun (v1, v2, v3, _) => { Devices := v1, NodeSelector := v2, AllocationTimestamp := v3 })
    (fun x => (x.Devices, x.NodeSelector, x.AllocationTimestamp, ()))

/-- The JSON codec of `AllocationResult`: an object with the fields of `allocationResultFields`. -/
def allocationResultCodec (E : ExternalCodecs) : Codec AllocationResult :=
  Codec.object (allocationResultFields E)

/-- The JSON fields of `NetworkDeviceData` as its tags declare them:
`interfaceName` (omitempty), `ips` (omitempty), `hardwareAddress`
(omitempty). -/
def networkDeviceDataFields : FieldsCodec NetworkDeviceData :=
  FieldsCodec.iso
    (FieldsCodec.field "interfaceName" true stringCodec
      (FieldsCodec.field "ips" true (listCodec stringCodec)
        (FieldsCodec.field "hardwareAddress" true stringCodec
          FieldsCodec.nil)))
    (fun (v1, v2, v3, _) => { InterfaceName := v1, IPs := v2, HardwareAddress := v3 })
    (fun x => (x.InterfaceName, x.IPs, x.HardwareAddress, ()))

/-- The JSON codec of `NetworkDeviceData`: an object with the fields of `networkDeviceDataFields`. -/
def networkDeviceDataCodec : Codec NetworkDeviceData :=
  Codec.object networkDeviceDataFields

/-- The JSON fields of `AllocatedDeviceStatus` as its tags declare them:
`driver`, `pool`, `device`, `conditions`, `data` (omitempty), `networkData`
(omitempty). -/
def allocatedDeviceStatusFields (E : ExternalCodecs) : FieldsCodec AllocatedDeviceStatus :=
  FieldsCodec.iso
    (FieldsCodec.field "driver" false stringCodec
      (FieldsCodec.field "pool" false stringCodec
        (FieldsCodec.field "device" false stringCodec
          (FieldsCodec.field "conditions" false (listCodec E.condition)
            (FieldsCodec.field "data" true (ptrCodec E.rawExtension)
              (FieldsCodec.field "networkData" true (ptrCodec networkDeviceDataCodec)
                FieldsCodec.nil))))))
    (fun (v1, v2, v3, v4, v5, v6, _) =>
      { Driver := v1
        Pool := v2
        Device := v3
        Conditions := v4
        Data := v5
        NetworkData := v6 })
    (fun x => (x.Driver, x.Pool, x.Device, x.Conditions, x.Data, x.NetworkData, ()))

/-- The JSON codec of `AllocatedDeviceStatus`: an object with the fields of `allocatedDeviceStatusFields`. -/
def allocatedDeviceStatusCodec (E : ExternalCodecs) : Codec AllocatedDeviceStatus :=
  Codec.object (allocatedDeviceStatusFields E)

/-- The JSON fields of `ResourceClaimStatus` as its tags declare them:
`allocation` (omitempty), `reservedFor` (omitempty), `devices` (omitempty). -/
def resourceClaimStatusFields (E : ExternalCodecs) : FieldsCodec ResourceClaimStatus :=
  FieldsCodec.iso
    (FieldsCodec.field "allocation" true (ptrCodec (allocationResultCodec E))
      (FieldsCodec.field "reservedFor" true (listCodec resourceClaimConsumerReferenceCodec)
        (FieldsCodec.field "devices" true (listCodec (allocatedDeviceStatusCodec E))
          FieldsCodec.nil)))
    (fun (v1, v2, v3, _) => { Allocation := v1, ReservedFor := v2, Devices := v3 })
    (fun x => (x.Allocation, x.ReservedFor, x.Devices, ()))

/-- The JSON codec of `ResourceClaimStatus`: an object with the fields of `resourceClaimStatusFields`. -/
def resourceClaimStatusCodec (E : ExternalCodecs) : Codec ResourceClaimStatus :=
  Codec.object (resourceClaimStatusFields E)

/-- The JSON fields of `ResourceClaim` as its tags declare them: the fields of
the embedded `TypeMeta`, `metadata` (omitempty), `spec`, `status`
(omitempty). -/
def resourceClaimFields (E : ExternalCodecs) : FieldsCodec ResourceClaim :=
  FieldsCodec.iso
    (FieldsCodec.inline typeMetaFields
      (FieldsCodec.field "metadata" true E.objectMeta
        (FieldsCodec.field "spec" false (resourceClaimSpecCodec E)
          (FieldsCodec.field "status" true (resourceClaimStatusCodec E)
            FieldsCodec.nil))))
    (fun (v1, v2, v3, v4, _) => { TypeMeta := v1, ObjectMeta := v2, Spec := v3, Status := v4 })
    (fun x => (x.TypeMeta, x.ObjectMeta, x.Spec, x.Status, ()))

/-- The JSON codec of `ResourceClaim`: an object with the fields of `resourceClaimFields`. -/
def resourceClaimCodec (E : ExternalCodecs) : Codec ResourceClaim :=
  Codec.object (resourceClaimFields E)

/-- The JSON fields of `DeviceClassConfiguration` as its tags declare them: the
fields of the embedded `DeviceConfiguration`. -/
def deviceClassConfigurationFields (E : ExternalCodecs) : FieldsCodec DeviceClassConfiguration :=
  FieldsCodec.iso
    (FieldsCodec.inline (deviceConfigurationFields E)
      FieldsCodec.nil)
    (fun (v1, _) => { DeviceConfiguration := v1 })
    (fun x => (x.DeviceConfiguration, ()))

/-- The JSON codec of `DeviceClassConfiguration`: an object with the fields of `deviceClassConfigurationFields`. -/
def deviceClassConfigurationCodec (E : ExternalCodecs) : Codec DeviceClassConfiguration :=
  Codec.object (deviceClassConfigurationFields E)

/-- The JSON fields of `DeviceClassSpec` as its tags declare them: `selectors`
(omitempty), `config` (omitempty). -/
def deviceClassSpecFields (E : ExternalCodecs) : FieldsCodec DeviceClassSpec :=
  FieldsCodec.iso
    (FieldsCodec.field "selectors" true (listCodec deviceSelectorCodec)
      (FieldsCodec.field "config" true (listCodec (deviceClassConfigurationCodec E))
        FieldsCodec.nil))
    (fun (v1, v2, _) => { Selectors := v1, Config := v2 })
    (fun x => (x.Selectors, x.Config, ()))

/-- The JSON codec of `DeviceClassSpec`: an object with the fields of `deviceClassSpecFields`. -/
def deviceClassSpecCodec (E : ExternalCodecs) : Codec DeviceClassSpec :=
  Codec.object (deviceClassSpecFields E)

/-- The JSON fields of `DeviceClass` as its tags declare them: the fields of the
embedded `TypeMeta`, `metadata` (omitempty), `spec`. -/
def deviceClassFields (E : ExternalCodecs) : FieldsCodec DeviceClass :=
  FieldsCodec.iso
    (FieldsCodec.inline typeMetaFields
      (FieldsCodec.field "metadata" true E.objectMeta
        (FieldsCodec.field "spec" false (deviceClassSpecCodec E)
          FieldsCodec.nil)))
    (fun (v1, v2, v3, _) => { TypeMeta := v1, ObjectMeta := v2, Spec := v3 })
    (fun x => (x.TypeMeta, x.ObjectMeta, x.Spec, ()))

/-- The JSON codec of `DeviceClass`: an object with the fields of `deviceClassFields`. -/
def deviceClassCodec (E : ExternalCodecs) : Codec DeviceClass :=
  Codec.object (deviceClassFields E)

/-- Modelled from the spec: the codecs of the types of other packages, which
are not among the sources and whose encoding the spec leaves to these
packages. Each type is written in the plain JSON form of what is kept of it:
the object metadata as an object with a name, a node selector as an object
with its terms, a quantity and a time as numbers, a raw extension as an object
with its text, and a condition as an object with its type and status. -/
def externalCodecs : ExternalCodecs :=
  { objectMeta := Codec.object
      (FieldsCodec.iso (FieldsCodec.field "name" true stringCodec FieldsCodec.nil)
        (fun (v1, _) => { Name := v1 }) (fun x => (x.Name, ())))
    nodeSelector := Codec.object
      (FieldsCodec.iso
        (FieldsCodec.field "nodeSelectorTerms" false (listCodec stringCodec) FieldsCodec.nil)
        (fun (v1, _) => { NodeSelectorTerms := v1 }) (fun x => (x.NodeSelectorTerms, ())))
    quantity :=
      { enc := fun q => Json.num (q : Int)
        dec := fun j => match j with
          | Json.num n => if 0 ≤ n then some n.toNat else none
          | _ => none
        zero := 0
        empty := fun q => q == 0 }
    time := intCodec
    rawExtension := Codec.object
      (FieldsCodec.iso (FieldsCodec.field "raw" false stringCodec FieldsCodec.nil)
        (fun (v1, _) => { Raw := v1 }) (fun x => (x.Raw, ())))
    condition := Codec.object
      (FieldsCodec.iso
        (FieldsCodec.field "type" false stringCodec
          (FieldsCodec.field "status" false stringCodec FieldsCodec.nil))
        (fun (v1, v2, _) => { ConditionType := v1, Status := v2 })
        (fun x => (x.ConditionType, x.Status, ()))) }

/-! ## Further constants -/

/-- Mirror of the constant `ResourceSliceSelectorNodeName`. -/
def ResourceSliceSelectorNodeName : String := "spec.nodeName"

/-- Mirror of the constant `ResourceSliceSelectorDriver`. -/
def ResourceSliceSelectorDriver : String := "spec.driver"

/-- Mirror of the constant `DriverNameMaxLength`. -/
def DriverNameMaxLength : Nat := 63

/-- Modelled from the spec: `validation.DNS1123SubdomainMaxLength` is declared
in `k8s.io/apimachinery/pkg/util/validation`, which is not among the sources;
the comment on `ResourcePool.Name` gives the value, 253 characters. -/
def DNS1123SubdomainMaxLength : Nat := 253

/-- Mirror of the constant `PoolNameMaxLength`. -/
def PoolNameMaxLength : Nat := DNS1123SubdomainMaxLength

/-- Mirror of the constant `DeviceMaxDomainLength`. -/
def DeviceMaxDomainLength : Nat := 63

/-- Mirror of the constant `DeviceMaxIDLength`. -/
def DeviceMaxIDLength : Nat := 32

/-- Mirror of the constant `DeviceAttributeMaxValueLength`. -/
def DeviceAttributeMaxValueLength : Nat := 64

/-- Mirror of the constant `AllocationResultsMaxSize`. -/
def AllocationResultsMaxSize : Nat := 32

/-- Mirror of the constant `DeviceRequestsMaxSize`, declared as
`AllocationResultsMaxSize`. -/
def DeviceRequestsMaxSize : Nat := AllocationResultsMaxSize

/-- Mirror of the constant `DeviceConstraintsMaxSize`. -/
def DeviceConstraintsMaxSize : Nat := 32

/-- Mirror of the constant `DeviceConfigMaxSize`. -/
def DeviceConfigMaxSize : Nat := 32

/-- Mirror of the constant `DeviceSelectorsMaxSize`. -/
def DeviceSelectorsMaxSize : Nat := 32

/-- Mirror of the constant `FirstAvailableDeviceRequestMaxSize`. -/
def FirstAvailableDeviceRequestMaxSize : Nat := 8

/-- Mirror of the constant `DeviceTolerationsMaxLength`. -/
def DeviceTolerationsMaxLength : Nat := 16

/-- Mirror of the constant `ResourceClaimReservedForMaxSize`. -/
def ResourceClaimReservedForMaxSize : Nat := 256

/-- Mirror of the constant `AllocatedDeviceStatusMaxConditions`, declared with
the type `int`. -/
def AllocatedDeviceStatusMaxConditions : Int := 8

/-- The form `<domain>/<ID>` of a fully qualified name, as the comments on
`QualifiedName` and `DeviceMaxIDLength` give it. -/
def fullyQualifiedName (domain id : String) : FullyQualifiedName :=
  domain ++ "/" ++ id

/-! ## Counters consumed by the devices of a slice -/

/-- The number of counters of all devices of a slice: the quantity that
`ResourceSliceMaxDeviceCountersPerSlice` bounds. -/
def ResourceSliceSpec.deviceCounterCount (spec : ResourceSliceSpec) : Nat :=
  (spec.Devices.map Device.counterCount).sum

/-- A device named `dev-i` that consumes `k` counters of one counter set. -/
def counterDevice (i k : Nat) : Device :=
  { Name := "dev-" ++ toString i
    Attributes := []
    Capacity := []
    ConsumesCounters :=
      [{ CounterSet := "set-a"
         Counters := (List.range k).map (fun j => ("counter-" ++ toString j, { Value := 1 })) }]
    NodeName := none
    NodeSelector := none
    AllNodes := none
    Taints := []
    BindsToNode := none
    BindingConditions := []
    BindingFailureConditions := [] }

/-- A slice of `n` devices that consume `k` counters each. -/
def counterSlice (n k : Nat) : ResourceSliceSpec :=
  { Driver := "gpu.example.com"
    Pool := { Name := "pool-a", Generation := 1, ResourceSliceCount := 1 }
    NodeName := some "node-1"
    NodeSelector := none
    AllNodes := none
    Devices := (List.range n).map (fun i => counterDevice i k)
    PerDeviceNodeSelection := none
    SharedCounters := [] }

/-! ## Struct tags -/

/-- The tags of one struct field: the Go name of the field, its Go type, the
name in its `json` tag (empty for an inlined field), the `omitempty` and
`inline` options of that tag, and the field number of its `protobuf` tag
(`none` where the field has no such tag). -/
structure FieldTag where
  goName : String
  goType : String
  jsonName : String
  omitempty : Bool
  inline : Bool
  protobuf : Option Nat
  deriving DecidableEq, Repr

/-- The tags of one struct: its name, its fields in the order of declaration,
and the fields that are kept as a comment only. -/
structure StructTags where
  name : String
  fields : List FieldTag
  tombstones : List FieldTag
  deriving DecidableEq, Repr

/-- The tags of every struct of `types.go`, in the order of declaration. A
field that is commented out in the source (a tombstone) is listed under
`tombstones`, with the tags its comment still carries. -/
def structTags : List StructTags :=
  [{ name := "ResourceSlice"
     fields := [⟨"TypeMeta", "metav1.TypeMeta", "", false, true, none⟩,
       ⟨"ObjectMeta", "metav1.ObjectMeta", "metadata", true, false, some 1⟩,
       ⟨"Spec", "ResourceSliceSpec", "spec", false, false, some 2⟩]
     tombstones := [] },
   { name := "ResourceSliceSpec"
     fields := [⟨"Driver", "string", "driver", false, false, some 1⟩,
       ⟨"Pool", "ResourcePool", "pool", false, false, some 2⟩,
       ⟨"NodeName", "*string", "nodeName", true, false, some 3⟩,
       ⟨"NodeSelector", "*v1.NodeSelector", "nodeSelector", true, false, some 4⟩,
       ⟨"AllNodes", "*bool", "allNodes", true, false, some 5⟩,
       ⟨"Devices", "[]Device", "devices", false, false, some 6⟩,
       ⟨"PerDeviceNodeSelection", "*bool", "perDeviceNodeSelection", true, false, some 7⟩,
       ⟨"SharedCounters", "[]CounterSet", "sharedCounters", true, false, some 8⟩]
     tombstones := [] },
   { name := "CounterSet"
     fields := [⟨"Name", "string", "name", false, false, some 1⟩,
       ⟨"Counters", "map[string]Counter", "counters", true, false, some 2⟩]
     tombstones := [] },
   { name := "ResourcePool"
     fields := [⟨"Name", "string", "name", false, false, some 1⟩,
       ⟨"Generation", "int64", "generation", false, false, some 2⟩,
       ⟨"ResourceSliceCount", "int64", "resourceSliceCount", false, false, some 3⟩]
     tombstones := [] },
   { name := "Device"
     fields := [⟨"Name", "string", "name", false, false, some 1⟩,
       ⟨"Attributes", "map[QualifiedName]DeviceAttribute", "attributes", true, false, some 2⟩,
       ⟨"Capacity", "map[QualifiedName]DeviceCapacity", "capacity", true, false, some 3⟩,
       ⟨"ConsumesCounters", "[]DeviceCounterConsumption", "consumesCounters", true, false, some 4⟩,
       ⟨"NodeName", "*string", "nodeName", true, false, some 5⟩,
       ⟨"NodeSelector", "*v1.NodeSelector", "nodeSelector", true, false, some 6⟩,
       ⟨"AllNodes", "*bool", "allNodes", true, false, some 7⟩,
       ⟨"Taints", "[]DeviceTaint", "taints", true, false, some 8⟩,
       ⟨"BindsToNode", "*bool", "bindsToNode", true, false, some 9⟩,
       ⟨"BindingConditions", "[]string", "bindingConditions", true, false, some 10⟩,
       ⟨"BindingFailureConditions", "[]string", "bindingFailureConditions", true, false, some 11⟩]
     tombstones := [] },
   { name := "DeviceCounterConsumption"
     fields := [⟨"CounterSet", "string", "counterSet", false, false, some 1⟩,
       ⟨"Counters", "map[string]Counter", "counters", true, false, some 2⟩]
     tombstones := [] },
   { name := "DeviceCapacity"
     fields := [⟨"Value", "resource.Quantity", "value", false, false, some 1⟩]
     tombstones := [] },
   { name := "Counter"
     fields := [⟨"Value", "resource.Quantity", "value", false, false, some 1⟩]
     tombstones := [] },
   { name := "DeviceAttribute"
     fields := [⟨"IntValue", "*int64", "int", true, false, some 2⟩,
       ⟨"BoolValue", "*bool", "bool", true, false, some 3⟩,
       ⟨"StringValue", "*string", "string", true, false, some 4⟩,
       ⟨"VersionValue", "*string", "version", true, false, some 5⟩]
     tombstones := [] },
   { name := "DeviceTaint"
     fields := [⟨"Key", "string", "key", false, false, some 1⟩,
       ⟨"Value", "string", "value", true, false, some 2⟩,
       ⟨"Effect", "DeviceTaintEffect", "effect", false, false, some 3⟩,
       ⟨"TimeAdded", "*metav1.Time", "timeAdded", true, false, some 4⟩]
     tombstones := [] },
   { name := "ResourceSliceList"
     fields := [⟨"TypeMeta", "metav1.TypeMeta", "", false, true, none⟩,
       ⟨"ListMeta", "metav1.ListMeta", "metadata", true, false, some 1⟩,
       ⟨"Items", "[]ResourceSlice", "items", false, false, some 2⟩]
     tombstones := [] },
   { name := "ResourceClaim"
     fields := [⟨"TypeMeta", "metav1.TypeMeta", "", false, true, none⟩,
       ⟨"ObjectMeta", "metav1.ObjectMeta", "metadata", true, false, some 1⟩,
       ⟨"Spec", "ResourceClaimSpec", "spec", false, false, some 2⟩,
       ⟨"Status", "ResourceClaimStatus", "status", true, false, some 3⟩]
     tombstones := [] },
   { name := "ResourceClaimSpec"
     fields := [⟨"Devices", "DeviceClaim", "devices", false, false, some 1⟩]
     tombstones := [⟨"Controller", "string", "controller", true, false, some 2⟩] },
   { name := "DeviceClaim"
     fields := [⟨"Requests", "[]DeviceRequest", "requests", false, false, some 1⟩,
       ⟨"Constraints", "[]DeviceConstraint", "constraints", true, false, some 2⟩,
       ⟨"Config", "[]DeviceClaimConfiguration", "config", true, false, some 3⟩]
     tombstones := [] },
   { name := "DeviceRequest"
     fields := [⟨"Name", "string", "name", false, false, some 1⟩,
       ⟨"Exactly", "*ExactDeviceRequest", "exactly", true, false, some 2⟩,
       ⟨"FirstAvailable", "[]DeviceSubRequest", "firstAvailable", true, false, some 3⟩]
     tombstones := [] },
   { name := "ExactDeviceRequest"
     fields := [⟨"DeviceClassName", "string", "deviceClassName", false, false, some 1⟩,
       ⟨"Selectors", "[]DeviceSelector", "selectors", true, false, some 2⟩,
       ⟨"AllocationMode", "DeviceAllocationMode", "allocationMode", true, false, some 3⟩,
       ⟨"Count", "int64", "count", true, false, some 4⟩,
       ⟨"AdminAccess", "*bool", "adminAccess", true, false, some 5⟩,
       ⟨"Tolerations", "[]DeviceToleration", "tolerations", true, false, some 6⟩]
     tombstones := [] },
   { name := "DeviceSubRequest"
     fields := [⟨"Name", "string", "name", false, false, some 1⟩,
       ⟨"DeviceClassName", "string", "deviceClassName", false, false, some 2⟩,
       ⟨"Selectors", "[]DeviceSelector", "selectors", true, false, some 3⟩,
       ⟨"AllocationMode", "DeviceAllocationMode", "allocationMode", true, false, some 4⟩,
       ⟨"Count", "int64", "count", true, false, some 5⟩,
       ⟨"Tolerations", "[]DeviceToleration", "tolerations", true, false, some 6⟩]
     tombstones := [] },
   { name := "DeviceSelector"
     fields := [⟨"CEL", "*CELDeviceSelector", "cel", true, false, some 1⟩]
     tombstones := [] },
   { name := "CELDeviceSelector"
     fields := [⟨"Expression", "string", "expression", false, false, some 1⟩]
     tombstones := [] },
   { name := "DeviceConstraint"
     fields := [⟨"Requests", "[]string", "requests", true, false, some 1⟩,
       ⟨"MatchAttribute", "*FullyQualifiedName", "matchAttribute", true, false, some 2⟩]
     tombstones := [] },
   { name := "DeviceClaimConfiguration"
     fields := [⟨"Requests", "[]string", "requests", true, false, some 1⟩,
       ⟨"DeviceConfiguration", "DeviceConfiguration", "", false, true, some 2⟩]
     tombstones := [] },
   { name := "DeviceConfiguration"
     fields := [⟨"Opaque", "*OpaqueDeviceConfiguration", "opaque", true, false, some 1⟩]
     tombstones := [] },
   { name := "OpaqueDeviceConfiguration"
     fields := [⟨"Driver", "string", "driver", false, false, some 1⟩,
       ⟨"Parameters", "runtime.RawExtension", "parameters", false, false, some 2⟩]
     tombstones := [] },
   { name := "DeviceToleration"
     fields := [⟨"Key", "string", "key", true, false, some 1⟩,
       ⟨"Operator", "DeviceTolerationOperator", "operator", true, false, some 2⟩,
       ⟨"Value", "string", "value", true, false, some 3⟩,
       ⟨"Effect", "DeviceTaintEffect", "effect", true, false, some 4⟩,
       ⟨"TolerationSeconds", "*int64", "tolerationSeconds", true, false, some 5⟩]
     tombstones := [] },
   { name := "ResourceClaimStatus"
     fields := [⟨"Allocation", "*AllocationResult", "allocation", true, false, some 1⟩,
       ⟨"ReservedFor", "[]ResourceClaimConsumerReference", "reservedFor", true, false, some 2⟩,
       ⟨"Devices", "[]AllocatedDeviceStatus", "devices", true, false, some 4⟩]
     tombstones := [⟨"DeallocationRequested", "bool", "deallocationRequested", true, false, some 3⟩] },
   { name := "ResourceClaimConsumerReference"
     fields := [⟨"APIGroup", "string", "apiGroup", true, false, some 1⟩,
       ⟨"Resource", "string", "resource", false, false, some 3⟩,
       ⟨"Name", "string", "name", false, false, some 4⟩,
       ⟨"UID", "types.UID", "uid", false, false, some 5⟩]
     tombstones := [] },
   { name := "AllocationResult"
     fields := [⟨"Devices", "DeviceAllocationResult", "devices", true, false, some 1⟩,
       ⟨"NodeSelector", "*v1.NodeSelector", "nodeSelector", true, false, some 3⟩,
       ⟨"AllocationTimestamp", "*metav1.Time", "allocationTimestamp", true, false, some 5⟩]
     tombstones := [⟨"Controller", "string", "controller", true, false, some 4⟩] },
   { name := "DeviceAllocationResult"
     fields := [⟨"Results", "[]DeviceRequestAllocationResult", "results", true, false, some 1⟩,
       ⟨"Config", "[]DeviceAllocationConfiguration", "config", true, false, some 2⟩]
     tombstones := [] },
   { name := "DeviceRequestAllocationResult"
     fields := [⟨"Request", "string", "request", false, false, some 1⟩,
       ⟨"Driver", "string", "driver", false, false, some 2⟩,
       ⟨"Pool", "string", "pool", false, false, some 3⟩,
       ⟨"Device", "string", "device", false, false, some 4⟩,
       ⟨"AdminAccess", "*bool", "adminAccess", true, false, some 5⟩,
       ⟨"Tolerations", "[]DeviceToleration", "tolerations", true, false, some 6⟩,
       ⟨"BindingConditions", "[]string", "bindingConditions", true, false, some 7⟩,
       ⟨"BindingFailureConditions", "[]string", "bindingFailureConditions", true, false, some 8⟩]
     tombstones := [] },
   { name := "DeviceAllocationConfiguration"
     fields := [⟨"Source", "AllocationConfigSource", "source", false, false, some 1⟩,
       ⟨"Requests", "[]string", "requests", true, false, some 2⟩,
       ⟨"DeviceConfiguration", "DeviceConfiguration", "", false, true, some 3⟩]
     tombstones := [] },
   { name := "ResourceClaimList"
     fields := [⟨"TypeMeta", "metav1.TypeMeta", "", false, true, none⟩,
       ⟨"ListMeta", "metav1.ListMeta", "metadata", true, false, some 1⟩,
       ⟨"Items", "[]ResourceClaim", "items", false, false, some 2⟩]
     tombstones := [] },
   { name := "DeviceClass"
     fields := [⟨"TypeMeta", "metav1.TypeMeta", "", false, true, none⟩,
       ⟨"ObjectMeta", "metav1.ObjectMeta", "metadata", true, false, some 1⟩,
       ⟨"Spec", "DeviceClassSpec", "spec", false, false, some 2⟩]
     tombstones := [] },
   { name := "DeviceClassSpec"
     fields := [⟨"Selectors", "[]DeviceSelector", "selectors", true, false, some 1⟩,
       ⟨"Config", "[]DeviceClassConfiguration", "config", true, false, some 2⟩]
     tombstones := [⟨"SuitableNodes", "*v1.NodeSelector", "suitableNodes", true, false, some 3⟩] },
   { name := "DeviceClassConfiguration"
     fields := [⟨"DeviceConfiguration", "DeviceConfiguration", "", false, true, some 1⟩]
     tombstones := [] },
   { name := "DeviceClassList"
     fields := [⟨"TypeMeta", "metav1.TypeMeta", "", false, true, none⟩,
       ⟨"ListMeta", "metav1.ListMeta", "metadata", true, false, some 1⟩,
       ⟨"Items", "[]DeviceClass", "items", false, false, some 2⟩]
     tombstones := [] },
   { name := "ResourceClaimTemplate"
     fields := [⟨"TypeMeta", "metav1.TypeMeta", "", false, true, none⟩,
       ⟨"ObjectMeta", "metav1.ObjectMeta", "metadata", true, false, some 1⟩,
       ⟨"Spec", "ResourceClaimTemplateSpec", "spec", false, false, some 2⟩]
     tombstones := [] },
   { name := "ResourceClaimTemplateSpec"
     fields := [⟨"ObjectMeta", "metav1.ObjectMeta", "metadata", true, false, some 1⟩,
       ⟨"Spec", "ResourceClaimSpec", "spec", false, false, some 2⟩]
     tombstones := [] },
   { name := "ResourceClaimTemplateList"
     fields := [⟨"TypeMeta", "metav1.TypeMeta", "", false, true, none⟩,
       ⟨"ListMeta", "metav1.ListMeta", "metadata", true, false, some 1⟩,
       ⟨"Items", "[]ResourceClaimTemplate", "items", false, false, some 2⟩]
     tombstones := [] },
   { name := "AllocatedDeviceStatus"
     fields := [⟨"Driver", "string", "driver", false, false, some 1⟩,
       ⟨"Pool", "string", "pool", false, false, some 2⟩,
       ⟨"Device", "string", "device", false, false, some 3⟩,
       ⟨"Conditions", "[]metav1.Condition", "conditions", false, false, some 4⟩,
       ⟨"Data", "*runtime.RawExtension", "data", true, false, some 5⟩,
       ⟨"NetworkData", "*NetworkDeviceData", "networkData", true, false, some 6⟩]
     tombstones := [] },
   { name := "NetworkDeviceData"
     fields := [⟨"InterfaceName", "string", "interfaceName", true, false, some 1⟩,
       ⟨"IPs", "[]string", "ips", true, false, some 2⟩,
       ⟨"HardwareAddress", "string", "hardwareAddress", true, false, some 3⟩]
     tombstones := [] }]

/-- The tags of the struct with the given name. -/
def tagsOf (struct : String) : Option StructTags :=
  structTags.find? (fun s => s.name == struct)

/-- The tags of a field of a struct. -/
def fieldOf (struct field : String) : Option FieldTag :=
  (tagsOf struct).bind (fun s => s.fields.find? (fun f => f.goName == field))

/-- The name in the `json` tag of a field of a struct. -/
def jsonNameOf (struct field : String) : Option String :=
  (fieldOf struct field).map (fun f => f.jsonName)

/-- The JSON path of the field that a chain of Go field names reaches from a
struct, each field but the last being of a struct type of `types.go`: the
JSON names along the chain, joined by dots. -/
def jsonPath : String → List String → Option String
  | _, [] => none
  | struct, [f] => jsonNameOf struct f
  | struct, f :: rest =>
    match fieldOf struct f with
    | none => none
    | some t => (jsonPath t.goType rest).map (fun p => t.jsonName ++ "." ++ p)

/-- The protobuf field numbers of the fields of a struct. -/
def StructTags.protobufNumbers (s : StructTags) : List Nat :=
  s.fields.filterMap (fun f => f.protobuf)

/-- The protobuf field numbers that the tombstones of a struct reserve. -/
def StructTags.reservedNumbers (s : StructTags) : List Nat :=
  s.tombstones.filterMap (fun f => f.protobuf)

/-- The JSON names that the fields of a struct declare themselves; an inlined
field declares none. -/
def StructTags.ownJsonNames (s : StructTags) : List String :=
  (s.fields.filter (fun f => !f.inline)).map (fun f => f.jsonName)

/-- The JSON names of the object a struct is written as: an inlined field
contributes the names of the embedded struct, which for `metav1.TypeMeta` are
those of `typeMetaFields`. -/
def StructTags.jsonNames (s : StructTags) : List String :=
  s.fields.flatMap (fun f =>
    if f.inline then
      if f.goType == "metav1.TypeMeta" then typeMetaFields.keys
      else
        match tagsOf f.goType with
        | some e => e.ownJsonNames
        | none => []
    else [f.jsonName])

/-- The structs with a tombstone, each with the numbers it reserves. -/
def reservedTable : List (String × List Nat) :=
  (structTags.filter (fun s => !s.tombstones.isEmpty)).map
    (fun s => (s.name, s.reservedNumbers))

end V1beta2

namespace Cache

/-! ## Basic facts about one call -/

/-- An unnamed or GVR-less call returns early: nothing is registered. -/
theorem NewIdentifier_skip (reg : Registry) (name : String) (gvr : GroupVersionResource)
    (h : name = "" ∨ gvr.Empty = true) :
    NewIdentifier reg name gvr = (reg, { name := name, gvr := gvr, unique := false }, none) := by
  unfold NewIdentifier
  rcases h with h | h
  · subst h; simp
  · simp [h]

/-- A named call whose key is already present fails and leaves the registry
as it was. -/
theorem NewIdentifier_registered (reg : Registry) (name : String) (gvr : GroupVersionResource)
    (hname : name ≠ "") (hgvr : gvr.Empty = false)
    (hkey : reg (registryKey name gvr) = true) :
    NewIdentifier reg name gvr =
      (reg, { name := name, gvr := gvr, unique := false }, some (notUniqueError name gvr)) := by
  simp [NewIdentifier, registerIdentifier, hname, hgvr, hkey]

/-- A named call whose key is absent succeeds and stores exactly that key. -/
theorem NewIdentifier_fresh (reg : Registry) (name : String) (gvr : GroupVersionResource)
    (hname : name ≠ "") (hgvr : gvr.Empty = false)
    (hkey : reg (registryKey name gvr) = false) :
    NewIdentifier reg name gvr =
      (Function.update reg (registryKey name gvr) true,
        { name := name, gvr := gvr, unique := true }, none) := by
  simp [NewIdentifier, registerIdentifier, hname, hgvr, hkey]

/-- No call removes a key. -/
theorem NewIdentifier_keeps (reg : Registry) (name : String) (gvr : GroupVersionResource)
    (k : String) (hk : reg k = true) : (NewIdentifier reg name gvr).1 k = true := by
  by_cases hskip : name = "" ∨ gvr.Empty = true
  · rw [NewIdentifier_skip reg name gvr hskip]; exact hk
  · have hname : name ≠ "" := fun h => hskip (Or.inl h)
    have hgvr : gvr.Empty = false := by
      cases hE : gvr.Empty
      · rfl
      · exact absurd (Or.inr hE) hskip
    cases hkey : reg (registryKey name gvr)
    · rw [NewIdentifier_fresh reg name gvr hname hgvr hkey]
      by_cases hkk : k = registryKey name gvr
      · subst hkk; exact Function.update_same _ _ _
      · show Function.update reg (registryKey name gvr) true k = true
        rw [Function.update_noteq hkk]; exact hk
    · rw [NewIdentifier_registered reg name gvr hname hgvr hkey]; exact hk

/-- No sequence of `NewIdentifier` calls removes a key. -/
theorem runNewIdentifiers_keeps (calls : List (String × GroupVersionResource)) :
    ∀ (reg : Registry) (k : String), reg k = true → (runNewIdentifiers reg calls).1 k = true := by
  induction calls with
  | nil => intro reg k hk; exact hk
  | cons c rest ih =>
    intro reg k hk
    obtain ⟨name, gvr⟩ := c
    exact ih _ k (NewIdentifier_keeps reg name gvr k hk)

/-- After a named call that returned no error, its key is registered. -/
theorem NewIdentifier_key_present (reg : Registry) (name : String) (gvr : GroupVersionResource)
    (hname : name ≠ "") (hgvr : gvr.Empty = false) :
    (NewIdentifier reg name gvr).1 (registryKey name gvr) = true := by
  cases hkey : reg (registryKey name gvr)
  · rw [NewIdentifier_fresh reg name gvr hname hgvr hkey]; simp
  · rw [NewIdentifier_registered reg name gvr hname hgvr hkey]; exact hkey

/-- The identifier returned by a call carries the arguments of the call. -/
theorem NewIdentifier_fields (reg : Registry) (name : String) (gvr : GroupVersionResource) :
    (NewIdentifier reg name gvr).2.1.name = name ∧ (NewIdentifier reg name gvr).2.1.gvr = gvr := by
  by_cases hskip : name = "" ∨ gvr.Empty = true
  · rw [NewIdentifier_skip reg name gvr hskip]; exact ⟨rfl, rfl⟩
  · have hname : name ≠ "" := fun h => hskip (Or.inl h)
    have hgvr : gvr.Empty = false := by
      cases hE : gvr.Empty
      · rfl
      · exact absurd (Or.inr hE) hskip
    cases hkey : reg (registryKey name gvr)
    · rw [NewIdentifier_fresh reg name gvr hname hgvr hkey]; exact ⟨rfl, rfl⟩
    · rw [NewIdentifier_registered reg name gvr hname hgvr hkey]; exact ⟨rfl, rfl⟩

/-- A call yields a unique identifier exactly when it is named, has a GVR and
its key was absent. -/
theorem NewIdentifier_unique_iff (reg : Registry) (name : String) (gvr : GroupVersionResource) :
    (NewIdentifier reg name gvr).2.1.unique = true ↔
      name ≠ "" ∧ gvr.Empty = false ∧ reg (registryKey name gvr) = false := by
  by_cases hskip : name = "" ∨ gvr.Empty = true
  · rw [NewIdentifier_skip reg name gvr hskip]
    constructor
    · intro h; simp at h
    · rintro ⟨h1, h2, _⟩
      rcases hskip with h | h
      · exact absurd h h1
      · rw [h] at h2; simp at h2
  · have hname : name ≠ "" := fun h => hskip (Or.inl h)
    have hgvr : gvr.Empty = false := by
      cases hE : gvr.Empty
      · rfl
      · exact absurd (Or.inr hE) hskip
    cases hkey : reg (registryKey name gvr)
    · rw [NewIdentifier_fresh reg name gvr hname hgvr hkey]
      exact ⟨fun _ => ⟨hname, hgvr, rfl⟩, fun _ => rfl⟩
    · rw [NewIdentifier_registered reg name gvr hname hgvr hkey]
      constructor
      · intro h; simp at h
      · rintro ⟨_, _, h3⟩; simp at h3

/-- The keys present after a call: those present before, and the key of the
call when it is named and has a GVR. -/
theorem NewIdentifier_registry_iff (reg : Registry) (name : String)
    (gvr : GroupVersionResource) (k : String) :
    (NewIdentifier reg name gvr).1 k = true ↔
      reg k = true ∨ (name ≠ "" ∧ gvr.Empty = false ∧ k = registryKey name gvr) := by
  by_cases hskip : name = "" ∨ gvr.Empty = true
  · rw [NewIdentifier_skip reg name gvr hskip]
    constructor
    · intro h; exact Or.inl h
    · rintro (h | ⟨h1, h2, _⟩)
      · exact h
      · rcases hskip with h | h
        · exact absurd h h1
        · rw [h] at h2; simp at h2
  · have hname : name ≠ "" := fun h => hskip (Or.inl h)
    have hgvr : gvr.Empty = false := by
      cases hE : gvr.Empty
      · rfl
      · exact absurd (Or.inr hE) hskip
    cases hkey : reg (registryKey name gvr)
    · rw [NewIdentifier_fresh reg name gvr hname hgvr hkey]
      show Function.update reg (registryKey name gvr) true k = true ↔ _
      by_cases hkk : k = registryKey name gvr
      · subst hkk
        rw [Function.update_same]
        exact ⟨fun _ => Or.inr ⟨hname, hgvr, rfl⟩, fun _ => rfl⟩
      · rw [Function.update_noteq hkk]
        exact ⟨fun h => Or.inl h, fun h => h.elim id (fun h3 => absurd h3.2.2 hkk)⟩
    · rw [NewIdentifier_registered reg name gvr hname hgvr hkey]
      constructor
      · intro h; exact Or.inl h
      · rintro (h | ⟨_, _, h3⟩)
        · exact h
        · rw [h3]; exact hkey

/-! ## Registration contracts -/

/-- C1. Duplicate registration is rejected: when `name` is non-empty, `gvr`
is not empty and a call `NewIdentifier(name, gvr)` returned a nil error, then
after any further `NewIdentifier` calls (and no reset) the same call returns a
non-nil error and an identifier whose `IsUnique()` is false. -/
theorem duplicate_registration_rejected (reg : Registry) (name : String)
    (gvr : GroupVersionResource) (between : List (String × GroupVersionResource))
    (hname : name ≠ "") (hgvr : gvr.Empty = false)
    (hfirst : (NewIdentifier reg name gvr).2.2 = none) :
    (NewIdentifier (runNewIdentifiers (NewIdentifier reg name gvr).1 between).1
        name gvr).2.2 ≠ none ∧
    (NewIdentifier (runNewIdentifiers (NewIdentifier reg name gvr).1 between).1
        name gvr).2.1.IsUnique = false := by
  have hnil := hfirst
  have hkey : (runNewIdentifiers (NewIdentifier reg name gvr).1 between).1
      (registryKey name gvr) = true :=
    runNewIdentifiers_keeps between _ _ (NewIdentifier_key_present reg name gvr hname hgvr)
  rw [NewIdentifier_registered _ name gvr hname hgvr hkey]
  exact ⟨by simp, rfl⟩

/-- Witness of C1: "my-fifo" for pods is registered on a fresh registry, two
other identifiers are created, and the repeated call is rejected. -/
theorem duplicate_registration_rejected_witness :
    ("my-fifo" ≠ "" ∧ podsGVR.Empty = false ∧
      (NewIdentifier emptyRegistry "my-fifo" podsGVR).2.2 = none) ∧
    (NewIdentifier (runNewIdentifiers (NewIdentifier emptyRegistry "my-fifo" podsGVR).1
        [("fifo-2", podsGVR), ("my-fifo", configMapsGVR)]).1 "my-fifo" podsGVR).2.2 ≠ none ∧
    (NewIdentifier (runNewIdentifiers (NewIdentifier emptyRegistry "my-fifo" podsGVR).1
        [("fifo-2", podsGVR), ("my-fifo", configMapsGVR)]).1
        "my-fifo" podsGVR).2.1.IsUnique = false :=
  ⟨⟨by decide, by decide, by decide⟩,
    duplicate_registration_rejected emptyRegistry "my-fifo" podsGVR
      [("fifo-2", podsGVR), ("my-fifo", configMapsGVR)] (by decide) (by decide) (by decide)⟩

/-- C3. First registration succeeds: right after
`ResetRegisteredIdentitiesForTest`, for a non-empty name and a non-empty GVR,
`NewIdentifier` returns a nil error and an identifier whose `IsUnique()` is
true. -/
theorem first_registration_succeeds (reg : Registry) (name : String)
    (gvr : GroupVersionResource) (hname : name ≠ "") (hgvr : gvr.Empty = false) :
    (NewIdentifier (ResetRegisteredIdentitiesForTest reg) name gvr).2.2 = none ∧
    (NewIdentifier (ResetRegisteredIdentitiesForTest reg) name gvr).2.1.IsUnique = true := by
  have hkey : ResetRegisteredIdentitiesForTest reg (registryKey name gvr) = false := rfl
  rw [NewIdentifier_fresh _ name gvr hname hgvr hkey]
  exact ⟨rfl, rfl⟩

/-- Witness of C3: the first case of the test table, after a reset of a
registry that already held the key. -/
theorem first_registration_succeeds_witness :
    ("my-fifo" ≠ "" ∧ podsGVR.Empty = false) ∧
    (NewIdentifier (ResetRegisteredIdentitiesForTest
        (NewIdentifier emptyRegistry "my-fifo" podsGVR).1) "my-fifo" podsGVR).2.2 = none ∧
    (NewIdentifier (ResetRegisteredIdentitiesForTest
        (NewIdentifier emptyRegistry "my-fifo" podsGVR).1)
        "my-fifo" podsGVR).2.1.IsUnique = true :=
  ⟨⟨by decide, by decide⟩,
    first_registration_succeeds (NewIdentifier emptyRegistry "my-fifo" podsGVR).1
      "my-fifo" podsGVR (by decide) (by decide)⟩

/-- C7. Unnamed or GVR-less identifiers are never registered and never fail:
in every registry state, when the name is empty or the GVR is empty, the call
returns a nil error and an identifier with `IsUnique()` false and leaves the
registry as it was, and repeating the call any number of times gives the
same result each time. -/
theorem unnamed_or_gvrless_never_registered (reg : Registry) (name : String)
    (gvr : GroupVersionResource) (n : Nat) (h : name = "" ∨ gvr.Empty = true) :
    (NewIdentifier reg name gvr).2.2 = none ∧
    (NewIdentifier reg name gvr).2.1.IsUnique = false ∧
    (NewIdentifier reg name gvr).1 = reg ∧
    runNewIdentifiers reg (List.replicate n (name, gvr)) =
      (reg, List.replicate n ({ name := name, gvr := gvr, unique := false }, none)) := by
  refine ⟨?_, ?_, ?_, ?_⟩
  · rw [NewIdentifier_skip reg name gvr h]
  · rw [NewIdentifier_skip reg name gvr h]; rfl
  · rw [NewIdentifier_skip reg name gvr h]
  · induction n with
    | zero => rfl
    | succ m ih =>
      simp only [List.replicate_succ, runNewIdentifiers]
      rw [NewIdentifier_skip reg name gvr h]
      simp only [ih]

/-- Witness of C7: an unnamed identifier for pods, asked for three times on a
registry that already holds a key. -/
theorem unnamed_or_gvrless_never_registered_witness :
    ("" = "" ∨ podsGVR.Empty = true) ∧
    (NewIdentifier (NewIdentifier emptyRegistry "my-fifo" podsGVR).1 "" podsGVR).2.2 = none ∧
    (NewIdentifier (NewIdentifier emptyRegistry "my-fifo" podsGVR).1 ""
      podsGVR).2.1.IsUnique = false ∧
    (NewIdentifier (NewIdentifier emptyRegistry "my-fifo" podsGVR).1 "" podsGVR).1 =
      (NewIdentifier emptyRegistry "my-fifo" podsGVR).1 ∧
    runNewIdentifiers (NewIdentifier emptyRegistry "my-fifo" podsGVR).1
        (List.replicate 3 ("", podsGVR)) =
      ((NewIdentifier emptyRegistry "my-fifo" podsGVR).1,
        List.replicate 3 ({ name := "", gvr := podsGVR, unique := false }, none)) :=
  ⟨Or.inl rfl,
    unnamed_or_gvrless_never_registered (NewIdentifier emptyRegistry "my-fifo" podsGVR).1
      "" podsGVR 3 (Or.inl rfl)⟩

/-- C8. The result pair is coherent: for every call, the returned identifier
has `IsUnique()` true exactly when the name is non-empty, the GVR is not empty
and the returned error is nil; a non-nil error always comes with `IsUnique()`
false. -/
theorem result_pair_coherent (reg : Registry) (name : String) (gvr : GroupVersionResource) :
    ((NewIdentifier reg name gvr).2.1.IsUnique = true ↔
      (name ≠ "" ∧ gvr.Empty = false ∧ (NewIdentifier reg name gvr).2.2 = none)) ∧
    ((NewIdentifier reg name gvr).2.2 ≠ none →
      (NewIdentifier reg name gvr).2.1.IsUnique = false) := by
  by_cases hskip : name = "" ∨ gvr.Empty = true
  · rw [NewIdentifier_skip reg name gvr hskip]
    refine ⟨⟨fun h => by simp [Identifier.IsUnique] at h, fun h => ?_⟩, fun _ => rfl⟩
    rcases hskip with h1 | h1
    · exact absurd h1 h.1
    · rw [h1] at h; exact absurd h.2.1 (by simp)
  · have hname : name ≠ "" := fun h => hskip (Or.inl h)
    have hgvr : gvr.Empty = false := by
      cases hE : gvr.Empty
      · rfl
      · exact absurd (Or.inr hE) hskip
    cases hkey : reg (registryKey name gvr)
    · rw [NewIdentifier_fresh reg name gvr hname hgvr hkey]
      exact ⟨⟨fun _ => ⟨hname, hgvr, rfl⟩, fun _ => rfl⟩, fun h => absurd rfl h⟩
    · rw [NewIdentifier_registered reg name gvr hname hgvr hkey]
      refine ⟨⟨fun h => by simp [Identifier.IsUnique] at h, fun h => ?_⟩, fun _ => rfl⟩
      exact absurd h.2.2 (by simp)

/-- C10. Reset clears the registry: after `ResetRegisteredIdentitiesForTest`,
whatever was registered before, a call with a non-empty name and a non-empty
GVR returns a nil error and `IsUnique()` true, and a reset followed by a call
sequence gives the results and the registry that the same sequence gives on a
fresh registry. -/
theorem reset_clears_registry (reg : Registry) (name : String) (gvr : GroupVersionResource)
    (calls : List Call) (hname : name ≠ "") (hgvr : gvr.Empty = false) :
    (NewIdentifier (ResetRegisteredIdentitiesForTest reg) name gvr).2.2 = none ∧
    (NewIdentifier (ResetRegisteredIdentitiesForTest reg) name gvr).2.1.IsUnique = true ∧
    runCalls reg (Call.reset :: calls) = runCalls emptyRegistry calls := by
  have hkey : ResetRegisteredIdentitiesForTest reg (registryKey name gvr) = false := rfl
  rw [NewIdentifier_fresh _ name gvr hname hgvr hkey]
  exact ⟨rfl, rfl, rfl⟩

/-- Witness of C10: "my-fifo" for pods is registered, the registry is reset,
and the same pair registers again. -/
theorem reset_clears_registry_witness :
    ("my-fifo" ≠ "" ∧ podsGVR.Empty = false) ∧
    (NewIdentifier (ResetRegisteredIdentitiesForTest
        (NewIdentifier emptyRegistry "my-fifo" podsGVR).1) "my-fifo" podsGVR).2.2 = none ∧
    (NewIdentifier (ResetRegisteredIdentitiesForTest
        (NewIdentifier emptyRegistry "my-fifo" podsGVR).1)
        "my-fifo" podsGVR).2.1.IsUnique = true ∧
    runCalls (NewIdentifier emptyRegistry "my-fifo" podsGVR).1
        (Call.reset :: [Call.newIdentifier "my-fifo" podsGVR,
          Call.newIdentifier "my-fifo" podsGVR]) =
      runCalls emptyRegistry [Call.newIdentifier "my-fifo" podsGVR,
        Call.newIdentifier "my-fifo" podsGVR] :=
  ⟨⟨by decide, by decide⟩,
    reset_clears_registry (NewIdentifier emptyRegistry "my-fifo" podsGVR).1 "my-fifo" podsGVR
      [Call.newIdentifier "my-fifo" podsGVR, Call.newIdentifier "my-fifo" podsGVR]
      (by decide) (by decide)⟩

/-- Invariant behind C2: from any registry a run yields at most one unique
holder of a pair, and none when the key of the pair is already present. -/
theorem uniqueHolders_run (name : String) (gvr : GroupVersionResource)
    (calls : List (String × GroupVersionResource)) :
    ∀ reg : Registry,
      (uniqueHolders (runNewIdentifiers reg calls).2 name gvr).length ≤ 1 ∧
      (reg (registryKey name gvr) = true →
        (uniqueHolders (runNewIdentifiers reg calls).2 name gvr).length = 0) := by
  induction calls with
  | nil => intro reg; exact ⟨Nat.zero_le _, fun _ => rfl⟩
  | cons c rest ih =>
    intro reg
    obtain ⟨n, g⟩ := c
    obtain ⟨hn, hg⟩ := NewIdentifier_fields reg n g
    have hrun : (runNewIdentifiers reg ((n, g) :: rest)).2 =
        (NewIdentifier reg n g).2 :: (runNewIdentifiers (NewIdentifier reg n g).1 rest).2 := rfl
    rw [hrun]
    unfold uniqueHolders
    rw [List.filter_cons]
    by_cases hp : ((NewIdentifier reg n g).2.1.name == name &&
        (NewIdentifier reg n g).2.1.gvr == gvr && (NewIdentifier reg n g).2.1.IsUnique) = true
    · rw [if_pos hp]
      simp only [Bool.and_eq_true, beq_iff_eq] at hp
      obtain ⟨⟨h1, h2⟩, h3⟩ := hp
      rw [hn] at h1
      rw [hg] at h2
      subst h1 h2
      obtain ⟨hname, hgvr, hkey⟩ := (NewIdentifier_unique_iff reg n g).1 h3
      have hrest := (ih (NewIdentifier reg n g).1).2 (NewIdentifier_key_present reg n g hname hgvr)
      unfold uniqueHolders at hrest
      constructor
      · rw [List.length_cons, hrest]
      · intro hreg; rw [hkey] at hreg; exact absurd hreg (by simp)
    · rw [if_neg hp]
      refine ⟨(ih (NewIdentifier reg n g).1).1, fun hreg => ?_⟩
      exact (ih (NewIdentifier reg n g).1).2 (NewIdentifier_keeps reg n g _ hreg)

/-- C2. At most one unique holder per key: in every sequence of
`NewIdentifier` calls made after a `ResetRegisteredIdentitiesForTest`, among
the returned identifiers with the same name and the same GVR at most one has
`IsUnique()` true. -/
theorem at_most_one_unique_holder (reg : Registry)
    (calls : List (String × GroupVersionResource)) (name : String)
    (gvr : GroupVersionResource) :
    (uniqueHolders (runNewIdentifiers (ResetRegisteredIdentitiesForTest reg) calls).2
      name gvr).length ≤ 1 :=
  (uniqueHolders_run name gvr calls (ResetRegisteredIdentitiesForTest reg)).1

/-! ## Keys -/

/-- Two names that give the same key with one GVR are the same name. -/
theorem registryKey_name_injective (name1 name2 : String) (gvr : GroupVersionResource)
    (h : registryKey name1 gvr = registryKey name2 gvr) : name1 = name2 := by
  unfold registryKey at h
  have hd := congrArg String.data h
  simp only [String.data_append] at hd
  have hd2 := List.append_cancel_right (List.append_cancel_right hd)
  exact String.ext hd2

/-- Two lists cut at the last occurrence of a character agree on both sides
of the cut. -/
theorem split_at_last_occurrence (c : Char) :
    ∀ (a1 a2 b1 b2 : List Char), c ∉ b1 → c ∉ b2 →
      a1 ++ c :: b1 = a2 ++ c :: b2 → a1 = a2 ∧ b1 = b2 := by
  intro a1
  induction a1 with
  | nil =>
    intro a2 b1 b2 h1 _ h
    cases a2 with
    | nil => simpa using h
    | cons x a2 =>
      simp only [List.nil_append, List.cons_append, List.cons.injEq] at h
      exact absurd (by rw [h.2]; simp) h1
  | cons y a1 ih =>
    intro a2 b1 b2 h1 h2 h
    cases a2 with
    | nil =>
      simp only [List.nil_append, List.cons_append, List.cons.injEq] at h
      exact absurd (by rw [← h.2]; simp) h2
    | cons x a2 =>
      simp only [List.cons_append, List.cons.injEq] at h
      obtain ⟨e1, e2⟩ := ih a2 b1 b2 h1 h2 h.2
      exact ⟨by rw [h.1, e1], e2⟩

/-- The characters of a registry key, split at the comma of the separator
before the resource. -/
theorem registryKey_data (name : String) (gvr : GroupVersionResource) :
    (registryKey name gvr).data =
      (name.data ++ '/' :: (gvr.Group.data ++ '/' :: gvr.Version.data)) ++
        ',' :: (" Resource=".data ++ gvr.Resource.data) := by
  simp [registryKey, GroupVersionResource.String, String.data_append, List.append_assoc]

/-- Where the key is unambiguous: when neither group nor version contains a
slash and the resource contains no comma, equal keys come from equal names and
equal GVRs. -/
theorem registryKey_injective_of_plain (name1 name2 : String)
    (gvr1 gvr2 : GroupVersionResource)
    (hg1 : '/' ∉ gvr1.Group.data) (hv1 : '/' ∉ gvr1.Version.data)
    (hr1 : ',' ∉ gvr1.Resource.data)
    (hg2 : '/' ∉ gvr2.Group.data) (hv2 : '/' ∉ gvr2.Version.data)
    (hr2 : ',' ∉ gvr2.Resource.data)
    (h : registryKey name1 gvr1 = registryKey name2 gvr2) :
    name1 = name2 ∧ gvr1 = gvr2 := by
  have hd := congrArg String.data h
  rw [registryKey_data, registryKey_data] at hd
  have hc1 : ',' ∉ " Resource=".data ++ gvr1.Resource.data := by
    intro hm
    rcases List.mem_append.1 hm with hm | hm
    · exact absurd hm (by decide)
    · exact hr1 hm
  have hc2 : ',' ∉ " Resource=".data ++ gvr2.Resource.data := by
    intro hm
    rcases List.mem_append.1 hm with hm | hm
    · exact absurd hm (by decide)
    · exact hr2 hm
  obtain ⟨hpre, hres⟩ := split_at_last_occurrence ',' _ _ _ _ hc1 hc2 hd
  have hR : gvr1.Resource = gvr2.Resource := String.ext (List.append_cancel_left hres)
  have hpre2 : (name1.data ++ '/' :: gvr1.Group.data) ++ '/' :: gvr1.Version.data =
      (name2.data ++ '/' :: gvr2.Group.data) ++ '/' :: gvr2.Version.data := by
    simpa [List.append_assoc] using hpre
  obtain ⟨hng, hver⟩ := split_at_last_occurrence '/' _ _ _ _ hv1 hv2 hpre2
  obtain ⟨hn, hgrp⟩ := split_at_last_occurrence '/' _ _ _ _ hg1 hg2 hng
  refine ⟨String.ext hn, ?_⟩
  cases gvr1; cases gvr2
  simp only [GroupVersionResource.mk.injEq]
  exact ⟨String.ext hgrp, String.ext hver, hR⟩

/-- C6. Different name, same GVR is unique: when the only registered key since
the last reset comes from `NewIdentifier(name1, gvr)`, a call with a non-empty
`name2` other than `name1` and the same GVR returns a nil error and
`IsUnique()` true. -/
theorem different_name_same_gvr_unique (reg : Registry) (name1 name2 : String)
    (gvr : GroupVersionResource) (hname1 : name1 ≠ "") (hgvr : gvr.Empty = false)
    (hname2 : name2 ≠ "") (hne : name2 ≠ name1) :
    (NewIdentifier (NewIdentifier (ResetRegisteredIdentitiesForTest reg) name1 gvr).1
        name2 gvr).2.2 = none ∧
    (NewIdentifier (NewIdentifier (ResetRegisteredIdentitiesForTest reg) name1 gvr).1
        name2 gvr).2.1.IsUnique = true := by
  have hkey : (NewIdentifier (ResetRegisteredIdentitiesForTest reg) name1 gvr).1
      (registryKey name2 gvr) = false := by
    cases hk : (NewIdentifier (ResetRegisteredIdentitiesForTest reg) name1 gvr).1
        (registryKey name2 gvr)
    · rfl
    · rcases (NewIdentifier_registry_iff _ name1 gvr _).1 hk with h | ⟨_, _, h⟩
      · exact absurd h (by simp [ResetRegisteredIdentitiesForTest, emptyRegistry])
      · exact absurd (registryKey_name_injective name2 name1 gvr h) hne
  have hused := hname1
  rw [NewIdentifier_fresh _ name2 gvr hname2 hgvr hkey]
  exact ⟨rfl, rfl⟩

/-- Witness of C6: the third case of the test table, "fifo-1" then "fifo-2"
for pods. -/
theorem different_name_same_gvr_unique_witness :
    ("fifo-1" ≠ "" ∧ podsGVR.Empty = false ∧ "fifo-2" ≠ "" ∧ "fifo-2" ≠ "fifo-1") ∧
    (NewIdentifier (NewIdentifier (ResetRegisteredIdentitiesForTest emptyRegistry)
        "fifo-1" podsGVR).1 "fifo-2" podsGVR).2.2 = none ∧
    (NewIdentifier (NewIdentifier (ResetRegisteredIdentitiesForTest emptyRegistry)
        "fifo-1" podsGVR).1 "fifo-2" podsGVR).2.1.IsUnique = true :=
  ⟨⟨by decide, by decide, by decide, by decide⟩,
    different_name_same_gvr_unique emptyRegistry "fifo-1" "fifo-2" podsGVR
      (by decide) (by decide) (by decide) (by decide)⟩

/-- C4 at its failing input: "a" with group "b/c" and "a/b" with group "c"
are different (name, GVR) pairs with the same registry key, so after the first
is registered on a fresh registry the second is rejected as not unique. -/
theorem registryKey_collision_across_names :
    (("a", ({ Group := "b/c", Version := "v1", Resource := "r" } : GroupVersionResource)) ≠
      ("a/b", ({ Group := "c", Version := "v1", Resource := "r" } : GroupVersionResource))) ∧
    registryKey "a" { Group := "b/c", Version := "v1", Resource := "r" } =
      registryKey "a/b" { Group := "c", Version := "v1", Resource := "r" } ∧
    (NewIdentifier emptyRegistry "a" { Group := "b/c", Version := "v1", Resource := "r" }).2 =
      ({ name := "a", gvr := { Group := "b/c", Version := "v1", Resource := "r" },
         unique := true }, none) ∧
    (NewIdentifier
        (NewIdentifier emptyRegistry "a" { Group := "b/c", Version := "v1", Resource := "r" }).1
        "a/b" { Group := "c", Version := "v1", Resource := "r" }).2 =
      ({ name := "a/b", gvr := { Group := "c", Version := "v1", Resource := "r" },
         unique := false },
        some (notUniqueError "a/b" { Group := "c", Version := "v1", Resource := "r" })) := by
  refine ⟨by decide, by decide, by decide, by decide⟩

/-- C5 at its failing input: with the name "n", the GVR with group "a/b" and
version "c" and the GVR with group "a" and version "b/c" are different and
neither is empty, yet after the first is registered on a fresh registry the
second is rejected as not unique. -/
theorem same_name_other_gvr_rejected :
    (({ Group := "a", Version := "b/c", Resource := "r" } : GroupVersionResource) ≠
      { Group := "a/b", Version := "c", Resource := "r" }) ∧
    GroupVersionResource.Empty { Group := "a/b", Version := "c", Resource := "r" } = false ∧
    GroupVersionResource.Empty { Group := "a", Version := "b/c", Resource := "r" } = false ∧
    (NewIdentifier (ResetRegisteredIdentitiesForTest emptyRegistry) "n"
        { Group := "a/b", Version := "c", Resource := "r" }).2 =
      ({ name := "n", gvr := { Group := "a/b", Version := "c", Resource := "r" },
         unique := true }, none) ∧
    (NewIdentifier
        (NewIdentifier (ResetRegisteredIdentitiesForTest emptyRegistry) "n"
          { Group := "a/b", Version := "c", Resource := "r" }).1
        "n" { Group := "a", Version := "b/c", Resource := "r" }).2 =
      ({ name := "n", gvr := { Group := "a", Version := "b/c", Resource := "r" },
         unique := false },
        some (notUniqueError "n" { Group := "a", Version := "b/c", Resource := "r" })) := by
  refine ⟨by decide, by decide, by decide, by decide, by decide⟩

/-! ## What `IsUnique` reports -/

/-- C9. `IsUnique` does not report uniqueness across all identifiers: after a
reset "my-fifo" is created twice for pods. The first identifier is returned
with `IsUnique()` true and, being a value that nothing updates, still reports
true once the second identifier, which has the same name and GVR, exists; so
the equivalence between `IsUnique()` and the absence of any other identifier
with the same name and GVR, created before or after, fails for it. -/
theorem isUnique_across_all_refuted :
    (runNewIdentifiers (ResetRegisteredIdentitiesForTest emptyRegistry)
        [("my-fifo", podsGVR), ("my-fifo", podsGVR)]).2 =
      [({ name := "my-fifo", gvr := podsGVR, unique := true }, none),
       ({ name := "my-fifo", gvr := podsGVR, unique := false },
         some (notUniqueError "my-fifo" podsGVR))] ∧
    Identifier.IsUnique { name := "my-fifo", gvr := podsGVR, unique := true } = true ∧
    ¬ (∀ (i : Nat) (id : Identifier) (err : Option String),
        (runNewIdentifiers (ResetRegisteredIdentitiesForTest emptyRegistry)
          [("my-fifo", podsGVR), ("my-fifo", podsGVR)]).2[i]? = some (id, err) →
        (id.IsUnique = true ↔
          (id.name ≠ "" ∧ id.gvr.Empty = false ∧
            ∀ (j : Nat) (idj : Identifier) (errj : Option String), j ≠ i →
              (runNewIdentifiers (ResetRegisteredIdentitiesForTest emptyRegistry)
                [("my-fifo", podsGVR), ("my-fifo", podsGVR)]).2[j]? = some (idj, errj) →
              ¬ (idj.name = id.name ∧ idj.gvr = id.gvr)))) := by
  refine ⟨by decide, rfl, fun h => ?_⟩
  have h0 := (h 0 { name := "my-fifo", gvr := podsGVR, unique := true } none (by decide)).1
    (by decide)
  exact h0.2.2 1 { name := "my-fifo", gvr := podsGVR, unique := false }
    (some (notUniqueError "my-fifo" podsGVR)) (by decide) (by decide) ⟨rfl, rfl⟩

/-- What decides `IsUnique` in a run from any registry: the call is named, has
a GVR, its key is absent from the starting registry and no earlier registering
call of the run had the same key. -/
theorem isUnique_iff_run (calls : List (String × GroupVersionResource)) :
    ∀ (reg : Registry) (i : Nat) (id : Identifier) (err : Option String),
      (runNewIdentifiers reg calls).2[i]? = some (id, err) →
      (id.IsUnique = true ↔
        (id.name ≠ "" ∧ id.gvr.Empty = false ∧ reg (registryKey id.name id.gvr) = false ∧
          ∀ (j : Nat) (idj : Identifier) (errj : Option String), j < i →
            (runNewIdentifiers reg calls).2[j]? = some (idj, errj) →
            idj.name ≠ "" → idj.gvr.Empty = false →
            registryKey idj.name idj.gvr ≠ registryKey id.name id.gvr)) := by
  induction calls with
  | nil => intro reg i id err h; simp [runNewIdentifiers] at h
  | cons c rest ih =>
    intro reg i id err h
    obtain ⟨n, g⟩ := c
    obtain ⟨hn, hg⟩ := NewIdentifier_fields reg n g
    have hrun : (runNewIdentifiers reg ((n, g) :: rest)).2 =
        (NewIdentifier reg n g).2 :: (runNewIdentifiers (NewIdentifier reg n g).1 rest).2 := rfl
    rw [hrun] at h ⊢
    cases i with
    | zero =>
      simp only [List.getElem?_cons_zero, Option.some.injEq] at h
      have hid : id = (NewIdentifier reg n g).2.1 := by rw [h]
      subst hid
      rw [hn, hg]
      show (NewIdentifier reg n g).2.1.unique = true ↔ _
      rw [NewIdentifier_unique_iff]
      constructor
      · rintro ⟨h1, h2, h3⟩
        exact ⟨h1, h2, h3, fun j _ _ hj => absurd hj (Nat.not_lt_zero j)⟩
      · rintro ⟨h1, h2, h3, _⟩
        exact ⟨h1, h2, h3⟩
    | succ i =>
      simp only [List.getElem?_cons_succ] at h
      rw [ih (NewIdentifier reg n g).1 i id err h]
      constructor
      · rintro ⟨h1, h2, h3, h4⟩
        refine ⟨h1, h2, ?_, ?_⟩
        · cases hk : reg (registryKey id.name id.gvr)
          · rfl
          · rw [NewIdentifier_keeps reg n g _ hk] at h3; exact absurd h3 (by simp)
        · intro j idj errj hj hget hjn hjg
          cases j with
          | zero =>
            simp only [List.getElem?_cons_zero, Option.some.injEq] at hget
            have hidj : idj = (NewIdentifier reg n g).2.1 := by rw [hget]
            subst hidj
            rw [hn] at hjn ⊢
            rw [hg] at hjg ⊢
            intro heq
            have hpres := NewIdentifier_key_present reg n g hjn hjg
            rw [heq, h3] at hpres
            exact absurd hpres (by simp)
          | succ j =>
            simp only [List.getElem?_cons_succ] at hget
            exact h4 j idj errj (Nat.lt_of_succ_lt_succ hj) hget hjn hjg
      · rintro ⟨h1, h2, h3, h4⟩
        refine ⟨h1, h2, ?_, ?_⟩
        · cases hk : (NewIdentifier reg n g).1 (registryKey id.name id.gvr)
          · rfl
          · rcases (NewIdentifier_registry_iff reg n g _).1 hk with hreg | ⟨hjn, hjg, hkey⟩
            · rw [h3] at hreg; exact absurd hreg (by simp)
            · have h0 := h4 0 (NewIdentifier reg n g).2.1 (NewIdentifier reg n g).2.2
                (Nat.succ_pos i) (by simp) (by rw [hn]; exact hjn) (by rw [hg]; exact hjg)
              rw [hn, hg] at h0
              exact absurd hkey.symm h0
        · intro j idj errj hj hget hjn hjg
          exact h4 (j + 1) idj errj (Nat.succ_lt_succ hj)
            (by simp only [List.getElem?_cons_succ]; exact hget) hjn hjg

/-! ## Frame of one call -/

/-- C26. Failed or skipped registration leaves the registry unchanged: in
every registry state, when `NewIdentifier` returns an error, or the name is
empty, or the GVR is empty, the registry after the call is the registry
before it, key by key, so every later `NewIdentifier` call and every later
sequence of calls gives what it would give had the call not been made. -/
theorem failed_or_skipped_leaves_registry (reg : Registry) (name : String)
    (gvr : GroupVersionResource)
    (h : (NewIdentifier reg name gvr).2.2 ≠ none ∨ name = "" ∨ gvr.Empty = true) :
    (NewIdentifier reg name gvr).1 = reg ∧
    (∀ k : String, (NewIdentifier reg name gvr).1 k = reg k) ∧
    (∀ (name' : String) (gvr' : GroupVersionResource),
      NewIdentifier (NewIdentifier reg name gvr).1 name' gvr' = NewIdentifier reg name' gvr') ∧
    (∀ later : List (String × GroupVersionResource),
      runNewIdentifiers reg ((name, gvr) :: later) =
        ((runNewIdentifiers reg later).1,
          (NewIdentifier reg name gvr).2 :: (runNewIdentifiers reg later).2)) := by
  have hreg : (NewIdentifier reg name gvr).1 = reg := by
    by_cases hskip : name = "" ∨ gvr.Empty = true
    · rw [NewIdentifier_skip reg name gvr hskip]
    · have hname : name ≠ "" := fun h => hskip (Or.inl h)
      have hgvr : gvr.Empty = false := by
        cases hE : gvr.Empty
        · rfl
        · exact absurd (Or.inr hE) hskip
      cases hkey : reg (registryKey name gvr) with
      | true => rw [NewIdentifier_registered reg name gvr hname hgvr hkey]
      | false =>
        rcases h with herr | hn | hg
        · rw [NewIdentifier_fresh reg name gvr hname hgvr hkey] at herr
          exact absurd rfl herr
        · exact absurd hn hname
        · exact absurd (Or.inr hg) hskip
  refine ⟨hreg, ?_, ?_, ?_⟩
  · intro k; rw [hreg]
  · intro name' gvr'; rw [hreg]
  · intro later
    simp only [runNewIdentifiers]
    rw [hreg]

/-- Witness of C26: the second registration of `my-fifo` for pods fails and
leaves the registry as the first one made it. -/
theorem failed_or_skipped_leaves_registry_witness :
    ((NewIdentifier (NewIdentifier emptyRegistry "my-fifo" podsGVR).1
        "my-fifo" podsGVR).2.2 ≠ none ∨ "my-fifo" = "" ∨ podsGVR.Empty = true) ∧
    (NewIdentifier (NewIdentifier emptyRegistry "my-fifo" podsGVR).1 "my-fifo" podsGVR).1 =
      (NewIdentifier emptyRegistry "my-fifo" podsGVR).1 :=
  ⟨Or.inl (by decide),
    (failed_or_skipped_leaves_registry (NewIdentifier emptyRegistry "my-fifo" podsGVR).1
      "my-fifo" podsGVR (Or.inl (by decide))).1⟩

/-- C27. Successful registration adds exactly one key: when `NewIdentifier`
returns an identifier whose `IsUnique()` is true, which it does with a nil
error only, the key `name + "/" + gvr.String()` was absent before the call
and is present after it, and every other key is present after the call
exactly when it was present before. No `NewIdentifier` call, and no sequence
of such calls, removes a key that was present. -/
theorem successful_registration_adds_one_key (reg : Registry) (name : String)
    (gvr : GroupVersionResource)
    (huniq : (NewIdentifier reg name gvr).2.1.IsUnique = true) :
    (NewIdentifier reg name gvr).2.2 = none ∧
    registryKey name gvr = name ++ "/" ++ gvr.String ∧
    reg (registryKey name gvr) = false ∧
    (NewIdentifier reg name gvr).1 (registryKey name gvr) = true ∧
    (∀ k : String, k ≠ registryKey name gvr → (NewIdentifier reg name gvr).1 k = reg k) ∧
    (∀ (reg0 : Registry) (name0 : String) (gvr0 : GroupVersionResource) (k : String),
      reg0 k = true → (NewIdentifier reg0 name0 gvr0).1 k = true) ∧
    (∀ (reg0 : Registry) (calls : List (String × GroupVersionResource)) (k : String),
      reg0 k = true → (runNewIdentifiers reg0 calls).1 k = true) := by
  have hu : name ≠ "" ∧ gvr.Empty = false ∧ reg (registryKey name gvr) = false :=
    (NewIdentifier_unique_iff reg name gvr).1 huniq
  obtain ⟨hname, hgvr, hkey⟩ := hu
  refine ⟨?_, rfl, hkey, ?_, ?_, ?_, ?_⟩
  · rw [NewIdentifier_fresh reg name gvr hname hgvr hkey]
  · rw [NewIdentifier_fresh reg name gvr hname hgvr hkey]
    exact Function.update_same _ _ _
  · intro k hk
    rw [NewIdentifier_fresh reg name gvr hname hgvr hkey]
    exact Function.update_noteq hk _ _
  · intro reg0 name0 gvr0 k hk
    exact NewIdentifier_keeps reg0 name0 gvr0 k hk
  · intro reg0 calls k hk
    exact runNewIdentifiers_keeps calls reg0 k hk

/-- Witness of C27: the first registration of `my-fifo` for pods, in a
registry that holds `fifo-2` for pods. -/
theorem successful_registration_adds_one_key_witness :
    (NewIdentifier (NewIdentifier emptyRegistry "fifo-2" podsGVR).1
      "my-fifo" podsGVR).2.1.IsUnique = true ∧
    (NewIdentifier (NewIdentifier emptyRegistry "fifo-2" podsGVR).1
      "my-fifo" podsGVR).2.2 = none ∧
    (NewIdentifier (NewIdentifier emptyRegistry "fifo-2" podsGVR).1 "my-fifo" podsGVR).1
      (registryKey "my-fifo" podsGVR) = true :=
  ⟨by decide,
    (successful_registration_adds_one_key (NewIdentifier emptyRegistry "fifo-2" podsGVR).1
      "my-fifo" podsGVR (by decide)).1,
    (successful_registration_adds_one_key (NewIdentifier emptyRegistry "fifo-2" podsGVR).1
      "my-fifo" podsGVR (by decide)).2.2.2.1⟩

/-- C28. Accessors return the constructor arguments: in every registry state
and for every name and GVR, also when the call returns a collision error and
when the name or the GVR is empty, the identifier that `NewIdentifier`
returns has `Name()` equal to the name and `GroupVersionResource()` equal to
the GVR that were passed. -/
theorem accessors_return_arguments (reg : Registry) (name : String)
    (gvr : GroupVersionResource) :
    (NewIdentifier reg name gvr).2.1.Name = name ∧
    (NewIdentifier reg name gvr).2.1.GroupVersionResource = gvr :=
  NewIdentifier_fields reg name gvr

end Cache

namespace V1beta2

/-! ## One-of groups of the API types -/

/-- The check of a one-of group accepts exactly the lists with one entry. -/
theorem validateOneOf_eq_none_iff (set : List String) :
    validateOneOf set = none ↔ set.length = 1 := by
  match set with
  | [] => simp [validateOneOf]
  | [_] => simp [validateOneOf]
  | _ :: _ :: _ => simp [validateOneOf]

/-- C11 as stated fails: the zero value of `ResourceSliceSpec` is a value of
the type with none of the four node-selection fields set, and a value with
both `NodeName` and `AllNodes` set is one too. -/
theorem nodeSelection_not_enforced_by_type :
    ¬ (∀ spec : ResourceSliceSpec, spec.nodeSelectionSet.length = 1) ∧
    ResourceSliceSpec.nodeSelectionSet
      { Driver := "", Pool := { Name := "", Generation := 0, ResourceSliceCount := 0 },
        NodeName := none, NodeSelector := none, AllNodes := none, Devices := [],
        PerDeviceNodeSelection := none, SharedCounters := [] } = [] ∧
    ResourceSliceSpec.nodeSelectionSet
      { Driver := "gpu.example.com",
        Pool := { Name := "pool-a", Generation := 1, ResourceSliceCount := 1 },
        NodeName := some "node-1", NodeSelector := none, AllNodes := some true, Devices := [],
        PerDeviceNodeSelection := none, SharedCounters := [] } = ["nodeName", "allNodes"] := by
  refine ⟨fun h => ?_, by decide, by decide⟩
  have h0 := h { Driver := "", Pool := { Name := "", Generation := 0, ResourceSliceCount := 0 },
                 NodeName := none, NodeSelector := none, AllNodes := none, Devices := [],
                 PerDeviceNodeSelection := none, SharedCounters := [] }
  exact absurd h0 (by decide)

/-- C11 as amended: validation of the node-selection group accepts a
`ResourceSliceSpec` exactly when one of NodeName, NodeSelector, AllNodes and
PerDeviceNodeSelection is set and the other three are not, which is exactly
when the slice has a node-scoping mode; values with none or several set exist
in the type and are rejected. -/
theorem nodeSelection_validated_iff_exactly_one (spec : ResourceSliceSpec) :
    (validateNodeSelection spec = none ↔
      ((spec.NodeName.isSome = true ∧ spec.NodeSelector.isSome = false ∧
          spec.AllNodes.isSome = false ∧ spec.PerDeviceNodeSelection.isSome = false) ∨
        (spec.NodeName.isSome = false ∧ spec.NodeSelector.isSome = true ∧
          spec.AllNodes.isSome = false ∧ spec.PerDeviceNodeSelection.isSome = false) ∨
        (spec.NodeName.isSome = false ∧ spec.NodeSelector.isSome = false ∧
          spec.AllNodes.isSome = true ∧ spec.PerDeviceNodeSelection.isSome = false) ∨
        (spec.NodeName.isSome = false ∧ spec.NodeSelector.isSome = false ∧
          spec.AllNodes.isSome = false ∧ spec.PerDeviceNodeSelection.isSome = true))) ∧
    (validateNodeSelection spec = none ↔ spec.nodeSelection.isSome = true) := by
  obtain ⟨_, _, n, s, a, _, p, _⟩ := spec
  cases n <;> cases s <;> cases a <;> cases p <;>
    simp [validateNodeSelection, validateOneOf, ResourceSliceSpec.nodeSelectionSet,
      ResourceSliceSpec.nodeSelection, setWhen]

/-- C12 as stated fails: the zero value of `DeviceAttribute` is a value of the
type with no field set, and a value with both `IntValue` and `StringValue`
set is one too. -/
theorem attribute_value_not_enforced_by_type :
    ¬ (∀ a : DeviceAttribute, a.valueSet.length = 1) ∧
    DeviceAttribute.valueSet
      { IntValue := none, BoolValue := none, StringValue := none, VersionValue := none } = [] ∧
    DeviceAttribute.valueSet
      { IntValue := some 1, BoolValue := none, StringValue := some "one",
        VersionValue := none } = ["int", "string"] := by
  refine ⟨fun h => ?_, by decide, by decide⟩
  have h0 := h { IntValue := none, BoolValue := none, StringValue := none,
                 VersionValue := none }
  exact absurd h0 (by decide)

/-- C12 as amended: validation accepts a `DeviceAttribute` exactly when one of
IntValue, BoolValue, StringValue and VersionValue is set and the other three
are not, which is exactly when the attribute carries one tagged value of
integer, boolean, string or version; values with none or several set exist in
the type and are rejected. -/
theorem attribute_validated_iff_exactly_one (a : DeviceAttribute) :
    (validateDeviceAttribute a = none ↔
      ((a.IntValue.isSome = true ∧ a.BoolValue.isSome = false ∧
          a.StringValue.isSome = false ∧ a.VersionValue.isSome = false) ∨
        (a.IntValue.isSome = false ∧ a.BoolValue.isSome = true ∧
          a.StringValue.isSome = false ∧ a.VersionValue.isSome = false) ∨
        (a.IntValue.isSome = false ∧ a.BoolValue.isSome = false ∧
          a.StringValue.isSome = true ∧ a.VersionValue.isSome = false) ∨
        (a.IntValue.isSome = false ∧ a.BoolValue.isSome = false ∧
          a.StringValue.isSome = false ∧ a.VersionValue.isSome = true))) ∧
    (validateDeviceAttribute a = none ↔ a.value.isSome = true) := by
  obtain ⟨i, b, s, v⟩ := a
  cases i <;> cases b <;> cases s <;> cases v <;>
    simp [validateDeviceAttribute, validateOneOf, DeviceAttribute.valueSet,
      DeviceAttribute.value, setWhen]

/-- C13 as stated fails: a `DeviceRequest` with only a name is a value of the
type with neither `Exactly` nor `FirstAvailable` set, and a value with both
set is one too. -/
theorem request_variant_not_enforced_by_type :
    ¬ (∀ r : DeviceRequest, r.requestTypeSet.length = 1) ∧
    DeviceRequest.requestTypeSet
      { Name := "req-0", Exactly := none, FirstAvailable := [] } = [] ∧
    DeviceRequest.requestTypeSet
      { Name := "req-0",
        Exactly := some { DeviceClassName := "gpu", Selectors := [],
                          AllocationMode := DeviceAllocationModeExactCount, Count := 1,
                          AdminAccess := none, Tolerations := [] },
        FirstAvailable := [{ Name := "sub-0", DeviceClassName := "gpu", Selectors := [],
                             AllocationMode := DeviceAllocationModeAll, Count := 0,
                             Tolerations := [] }] } = ["exactly", "firstAvailable"] := by
  refine ⟨fun h => ?_, by decide, by decide⟩
  have h0 := h { Name := "req-0", Exactly := none, FirstAvailable := [] }
  exact absurd h0 (by decide)

/-- C13 as amended: validation accepts a `DeviceRequest` exactly when either
`Exactly` is set and `FirstAvailable` is empty, or `Exactly` is nil and
`FirstAvailable` is not empty; values with both or neither exist in the type
and are rejected. -/
theorem request_validated_iff_exactly_one (r : DeviceRequest) :
    (validateDeviceRequest r = none ↔
      ((r.Exactly.isSome = true ∧ r.FirstAvailable = []) ∨
        (r.Exactly = none ∧ r.FirstAvailable ≠ []))) ∧
    (validateDeviceRequest r = some OneOfViolation.noneSet ↔
      (r.Exactly = none ∧ r.FirstAvailable = [])) ∧
    (validateDeviceRequest r = some (OneOfViolation.severalSet ["exactly", "firstAvailable"]) ↔
      (r.Exactly.isSome = true ∧ r.FirstAvailable ≠ [])) := by
  obtain ⟨_, e, f⟩ := r
  cases e <;> cases f <;>
    simp [validateDeviceRequest, validateOneOf, DeviceRequest.requestTypeSet, setWhen]

/-- C14. The documented exclusivity does not hold of `Device` values: the
device "gpu-0" with one attribute and one capacity, which the comments on
`Attributes` and `Capacity` limit together to 32 entries, has two fields set
besides its name, and the device with only a name has none; so not every
device has exactly one field set. -/
theorem device_exactly_one_field_refuted :
    Device.setFields
        { Name := "gpu-0",
          Attributes := [("model", { IntValue := none, BoolValue := none,
                                     StringValue := some "a100", VersionValue := none })],
          Capacity := [("memory", { Value := 40 })],
          ConsumesCounters := [], NodeName := none, NodeSelector := none, AllNodes := none,
          Taints := [], BindsToNode := none, BindingConditions := [],
          BindingFailureConditions := [] } = ["attributes", "capacity"] ∧
    1 + 1 ≤ ResourceSliceMaxAttributesAndCapacitiesPerDevice ∧
    Device.setFields
        { Name := "gpu-0", Attributes := [], Capacity := [], ConsumesCounters := [],
          NodeName := none, NodeSelector := none, AllNodes := none, Taints := [],
          BindsToNode := none, BindingConditions := [], BindingFailureConditions := [] } = [] ∧
    ¬ (∀ d : Device, d.setFields.length = 1) := by
  refine ⟨by decide, by decide, by decide, fun h => ?_⟩
  exact absurd (h (sampleDevice 0)) (by decide)

/-! ## Ceilings of a slice -/

/-- The counter sets that hold a counter are at most as many as the counters. -/
theorem nonEmpty_length_le_sum (sets : List CounterSet) :
    (sets.filter (fun s => !s.Counters.isEmpty)).length ≤
      (sets.map (fun s => s.Counters.length)).sum := by
  induction sets with
  | nil => simp
  | cons s rest ih =>
    rw [List.filter_cons, List.map_cons, List.sum_cons]
    cases hc : s.Counters with
    | nil => simp; omega
    | cons c cs => simp; omega

/-- C20. Slice ceilings: `ResourceSliceMaxDevices` is 128,
`ResourceSliceMaxSharedCounters` is 32, and a slice whose counters, summed
over all its counter sets, stay within `ResourceSliceMaxSharedCounters` holds
at most 32 counter sets that are not empty. -/
theorem slice_ceilings (spec : ResourceSliceSpec)
    (h : spec.sharedCounterCount ≤ ResourceSliceMaxSharedCounters) :
    ResourceSliceMaxDevices = 128 ∧ ResourceSliceMaxSharedCounters = 32 ∧
    spec.nonEmptyCounterSets.length ≤ 32 := by
  refine ⟨rfl, rfl, ?_⟩
  have h1 := nonEmpty_length_le_sum spec.SharedCounters
  have h2 : ResourceSliceMaxSharedCounters = 32 := rfl
  unfold ResourceSliceSpec.sharedCounterCount at h
  unfold ResourceSliceSpec.nonEmptyCounterSets
  omega

/-- Witness of C20: a slice with two counter sets of one and two counters. -/
theorem slice_ceilings_witness :
    ResourceSliceSpec.sharedCounterCount
      { Driver := "gpu.example.com",
        Pool := { Name := "pool-a", Generation := 1, ResourceSliceCount := 1 },
        NodeName := some "node-1", NodeSelector := none, AllNodes := none, Devices := [],
        PerDeviceNodeSelection := none,
        SharedCounters := [{ Name := "set-a", Counters := [("memory", { Value := 32 })] },
          { Name := "set-b", Counters := [("memory", { Value := 8 }), ("slices", { Value := 4 })] }] }
      ≤ ResourceSliceMaxSharedCounters ∧
    ResourceSliceMaxDevices = 128 ∧ ResourceSliceMaxSharedCounters = 32 ∧
    (ResourceSliceSpec.nonEmptyCounterSets
      { Driver := "gpu.example.com",
        Pool := { Name := "pool-a", Generation := 1, ResourceSliceCount := 1 },
        NodeName := some "node-1", NodeSelector := none, AllNodes := none, Devices := [],
        PerDeviceNodeSelection := none,
        SharedCounters := [{ Name := "set-a", Counters := [("memory", { Value := 32 })] },
          { Name := "set-b", Counters := [("memory", { Value := 8 }), ("slices", { Value := 4 })] }] }).length
      ≤ 32 :=
  ⟨by decide, slice_ceilings _ (by decide)⟩

/-! ## Taints and tolerations -/

/-- C15. Taint/toleration matching rule: a toleration matches a taint exactly
when its effect is empty or equal to the effect of the taint, its key is empty
or equal to the key of the taint, and its operator is `Exists`, or is `Equal`
with the value of the taint; a valid toleration with an empty key has the
operator `Exists` and matches every key and value. -/
theorem toleration_matching_rule (t : DeviceToleration) (x : DeviceTaint) :
    (ToleratesTaint t x = true ↔
      ((t.Effect = "" ∨ t.Effect = x.Effect) ∧ (t.Key = "" ∨ t.Key = x.Key) ∧
        (t.Operator = DeviceTolerationOpExists ∨
          (t.Operator = DeviceTolerationOpEqual ∧ t.Value = x.Value)))) ∧
    (validToleration t = true → t.Key = "" →
      t.Operator = DeviceTolerationOpExists ∧
      (ToleratesTaint t x = true ↔ (t.Effect = "" ∨ t.Effect = x.Effect))) := by
  have hmain : ToleratesTaint t x = true ↔
      ((t.Effect = "" ∨ t.Effect = x.Effect) ∧ (t.Key = "" ∨ t.Key = x.Key) ∧
        (t.Operator = DeviceTolerationOpExists ∨
          (t.Operator = DeviceTolerationOpEqual ∧ t.Value = x.Value))) := by
    unfold ToleratesTaint
    by_cases he : t.Effect = "" <;> by_cases he2 : t.Effect = x.Effect <;>
      by_cases hk : t.Key = "" <;> by_cases hk2 : t.Key = x.Key <;>
      by_cases ho : t.Operator = DeviceTolerationOpExists <;>
      by_cases ho2 : t.Operator = DeviceTolerationOpEqual <;>
      simp [he, he2, hk, hk2, ho, ho2]
  refine ⟨hmain, fun hv hkey => ?_⟩
  have hop : t.Operator = DeviceTolerationOpExists := by
    simp only [validToleration, Bool.and_eq_true, Bool.or_eq_true, bne_iff_ne, beq_iff_eq] at hv
    rcases hv.1.1.1 with h | h
    · exact absurd hkey h
    · exact h
  refine ⟨hop, ?_⟩
  rw [hmain]
  constructor
  · intro h; exact h.1
  · intro h; exact ⟨h, Or.inl hkey, Or.inl hop⟩

/-- Witness of C15: the wildcard toleration, with no key and the operator
`Exists`, against a taint with the key "gpu-maint". -/
theorem toleration_matching_rule_witness :
    (validToleration { Key := "", Operator := DeviceTolerationOpExists, Value := "",
                       Effect := "", TolerationSeconds := none } = true ∧
      DeviceToleration.Key { Key := "", Operator := DeviceTolerationOpExists, Value := "",
                             Effect := "", TolerationSeconds := none } = "") ∧
    DeviceToleration.Operator { Key := "", Operator := DeviceTolerationOpExists, Value := "",
                                Effect := "", TolerationSeconds := none } =
      DeviceTolerationOpExists ∧
    ToleratesTaint { Key := "", Operator := DeviceTolerationOpExists, Value := "",
                     Effect := "", TolerationSeconds := none }
      { Key := "gpu-maint", Value := "planned", Effect := DeviceTaintEffectNoExecute,
        TimeAdded := some 1000 } = true :=
  ⟨⟨by decide, rfl⟩,
    ((toleration_matching_rule
        { Key := "", Operator := DeviceTolerationOpExists, Value := "", Effect := "",
          TolerationSeconds := none }
        { Key := "gpu-maint", Value := "planned", Effect := DeviceTaintEffectNoExecute,
          TimeAdded := some 1000 }).2 (by decide) rfl).1,
    by decide⟩

/-- C16. Eviction deadline arithmetic: for a `NoExecute` taint added at time
`T` and matched by a toleration, the eviction deadline is `T + s` when
`TolerationSeconds` is set to `s > 0`, is `T` when it is set to `s ≤ 0`, and
there is no deadline when `TolerationSeconds` is not set. -/
theorem eviction_deadline_arithmetic (now T : Time) (x : DeviceTaint) (t : DeviceToleration)
    (hx : x.Effect = DeviceTaintEffectNoExecute) (hT : x.TimeAdded = some T)
    (hm : ToleratesTaint t x = true) :
    (∀ s : Int, t.TolerationSeconds = some s → 0 < s →
      evictionDeadline now x t = some (T + s)) ∧
    (∀ s : Int, t.TolerationSeconds = some s → s ≤ 0 → evictionDeadline now x t = some T) ∧
    (t.TolerationSeconds = none → evictionDeadline now x t = none) := by
  refine ⟨fun s hs hpos => ?_, fun s hs hneg => ?_, fun hs => ?_⟩
  · have hp : tolerationPeriod s = s := by
      unfold tolerationPeriod; rw [if_neg (by omega)]
    simp [evictionDeadline, hx, hT, hm, hs, hp]
  · have hp : tolerationPeriod s = 0 := by
      unfold tolerationPeriod; rw [if_pos hneg]
    simp [evictionDeadline, hx, hT, hm, hs, hp]
  · simp [evictionDeadline, hx, hT, hm, hs]

/-- Witness of C16: the taint "gpu-maint" with effect `NoExecute` added at time
1000, tolerated for 60 seconds, gives the deadline 1060. -/
theorem eviction_deadline_arithmetic_witness :
    (DeviceTaint.Effect { Key := "gpu-maint", Value := "", Effect := DeviceTaintEffectNoExecute,
                          TimeAdded := some 1000 } = DeviceTaintEffectNoExecute ∧
      ToleratesTaint { Key := "gpu-maint", Operator := DeviceTolerationOpExists, Value := "",
                       Effect := "", TolerationSeconds := some 60 }
        { Key := "gpu-maint", Value := "", Effect := DeviceTaintEffectNoExecute,
          TimeAdded := some 1000 } = true) ∧
    evictionDeadline 2000
      { Key := "gpu-maint", Value := "", Effect := DeviceTaintEffectNoExecute,
        TimeAdded := some 1000 }
      { Key := "gpu-maint", Operator := DeviceTolerationOpExists, Value := "", Effect := "",
        TolerationSeconds := some 60 } = some (1000 + 60) :=
  ⟨⟨rfl, by decide⟩,
    (eviction_deadline_arithmetic 2000 1000
      { Key := "gpu-maint", Value := "", Effect := DeviceTaintEffectNoExecute,
        TimeAdded := some 1000 }
      { Key := "gpu-maint", Operator := DeviceTolerationOpExists, Value := "", Effect := "",
        TolerationSeconds := some 60 } rfl rfl (by decide)).1 60 rfl (by decide)⟩

/-! ## Pools -/

/-- Appending a slice to a collection: the slices at the maximum generation of
the longer collection are those of the shorter one that the new slice does not
exceed. -/
theorem atMaxGeneration_append (pre : List ResourceSlice) (s t : ResourceSlice) :
    atMaxGeneration (pre ++ [s]) t =
      (atMaxGeneration pre t && decide (s.Spec.Pool.Generation ≤ t.Spec.Pool.Generation)) := by
  simp [atMaxGeneration, List.all_append]

/-- A slice at the maximum generation is not exceeded by any slice of the
collection. -/
theorem le_of_atMaxGeneration (pre : List ResourceSlice) (c t : ResourceSlice)
    (hc : atMaxGeneration pre c = true) (ht : t ∈ pre) :
    t.Spec.Pool.Generation ≤ c.Spec.Pool.Generation := by
  unfold atMaxGeneration at hc
  rw [List.all_eq_true] at hc
  simpa using hc t ht

/-- The pass over the slices keeps exactly the slices at the maximum
generation, in their order, and keeps at least one when there is a slice. -/
theorem currentSlices_eq_filter (slices : List ResourceSlice) :
    currentSlices slices = slices.filter (atMaxGeneration slices) ∧
    (slices ≠ [] → currentSlices slices ≠ []) := by
  induction slices using List.reverseRecOn with
  | nil => exact ⟨rfl, fun h => absurd rfl h⟩
  | append_singleton pre s ih =>
    obtain ⟨ih1, ih2⟩ := ih
    have hstep : currentSlices (pre ++ [s]) = addSlice (currentSlices pre) s := by
      simp [currentSlices, List.foldl_append]
    rw [hstep, List.filter_append]
    cases hcur : currentSlices pre with
    | nil =>
      have hpre : pre = [] := by
        by_contra hne
        exact ih2 hne hcur
      subst hpre
      refine ⟨?_, fun _ => by simp [addSlice]⟩
      simp [addSlice, atMaxGeneration]
    | cons c rest =>
      have hcmem : c ∈ pre.filter (atMaxGeneration pre) := by
        rw [← ih1, hcur]; exact List.mem_cons_self _ _
      rw [List.mem_filter] at hcmem
      obtain ⟨hcpre, hcmax⟩ := hcmem
      have hle : ∀ t ∈ pre, t.Spec.Pool.Generation ≤ c.Spec.Pool.Generation :=
        fun t ht => le_of_atMaxGeneration pre c t hcmax ht
      have hge : ∀ t, atMaxGeneration pre t = true →
          c.Spec.Pool.Generation ≤ t.Spec.Pool.Generation :=
        fun t ht => le_of_atMaxGeneration pre t c ht hcpre
      by_cases h1 : s.Spec.Pool.Generation < c.Spec.Pool.Generation
      · -- an older slice is ignored
        have hpre : pre.filter (atMaxGeneration (pre ++ [s])) =
            pre.filter (atMaxGeneration pre) := by
          apply List.filter_congr
          intro t _
          rw [atMaxGeneration_append]
          cases hm : atMaxGeneration pre t
          · rfl
          · have := hge t hm
            simp only [Bool.true_and, decide_eq_true_eq]
            omega
        have hs : [s].filter (atMaxGeneration (pre ++ [s])) = [] := by
          rw [List.filter_cons, List.filter_nil, atMaxGeneration_append]
          have : atMaxGeneration pre s = false := by
            cases hm : atMaxGeneration pre s
            · rfl
            · have := hge s hm; omega
          simp [this]
        refine ⟨?_, fun _ => by simp [addSlice, h1]⟩
        rw [hpre, hs, List.append_nil, ← ih1, hcur]
        simp [addSlice, h1]
      · by_cases h2 : c.Spec.Pool.Generation < s.Spec.Pool.Generation
        · -- a newer slice replaces all others
          have hpre : pre.filter (atMaxGeneration (pre ++ [s])) = [] := by
            rw [List.filter_eq_nil_iff]
            intro t ht
            rw [atMaxGeneration_append]
            have := hle t ht
            simp only [Bool.and_eq_true, decide_eq_true_eq, not_and, not_le]
            intro _
            omega
          have hs : [s].filter (atMaxGeneration (pre ++ [s])) = [s] := by
            rw [List.filter_cons, List.filter_nil, atMaxGeneration_append]
            have : atMaxGeneration pre s = true := by
              unfold atMaxGeneration
              rw [List.all_eq_true]
              intro t ht
              have := hle t ht
              simp only [decide_eq_true_eq]
              omega
            simp [this]
          refine ⟨?_, fun _ => by simp [addSlice, h1, h2]⟩
          rw [hpre, hs]
          simp [addSlice, h1, h2]
        · -- a slice of the same generation joins the others
          have heq : s.Spec.Pool.Generation = c.Spec.Pool.Generation := by omega
          have hpre : pre.filter (atMaxGeneration (pre ++ [s])) =
              pre.filter (atMaxGeneration pre) := by
            apply List.filter_congr
            intro t _
            rw [atMaxGeneration_append]
            cases hm : atMaxGeneration pre t
            · rfl
            · have := hge t hm
              simp only [Bool.true_and, decide_eq_true_eq]
              omega
          have hs : [s].filter (atMaxGeneration (pre ++ [s])) = [s] := by
            rw [List.filter_cons, List.filter_nil, atMaxGeneration_append]
            have : atMaxGeneration pre s = true := by
              unfold atMaxGeneration
              rw [List.all_eq_true]
              intro t ht
              have := hle t ht
              simp only [decide_eq_true_eq]
              omega
            simp [this]
          refine ⟨?_, fun _ => by simp [addSlice, h1, h2]⟩
          rw [hpre, hs, ← ih1, hcur]
          simp [addSlice, h1, h2]

/-- The slices kept for a pool are the slices of the collection that belong to
the pool and that no slice of the pool exceeds in generation. -/
theorem mem_currentSlices_slicesOfPool (all : List ResourceSlice) (pool : String)
    (s : ResourceSlice) :
    s ∈ currentSlices (slicesOfPool all pool) ↔
      (s ∈ all ∧ s.Spec.Pool.Name = pool ∧
        ∀ t ∈ all, t.Spec.Pool.Name = pool →
          t.Spec.Pool.Generation ≤ s.Spec.Pool.Generation) := by
  rw [(currentSlices_eq_filter (slicesOfPool all pool)).1, List.mem_filter]
  unfold atMaxGeneration slicesOfPool
  rw [List.all_eq_true]
  simp only [List.mem_dedup, List.mem_filter, beq_iff_eq, decide_eq_true_eq]
  constructor
  · rintro ⟨⟨h1, h2⟩, h3⟩
    exact ⟨h1, h2, fun t ht hp => h3 t ⟨ht, hp⟩⟩
  · rintro ⟨h1, h2, h3⟩
    exact ⟨⟨h1, h2⟩, fun t ht => h3 t ht.1 ht.2⟩

/-- C17. Pool completeness: of the slices observed for a pool, exactly the
distinct slices at the maximum generation are used; the devices reported are
the union of their devices, and they are reported exactly when the number of
these slices equals the `ResourceSliceCount` they declare; otherwise the pool
is incomplete, and a slice of a lower generation contributes nothing. -/
theorem pool_completeness (all : List ResourceSlice) (pool : String) :
    (∀ s : ResourceSlice, s ∈ currentSlices (slicesOfPool all pool) ↔
      (s ∈ all ∧ s.Spec.Pool.Name = pool ∧
        ∀ t ∈ all, t.Spec.Pool.Name = pool →
          t.Spec.Pool.Generation ≤ s.Spec.Pool.Generation)) ∧
    (currentSlices (slicesOfPool all pool)).Nodup ∧
    (∀ ds : List Device, gatherPool all pool = PoolView.devices ds →
      (∀ s ∈ currentSlices (slicesOfPool all pool),
        s.Spec.Pool.ResourceSliceCount = ((currentSlices (slicesOfPool all pool)).length : Int)) ∧
      (∀ d : Device, d ∈ ds ↔
        ∃ s ∈ all, s.Spec.Pool.Name = pool ∧
          (∀ t ∈ all, t.Spec.Pool.Name = pool →
            t.Spec.Pool.Generation ≤ s.Spec.Pool.Generation) ∧
          d ∈ s.Spec.Devices)) ∧
    ((∃ s ∈ currentSlices (slicesOfPool all pool),
        s.Spec.Pool.ResourceSliceCount ≠ ((currentSlices (slicesOfPool all pool)).length : Int)) →
      gatherPool all pool = PoolView.incomplete) ∧
    ((∀ s ∈ currentSlices (slicesOfPool all pool),
        s.Spec.Pool.ResourceSliceCount = ((currentSlices (slicesOfPool all pool)).length : Int)) →
      gatherPool all pool =
        PoolView.devices ((currentSlices (slicesOfPool all pool)).flatMap
          (fun s => s.Spec.Devices))) := by
  have hall : (currentSlices (slicesOfPool all pool)).all
      (fun s => s.Spec.Pool.ResourceSliceCount ==
        ((currentSlices (slicesOfPool all pool)).length : Int)) = true ↔
      ∀ s ∈ currentSlices (slicesOfPool all pool),
        s.Spec.Pool.ResourceSliceCount =
          ((currentSlices (slicesOfPool all pool)).length : Int) := by
    rw [List.all_eq_true]
    simp only [beq_iff_eq]
  refine ⟨mem_currentSlices_slicesOfPool all pool, ?_, ?_, ?_, ?_⟩
  · rw [(currentSlices_eq_filter (slicesOfPool all pool)).1]
    exact List.Nodup.filter _ (List.nodup_dedup _)
  · intro ds hds
    unfold gatherPool at hds
    simp only at hds
    by_cases hc : (currentSlices (slicesOfPool all pool)).all
        (fun s => s.Spec.Pool.ResourceSliceCount ==
          ((currentSlices (slicesOfPool all pool)).length : Int)) = true
    · rw [if_pos hc] at hds
      injection hds with hds
      refine ⟨hall.1 hc, fun d => ?_⟩
      rw [← hds, List.mem_flatMap]
      constructor
      · rintro ⟨s, hs, hd⟩
        obtain ⟨h1, h2, h3⟩ := (mem_currentSlices_slicesOfPool all pool s).1 hs
        exact ⟨s, h1, h2, h3, hd⟩
      · rintro ⟨s, h1, h2, h3, hd⟩
        exact ⟨s, (mem_currentSlices_slicesOfPool all pool s).2 ⟨h1, h2, h3⟩, hd⟩
    · rw [if_neg hc] at hds
      exact absurd hds (by simp)
  · rintro ⟨s, hs, hne⟩
    unfold gatherPool
    simp only
    rw [if_neg]
    intro hc
    exact hne (hall.1 hc s hs)
  · intro h
    unfold gatherPool
    simp only
    rw [if_pos (hall.2 h)]

/-- Witness of C17: one slice observed at generation 5 of a pool that declares
two slices: the pool is incomplete. -/
theorem pool_completeness_witness :
    (∃ s ∈ currentSlices (slicesOfPool [sampleSlice "slice-0" 5 2 [sampleDevice 0]] "pool-a"),
      s.Spec.Pool.ResourceSliceCount ≠
        ((currentSlices
          (slicesOfPool [sampleSlice "slice-0" 5 2 [sampleDevice 0]] "pool-a")).length : Int)) ∧
    gatherPool [sampleSlice "slice-0" 5 2 [sampleDevice 0]] "pool-a" = PoolView.incomplete :=
  ⟨⟨sampleSlice "slice-0" 5 2 [sampleDevice 0], by decide, by decide⟩,
    (pool_completeness [sampleSlice "slice-0" 5 2 [sampleDevice 0]] "pool-a").2.2.2.1
      ⟨sampleSlice "slice-0" 5 2 [sampleDevice 0], by decide, by decide⟩⟩

/-- An older generation contributes nothing: with both slices of generation 6
observed, the device of the slice left at generation 5 is not reported. -/
theorem pool_older_generation_ignored :
    gatherPool
      [sampleSlice "slice-0" 5 1 [sampleDevice 0],
       sampleSlice "slice-1" 6 2 [sampleDevice 1],
       sampleSlice "slice-2" 6 2 [sampleDevice 2]] "pool-a" =
      PoolView.devices [sampleDevice 1, sampleDevice 2] := by
  decide

/-! ## Counters -/

/-- A device consumes nothing of a counter it does not refer to. -/
theorem Device.consumption_eq_zero (d : Device) (set name : String)
    (h : (set, name) ∉ d.counterRefs) : d.consumption set name = 0 := by
  unfold Device.consumption
  apply List.sum_eq_zero
  intro v hv
  rw [List.mem_map] at hv
  obtain ⟨e, he, rfl⟩ := hv
  rw [List.mem_filter] at he
  obtain ⟨hemem, heset⟩ := he
  have hset : e.CounterSet = set := by simpa using heset
  cases hl : e.Counters.lookup name with
  | none => rfl
  | some c =>
    exfalso
    apply h
    unfold Device.counterRefs
    rw [List.mem_flatMap]
    refine ⟨e, hemem, ?_⟩
    rw [List.mem_map]
    have hmem : (name, c) ∈ e.Counters := by
      obtain ⟨l₁, l₂, hsplit, _⟩ := List.lookup_eq_some_iff.1 hl
      rw [hsplit]; simp
    exact ⟨(name, c), hmem, by rw [hset]⟩

/-- Allocating a device adds its consumption to what is committed. -/
theorem committed_append (allocated : List Device) (d : Device) (set name : String) :
    committed (allocated ++ [d]) set name =
      committed allocated set name + d.consumption set name := by
  simp [committed]

/-- A device that is allocated is appended, and its counters were available. -/
theorem allocateDevice_eq_some (spec : ResourceSliceSpec) (allocated result : List Device)
    (d : Device) (h : allocateDevice spec allocated d = some result) :
    result = allocated ++ [d] ∧ d ∈ spec.Devices ∧ countersAvailable spec allocated d = true := by
  unfold allocateDevice at h
  split at h
  · rename_i hc
    simp only [Bool.and_eq_true] at hc
    injection h with h
    have hmem : d ∈ spec.Devices := by
      have := hc.1.1
      simpa using this
    exact ⟨h.symm, hmem, hc.2⟩
  · exact absurd h (by simp)

/-- Allocating one device keeps every counter within its declared quantity. -/
theorem allocateDevice_withinDeclared (spec : ResourceSliceSpec)
    (allocated result : List Device) (d : Device)
    (hinv : ∀ (set name : String) (q : Quantity),
      declaredCounter spec set name = some q → committed allocated set name ≤ q)
    (h : allocateDevice spec allocated d = some result) :
    ∀ (set name : String) (q : Quantity),
      declaredCounter spec set name = some q → committed result set name ≤ q := by
  obtain ⟨hres, _, hav⟩ := allocateDevice_eq_some spec allocated result d h
  intro set name q hq
  rw [hres, committed_append]
  by_cases href : (set, name) ∈ d.counterRefs
  · unfold countersAvailable at hav
    rw [List.all_eq_true] at hav
    have := hav (set, name) href
    simp only [hq, decide_eq_true_eq] at this
    exact this
  · rw [Device.consumption_eq_zero d set name href]
    exact hinv set name q hq

/-- An allocation decision keeps every counter within its declared quantity. -/
theorem allocateClaim_withinDeclared (spec : ResourceSliceSpec) (devices : List Device) :
    ∀ (allocated result : List Device),
      (∀ (set name : String) (q : Quantity),
        declaredCounter spec set name = some q → committed allocated set name ≤ q) →
      allocateClaim spec allocated devices = some result →
      ∀ (set name : String) (q : Quantity),
        declaredCounter spec set name = some q → committed result set name ≤ q := by
  induction devices with
  | nil =>
    intro allocated result hinv h
    simp only [allocateClaim, List.foldlM_nil] at h
    injection h with h
    rw [← h]; exact hinv
  | cons d rest ih =>
    intro allocated result hinv h
    simp only [allocateClaim, List.foldlM_cons] at h
    cases hd : allocateDevice spec allocated d with
    | none => rw [hd] at h; exact absurd h (by simp)
    | some mid =>
      rw [hd] at h
      exact ih mid result (allocateDevice_withinDeclared spec allocated mid d hinv hd) h

/-- After any prefix of the decisions every counter is within its declared
quantity. -/
theorem allocateClaims_withinDeclared (spec : ResourceSliceSpec)
    (claims : List (List Device)) :
    ∀ (set name : String) (q : Quantity),
      declaredCounter spec set name = some q →
      committed (allocateClaims spec claims) set name ≤ q := by
  induction claims using List.reverseRecOn with
  | nil =>
    intro set name q _
    simp [allocateClaims, committed]
  | append_singleton pre devices ih =>
    have hstep : allocateClaims spec (pre ++ [devices]) =
        (allocateClaim spec (allocateClaims spec pre) devices).getD
          (allocateClaims spec pre) := by
      simp [allocateClaims, List.foldl_append]
    rw [hstep]
    cases hc : allocateClaim spec (allocateClaims spec pre) devices with
    | none => exact ih
    | some result =>
      exact allocateClaim_withinDeclared spec devices (allocateClaims spec pre) result ih hc

/-- C18. Counter accounting never over-commits: after any sequence of
allocation decisions on a slice, for each counter of each counter set the
consumption summed over the allocated devices does not exceed the declared
value of the counter; and a device whose consumption of a counter would
exceed what remains of it is not allocated. -/
theorem counters_never_overcommitted (spec : ResourceSliceSpec)
    (claims : List (List Device)) (set name : String) (q : Quantity)
    (hq : declaredCounter spec set name = some q) :
    committed (allocateClaims spec claims) set name ≤ q ∧
    (∀ (allocated : List Device) (d : Device), (set, name) ∈ d.counterRefs →
      q - committed allocated set name < d.consumption set name →
      allocateDevice spec allocated d = none) := by
  refine ⟨allocateClaims_withinDeclared spec claims set name q hq, ?_⟩
  intro allocated d href hover
  cases h : allocateDevice spec allocated d with
  | none => rfl
  | some result =>
    exfalso
    obtain ⟨_, _, hav⟩ := allocateDevice_eq_some spec allocated result d h
    unfold countersAvailable at hav
    rw [List.all_eq_true] at hav
    have := hav (set, name) href
    simp only [hq, decide_eq_true_eq] at this
    have key : ∀ a b c : Nat, a + b ≤ c → c - a < b → False := by
      intro a b c h1 h2; omega
    exact key _ _ _ this hover

/-- Witness of C18: two decisions each ask for 20 of the 32 units of
"mem-slices": the first is allocated, the second is not, and 20 units are
committed. -/
theorem counters_never_overcommitted_witness :
    declaredCounter memSlice "gpu-0-counters" "mem-slices" = some 32 ∧
    allocateClaims memSlice [[memDevice "gpu-0-part-a" 20], [memDevice "gpu-0-part-b" 20]] =
      [memDevice "gpu-0-part-a" 20] ∧
    committed
      (allocateClaims memSlice [[memDevice "gpu-0-part-a" 20], [memDevice "gpu-0-part-b" 20]])
      "gpu-0-counters" "mem-slices" ≤ 32 ∧
    allocateDevice memSlice [memDevice "gpu-0-part-a" 20] (memDevice "gpu-0-part-b" 20) = none :=
  ⟨by decide, by decide,
    (counters_never_overcommitted memSlice
      [[memDevice "gpu-0-part-a" 20], [memDevice "gpu-0-part-b" 20]]
      "gpu-0-counters" "mem-slices" 32 (by decide)).1,
    (counters_never_overcommitted memSlice
      [[memDevice "gpu-0-part-a" 20], [memDevice "gpu-0-part-b" 20]]
      "gpu-0-counters" "mem-slices" 32 (by decide)).2
      [memDevice "gpu-0-part-a" 20] (memDevice "gpu-0-part-b" 20) (by decide) (by decide)⟩

/-! ## JSON codecs -/

/-- Strings round-trip. -/
theorem stringCodec_roundTrips : stringCodec.RoundTrips :=
  ⟨fun _ => rfl, fun a h => by simpa [stringCodec] using h⟩

/-- A string is never written as `null`. -/
theorem stringCodec_neverNull : stringCodec.NeverNull :=
  fun _ h => Json.noConfusion h

/-- Integers round-trip. -/
theorem intCodec_roundTrips : intCodec.RoundTrips :=
  ⟨fun _ => rfl, fun a h => by simpa [intCodec] using h⟩

/-- An integer is never written as `null`. -/
theorem intCodec_neverNull : intCodec.NeverNull :=
  fun _ h => Json.noConfusion h

/-- Booleans round-trip. -/
theorem boolCodec_roundTrips : boolCodec.RoundTrips :=
  ⟨fun _ => rfl, fun a h => by simpa [boolCodec] using h⟩

/-- A boolean is never written as `null`. -/
theorem boolCodec_neverNull : boolCodec.NeverNull :=
  fun _ h => Json.noConfusion h

/-- A pointer round-trips when what it points to does and is never written as
`null`. -/
theorem ptrCodec_roundTrips {α : Type} (c : Codec α) (hc : c.RoundTrips)
    (hn : c.NeverNull) : (ptrCodec c).RoundTrips := by
  refine ⟨fun p => ?_, fun p h => ?_⟩
  · cases p with
    | none => rfl
    | some a =>
      show (match c.enc a with
        | Json.null => some none
        | j => (c.dec j).map some) = some (some a)
      have hnull := hn a
      have hd := hc.dec_enc a
      cases he : c.enc a <;> simp_all
  · cases p <;> simp_all [ptrCodec]

/-- The items of an encoded list are decoded to the list. -/
theorem decodeList_map_enc {α : Type} (c : Codec α) (hc : c.RoundTrips) (xs : List α) :
    decodeList c.dec (xs.map c.enc) = some xs := by
  induction xs with
  | nil => rfl
  | cons x rest ih =>
    simp only [List.map_cons, decodeList, hc.dec_enc x, ih]

/-- A slice round-trips when its elements do. -/
theorem listCodec_roundTrips {α : Type} (c : Codec α) (hc : c.RoundTrips) :
    (listCodec c).RoundTrips := by
  refine ⟨fun xs => decodeList_map_enc c hc xs, fun xs h => ?_⟩
  cases xs <;> simp_all [listCodec]

/-- The entries of an encoded map are decoded to the map. -/
theorem decodeEntries_map_enc {α : Type} (c : Codec α) (hc : c.RoundTrips)
    (kvs : List (String × α)) :
    decodeEntries c.dec (kvs.map (fun kv => (kv.1, c.enc kv.2))) = some kvs := by
  induction kvs with
  | nil => rfl
  | cons kv rest ih =>
    simp only [List.map_cons, decodeEntries, hc.dec_enc kv.2, ih]

/-- A map round-trips when its values do. -/
theorem mapCodec_roundTrips {α : Type} (c : Codec α) (hc : c.RoundTrips) :
    (mapCodec c).RoundTrips := by
  refine ⟨fun kvs => decodeEntries_map_enc c hc kvs, fun xs h => ?_⟩
  cases xs <;> simp_all [mapCodec]

/-- No fields round-trip. -/
theorem FieldsCodec.nil_roundTrips : FieldsCodec.nil.RoundTrips :=
  ⟨fun _ _ _ => rfl, fun _ _ _ => rfl⟩

/-- Looking a key up in what a field emits followed by the other fields. -/
theorem lookup_field_emit {α : Type} (name k : String) (omitempty : Bool) (c : Codec α)
    (a : α) (others : List (String × Json)) :
    List.lookup k ((if (omitempty && c.empty a) = true then []
      else [(name, c.enc a)]) ++ others) =
      if k = name ∧ (omitempty && c.empty a) = false then some (c.enc a)
      else List.lookup k others := by
  by_cases hcond : (omitempty && c.empty a) = true
  · simp [hcond]
  · by_cases hk : k = name
    · subst hk
      simp [hcond, List.lookup]
    · have hb : (k == name) = false := by simpa using hk
      simp [hcond, List.lookup, hb, hk]

/-- A field followed by other fields round-trips when its JSON name is not one
of theirs and both round-trip. -/
theorem FieldsCodec.field_roundTrips {α β : Type} (name : String) (omitempty : Bool)
    (c : Codec α) (rest : FieldsCodec β) (hname : name ∉ rest.keys) (hc : c.RoundTrips)
    (hrest : rest.RoundTrips) : (FieldsCodec.field name omitempty c rest).RoundTrips := by
  constructor
  · intro p k hk
    have hk1 : k ≠ name := fun h => hk (by rw [h]; exact List.mem_cons_self _ _)
    have hk2 : k ∉ rest.keys := fun h => hk (List.mem_cons_of_mem _ h)
    show List.lookup k ((if (omitempty && c.empty p.1) = true then []
      else [(name, c.enc p.1)]) ++ rest.emit p.2) = none
    rw [lookup_field_emit, if_neg (fun h => hk1 h.1)]
    exact hrest.lookup_emit p.2 k hk2
  · intro p fs hfs
    obtain ⟨a, b⟩ := p
    have hemit : ∀ k, List.lookup k ((FieldsCodec.field name omitempty c rest).emit (a, b)) =
        if k = name ∧ (omitempty && c.empty a) = false then some (c.enc a)
        else List.lookup k (rest.emit b) := fun k => lookup_field_emit name k omitempty c a _
    have hrestRead : rest.read fs = some b := by
      apply hrest.read_emit
      intro k hk
      have hkn : k ≠ name := fun h => hname (h ▸ hk)
      rw [hfs k (List.mem_cons_of_mem _ hk), hemit, if_neg (fun h => hkn h.1)]
    have hown : (match fs.lookup name with
        | none => some c.zero
        | some j => c.dec j) = some a := by
      rw [hfs name (List.mem_cons_self _ _), hemit]
      by_cases hcond : (omitempty && c.empty a) = true
      · have hempty : c.empty a = true := by
          simp only [Bool.and_eq_true] at hcond
          exact hcond.2
        rw [if_neg (fun h => by rw [hcond] at h; exact absurd h.2 (by simp)),
          hrest.lookup_emit b name hname, hc.eq_zero_of_empty a hempty]
      · have hf : (omitempty && c.empty a) = false := by simpa using hcond
        rw [if_pos ⟨rfl, hf⟩]
        exact hc.dec_enc a
    show (match (match fs.lookup name with
        | none => some c.zero
        | some j => c.dec j), rest.read fs with
      | some a, some b => some (a, b)
      | _, _ => none) = some (a, b)
    rw [hown, hrestRead]

/-- An embedded struct followed by other fields round-trips when no JSON name
is shared and both round-trip. -/
theorem FieldsCodec.inline_roundTrips {α β : Type} (F : FieldsCodec α) (rest : FieldsCodec β)
    (hdisj : ∀ k ∈ F.keys, k ∉ rest.keys) (hF : F.RoundTrips) (hrest : rest.RoundTrips) :
    (FieldsCodec.inline F rest).RoundTrips := by
  have hemit : ∀ (p : α × β) (k : String),
      List.lookup k ((FieldsCodec.inline F rest).emit p) =
        ((F.emit p.1).lookup k).or ((rest.emit p.2).lookup k) := by
    intro p k
    show List.lookup k (F.emit p.1 ++ rest.emit p.2) = _
    rw [List.lookup_append]
  constructor
  · intro p k hk
    have hk1 : k ∉ F.keys := fun h => hk (List.mem_append_left _ h)
    have hk2 : k ∉ rest.keys := fun h => hk (List.mem_append_right _ h)
    rw [hemit, hF.lookup_emit p.1 k hk1, hrest.lookup_emit p.2 k hk2]
    rfl
  · intro p fs hfs
    obtain ⟨a, b⟩ := p
    have h1 : F.read fs = some a := by
      apply hF.read_emit
      intro k hk
      rw [hfs k (List.mem_append_left _ hk), hemit,
        hrest.lookup_emit b k (hdisj k hk)]
      simp
    have h2 : rest.read fs = some b := by
      apply hrest.read_emit
      intro k hk
      have hk1 : k ∉ F.keys := fun h => hdisj k h hk
      rw [hfs k (List.mem_append_right _ hk), hemit, hF.lookup_emit a k hk1]
      simp
    show (match F.read fs, rest.read fs with
      | some a, some b => some (a, b)
      | _, _ => none) = some (a, b)
    rw [h1, h2]

/-- The fields of a struct round-trip when the tuple of its field values does. -/
theorem FieldsCodec.iso_roundTrips {β γ : Type} (F : FieldsCodec β) (f : β → γ) (g : γ → β)
    (hF : F.RoundTrips) (hfg : ∀ x, f (g x) = x) : (F.iso f g).RoundTrips := by
  constructor
  · intro x k hk
    exact hF.lookup_emit (g x) k hk
  · intro x fs hfs
    show (F.read fs).map f = some x
    rw [hF.read_emit (g x) fs hfs, Option.map_some', hfg]

/-- A struct round-trips when its fields do. -/
theorem Codec.object_roundTrips {β : Type} (F : FieldsCodec β) (hF : F.RoundTrips) :
    (Codec.object F).RoundTrips :=
  ⟨fun b => hF.read_emit b (F.emit b) (fun _ _ => rfl), fun _ h => by simp [Codec.object] at h⟩

/-- A struct is never written as `null`. -/
theorem Codec.object_neverNull {β : Type} (F : FieldsCodec β) : (Codec.object F).NeverNull :=
  fun _ h => Json.noConfusion h

/-- No fields, no names. -/
@[simp]
theorem FieldsCodec.keys_nil : FieldsCodec.nil.keys = [] :=
  rfl

/-- The names of a field followed by other fields. -/
@[simp]
theorem FieldsCodec.keys_field {α β : Type} (name : String) (omitempty : Bool) (c : Codec α)
    (rest : FieldsCodec β) : (FieldsCodec.field name omitempty c rest).keys = name :: rest.keys :=
  rfl

/-- The names of an embedded struct followed by other fields. -/
@[simp]
theorem FieldsCodec.keys_inline {α β : Type} (F : FieldsCodec α) (rest : FieldsCodec β) :
    (FieldsCodec.inline F rest).keys = F.keys ++ rest.keys :=
  rfl

/-- The names do not depend on how the struct is given. -/
@[simp]
theorem FieldsCodec.keys_iso {β γ : Type} (F : FieldsCodec β) (f : β → γ) (g : γ → β) :
    (F.iso f g).keys = F.keys :=
  rfl

/-! ## Round trips of the API types -/

/-- The JSON names of the fields of `TypeMeta`. -/
@[simp]
theorem typeMetaFields_keys : typeMetaFields.keys = ["kind", "apiVersion"] :=
  rfl

/-- The fields of `TypeMeta` are read back as they were written. -/
theorem typeMetaFields_roundTrips :
    typeMetaFields.RoundTrips :=
  FieldsCodec.iso_roundTrips _ _ _
    (FieldsCodec.field_roundTrips _ _ _ _ (by simp) stringCodec_roundTrips
      (FieldsCodec.field_roundTrips _ _ _ _ (by simp) stringCodec_roundTrips
        FieldsCodec.nil_roundTrips))
    (fun _ => rfl)

/-- A `TypeMeta` is decoded to what was encoded. -/
theorem typeMetaCodec_roundTrips :
    typeMetaCodec.RoundTrips :=
  Codec.object_roundTrips _ typeMetaFields_roundTrips

/-- The JSON names of the fields of `ResourcePool`. -/
@[simp]
theorem resourcePoolFields_keys :
    resourcePoolFields.keys =
      ["name", "generation", "resourceSliceCount"] :=
  rfl

/-- The fields of `ResourcePool` are read back as they were written. -/
theorem resourcePoolFields_roundTrips :
    resourcePoolFields.RoundTrips :=
  FieldsCodec.iso_roundTrips _ _ _
    (FieldsCodec.field_roundTrips _ _ _ _ (by simp) stringCodec_roundTrips
      (FieldsCodec.field_roundTrips _ _ _ _ (by simp) intCodec_roundTrips
        (FieldsCodec.field_roundTrips _ _ _ _ (by simp) intCodec_roundTrips
          FieldsCodec.nil_roundTrips)))
    (fun _ => rfl)

/-- A `ResourcePool` is decoded to what was encoded. -/
theorem resourcePoolCodec_roundTrips :
    resourcePoolCodec.RoundTrips :=
  Codec.object_roundTrips _ resourcePoolFields_roundTrips

/-- The JSON names of the fields of `Counter`. -/
@[simp]
theorem counterFields_keys (E : ExternalCodecs) : (counterFields E).keys = ["value"] :=
  rfl

/-- The fields of `Counter` are read back as they were written. -/
theorem counterFields_roundTrips (E : ExternalCodecs) (hE : E.RoundTrip) :
    (counterFields E).RoundTrips :=
  FieldsCodec.iso_roundTrips _ _ _
    (FieldsCodec.field_roundTrips _ _ _ _ (by simp) hE.quantity
      FieldsCodec.nil_roundTrips)
    (fun _ => rfl)

/-- A `Counter` is decoded to what was encoded. -/
theorem counterCodec_roundTrips (E : ExternalCodecs) (hE : E.RoundTrip) :
    (counterCodec E).RoundTrips :=
  Codec.object_roundTrips _ (counterFields_roundTrips E hE)

/-- The JSON names of the fields of `CounterSet`. -/
@[simp]
theorem counterSetFields_keys (E : ExternalCodecs) :
    (counterSetFields E).keys =
      ["name", "counters"] :=
  rfl

/-- The fields of `CounterSet` are read back as they were written. -/
theorem counterSetFields_roundTrips (E : ExternalCodecs) (hE : E.RoundTrip) :
    (counterSetFields E).RoundTrips :=
  FieldsCodec.iso_roundTrips _ _ _
    (FieldsCodec.field_roundTrips _ _ _ _ (by simp) stringCodec_roundTrips
      (FieldsCodec.field_roundTrips _ _ _ _ (by simp) (mapCodec_roundTrips _ (counterCodec_roundTrips E hE))
        FieldsCodec.nil_roundTrips))
    (fun _ => rfl)

/-- A `CounterSet` is decoded to what was encoded. -/
theorem counterSetCodec_roundTrips (E : ExternalCodecs) (hE : E.RoundTrip) :
    (counterSetCodec E).RoundTrips :=
  Codec.object_roundTrips _ (counterSetFields_roundTrips E hE)

/-- The JSON names of the fields of `DeviceCounterConsumption`. -/
@[simp]
theorem deviceCounterConsumptionFields_keys (E : ExternalCodecs) :
    (deviceCounterConsumptionFields E).keys =
      ["counterSet", "counters"] :=
  rfl

/-- The fields of `DeviceCounterConsumption` are read back as they were written. -/
theorem deviceCounterConsumptionFields_roundTrips (E : ExternalCodecs) (hE : E.RoundTrip) :
    (deviceCounterConsumptionFields E).RoundTrips :=
  FieldsCodec.iso_roundTrips _ _ _
    (FieldsCodec.field_roundTrips _ _ _ _ (by simp) stringCodec_roundTrips
      (FieldsCodec.field_roundTrips _ _ _ _ (by simp) (mapCodec_roundTrips _ (counterCodec_roundTrips E hE))
        FieldsCodec.nil_roundTrips))
    (fun _ => rfl)

/-- A `DeviceCounterConsumption` is decoded to what was encoded. -/
theorem deviceCounterConsumptionCodec_roundTrips (E : ExternalCodecs) (hE : E.RoundTrip) :
    (deviceCounterConsumptionCodec E).RoundTrips :=
  Codec.object_roundTrips _ (deviceCounterConsumptionFields_roundTrips E hE)

/-- The JSON names of the fields of `DeviceCapacity`. -/
@[simp]
theorem deviceCapacityFields_keys (E : ExternalCodecs) :
    (deviceCapacityFields E).keys =
      ["value"] :=
  rfl

/-- The fields of `DeviceCapacity` are read back as they were written. -/
theorem deviceCapacityFields_roundTrips (E : ExternalCodecs) (hE : E.RoundTrip) :
    (deviceCapacityFields E).RoundTrips :=
  FieldsCodec.iso_roundTrips _ _ _
    (FieldsCodec.field_roundTrips _ _ _ _ (by simp) hE.quantity
      FieldsCodec.nil_roundTrips)
    (fun _ => rfl)

/-- A `DeviceCapacity` is decoded to what was encoded. -/
theorem deviceCapacityCodec_roundTrips (E : ExternalCodecs) (hE : E.RoundTrip) :
    (deviceCapacityCodec E).RoundTrips :=
  Codec.object_roundTrips _ (deviceCapacityFields_roundTrips E hE)

/-- The JSON names of the fields of `DeviceAttribute`. -/
@[simp]
theorem deviceAttributeFields_keys :
    deviceAttributeFields.keys =
      ["int", "bool", "string", "version"] :=
  rfl

/-- The fields of `DeviceAttribute` are read back as they were written. -/
theorem deviceAttributeFields_roundTrips :
    deviceAttributeFields.RoundTrips :=
  FieldsCodec.iso_roundTrips _ _ _
    (FieldsCodec.field_roundTrips _ _ _ _ (by simp) (ptrCodec_roundTrips _ intCodec_roundTrips intCodec_neverNull)
      (FieldsCodec.field_roundTrips _ _ _ _ (by simp) (ptrCodec_roundTrips _ boolCodec_roundTrips boolCodec_neverNull)
        (FieldsCodec.field_roundTrips _ _ _ _ (by simp) (ptrCodec_roundTrips _ stringCodec_roundTrips stringCodec_neverNull)
          (FieldsCodec.field_roundTrips _ _ _ _ (by simp) (ptrCodec_roundTrips _ stringCodec_roundTrips stringCodec_neverNull)
            FieldsCodec.nil_roundTrips))))
    (fun _ => rfl)

/-- A `DeviceAttribute` is decoded to what was encoded. -/
theorem deviceAttributeCodec_roundTrips :
    deviceAttributeCodec.RoundTrips :=
  Codec.object_roundTrips _ deviceAttributeFields_roundTrips

/-- The JSON names of the fields of `DeviceTaint`. -/
@[simp]
theorem deviceTaintFields_keys (E : ExternalCodecs) :
    (deviceTaintFields E).keys =
      ["key", "value", "effect", "timeAdded"] :=
  rfl

/-- The fields of `DeviceTaint` are read back as they were written. -/
theorem deviceTaintFields_roundTrips (E : ExternalCodecs) (hE : E.RoundTrip) :
    (deviceTaintFields E).RoundTrips :=
  FieldsCodec.iso_roundTrips _ _ _
    (FieldsCodec.field_roundTrips _ _ _ _ (by simp) stringCodec_roundTrips
      (FieldsCodec.field_roundTrips _ _ _ _ (by simp) stringCodec_roundTrips
        (FieldsCodec.field_roundTrips _ _ _ _ (by simp) stringCodec_roundTrips
          (FieldsCodec.field_roundTrips _ _ _ _ (by simp) (ptrCodec_roundTrips _ hE.time hE.time_neverNull)
            FieldsCodec.nil_roundTrips))))
    (fun _ => rfl)

/-- A `DeviceTaint` is decoded to what was encoded. -/
theorem deviceTaintCodec_roundTrips (E : ExternalCodecs) (hE : E.RoundTrip) :
    (deviceTaintCodec E).RoundTrips :=
  Codec.object_roundTrips _ (deviceTaintFields_roundTrips E hE)

/-- The JSON names of the fields of `Device`. -/
@[simp]
theorem deviceFields_keys (E : ExternalCodecs) :
    (deviceFields E).keys =
      ["name", "attributes", "capacity", "consumesCounters", "nodeName", "nodeSelector",
       "allNodes", "taints", "bindsToNode", "bindingConditions",
       "bindingFailureConditions"] :=
  rfl

/-- The fields of `Device` are read back as they were written. -/
theorem deviceFields_roundTrips (E : ExternalCodecs) (hE : E.RoundTrip) :
    (deviceFields E).RoundTrips :=
  FieldsCodec.iso_roundTrips _ _ _
    (FieldsCodec.field_roundTrips _ _ _ _ (by simp) stringCodec_roundTrips
      (FieldsCodec.field_roundTrips _ _ _ _ (by simp) (mapCodec_roundTrips _ deviceAttributeCodec_roundTrips)
        (FieldsCodec.field_roundTrips _ _ _ _ (by simp) (mapCodec_roundTrips _ (deviceCapacityCodec_roundTrips E hE))
          (FieldsCodec.field_roundTrips _ _ _ _ (by simp) (listCodec_roundTrips _ (deviceCounterConsumptionCodec_roundTrips E hE))
            (FieldsCodec.field_roundTrips _ _ _ _ (by simp) (ptrCodec_roundTrips _ stringCodec_roundTrips stringCodec_neverNull)
              (FieldsCodec.field_roundTrips _ _ _ _ (by simp) (ptrCodec_roundTrips _ hE.nodeSelector hE.nodeSelector_neverNull)
                (FieldsCodec.field_roundTrips _ _ _ _ (by simp) (ptrCodec_roundTrips _ boolCodec_roundTrips boolCodec_neverNull)
                  (FieldsCodec.field_roundTrips _ _ _ _ (by simp) (listCodec_roundTrips _ (deviceTaintCodec_roundTrips E hE))
                    (FieldsCodec.field_roundTrips _ _ _ _ (by simp) (ptrCodec_roundTrips _ boolCodec_roundTrips boolCodec_neverNull)
                      (FieldsCodec.field_roundTrips _ _ _ _ (by simp) (listCodec_roundTrips _ stringCodec_roundTrips)
                        (FieldsCodec.field_roundTrips _ _ _ _ (by simp) (listCodec_roundTrips _ stringCodec_roundTrips)
                          FieldsCodec.nil_roundTrips)))))))))))
    (fun _ => rfl)

/-- A `Device` is decoded to what was encoded. -/
theorem deviceCodec_roundTrips (E : ExternalCodecs) (hE : E.RoundTrip) :
    (deviceCodec E).RoundTrips :=
  Codec.object_roundTrips _ (deviceFields_roundTrips E hE)

/-- The JSON names of the fields of `ResourceSliceSpec`. -/
@[simp]
theorem resourceSliceSpecFields_keys (E : ExternalCodecs) :
    (resourceSliceSpecFields E).keys =
      ["driver", "pool", "nodeName", "nodeSelector", "allNodes", "devices",
       "perDeviceNodeSelection", "sharedCounters"] :=
  rfl

/-- The fields of `ResourceSliceSpec` are read back as they were written. -/
theorem resourceSliceSpecFields_roundTrips (E : ExternalCodecs) (hE : E.RoundTrip) :
    (resourceSliceSpecFields E).RoundTrips :=
  FieldsCodec.iso_roundTrips _ _ _
    (FieldsCodec.field_roundTrips _ _ _ _ (by simp) stringCodec_roundTrips
      (FieldsCodec.field_roundTrips _ _ _ _ (by simp) resourcePoolCodec_roundTrips
        (FieldsCodec.field_roundTrips _ _ _ _ (by simp) (ptrCodec_roundTrips _ stringCodec_roundTrips stringCodec_neverNull)
          (FieldsCodec.field_roundTrips _ _ _ _ (by simp) (ptrCodec_roundTrips _ hE.nodeSelector hE.nodeSelector_neverNull)
            (FieldsCodec.field_roundTrips _ _ _ _ (by simp) (ptrCodec_roundTrips _ boolCodec_roundTrips boolCodec_neverNull)
              (FieldsCodec.field_roundTrips _ _ _ _ (by simp) (listCodec_roundTrips _ (deviceCodec_roundTrips E hE))
                (FieldsCodec.field_roundTrips _ _ _ _ (by simp) (ptrCodec_roundTrips _ boolCodec_roundTrips boolCodec_neverNull)
                  (FieldsCodec.field_roundTrips _ _ _ _ (by simp) (listCodec_roundTrips _ (counterSetCodec_roundTrips E hE))
                    FieldsCodec.nil_roundTrips))))))))
    (fun _ => rfl)

/-- A `ResourceSliceSpec` is decoded to what was encoded. -/
theorem resourceSliceSpecCodec_roundTrips (E : ExternalCodecs) (hE : E.RoundTrip) :
    (resourceSliceSpecCodec E).RoundTrips :=
  Codec.object_roundTrips _ (resourceSliceSpecFields_roundTrips E hE)

/-- The JSON names of the fields of `ResourceSlice`. -/
@[simp]
theorem resourceSliceFields_keys (E : ExternalCodecs) :
    (resourceSliceFields E).keys =
      ["kind", "apiVersion", "metadata", "spec"] :=
  rfl

/-- The fields of `ResourceSlice` are read back as they were written. -/
theorem resourceSliceFields_roundTrips (E : ExternalCodecs) (hE : E.RoundTrip) :
    (resourceSliceFields E).RoundTrips :=
  FieldsCodec.iso_roundTrips _ _ _
    (FieldsCodec.inline_roundTrips _ _ (by simp) typeMetaFields_roundTrips
      (FieldsCodec.field_roundTrips _ _ _ _ (by simp) hE.objectMeta
        (FieldsCodec.field_roundTrips _ _ _ _ (by simp) (resourceSliceSpecCodec_roundTrips E hE)
          FieldsCodec.nil_roundTrips)))
    (fun _ => rfl)

/-- A `ResourceSlice` is decoded to what was encoded. -/
theorem resourceSliceCodec_roundTrips (E : ExternalCodecs) (hE : E.RoundTrip) :
    (resourceSliceCodec E).RoundTrips :=
  Codec.object_roundTrips _ (resourceSliceFields_roundTrips E hE)

/-- The JSON names of the fields of `DeviceToleration`. -/
@[simp]
theorem deviceTolerationFields_keys :
    deviceTolerationFields.keys =
      ["key", "operator", "value", "effect", "tolerationSeconds"] :=
  rfl

/-- The fields of `DeviceToleration` are read back as they were written. -/
theorem deviceTolerationFields_roundTrips :
    deviceTolerationFields.RoundTrips :=
  FieldsCodec.iso_roundTrips _ _ _
    (FieldsCodec.field_roundTrips _ _ _ _ (by simp) stringCodec_roundTrips
      (FieldsCodec.field_roundTrips _ _ _ _ (by simp) stringCodec_roundTrips
        (FieldsCodec.field_roundTrips _ _ _ _ (by simp) stringCodec_roundTrips
          (FieldsCodec.field_roundTrips _ _ _ _ (by simp) stringCodec_roundTrips
            (FieldsCodec.field_roundTrips _ _ _ _ (by simp) (ptrCodec_roundTrips _ intCodec_roundTrips intCodec_neverNull)
              FieldsCodec.nil_roundTrips)))))
    (fun _ => rfl)

/-- A `DeviceToleration` is decoded to what was encoded. -/
theorem deviceTolerationCodec_roundTrips :
    deviceTolerationCodec.RoundTrips :=
  Codec.object_roundTrips _ deviceTolerationFields_roundTrips

/-- The JSON names of the fields of `CELDeviceSelector`. -/
@[simp]
theorem celDeviceSelectorFields_keys : celDeviceSelectorFields.keys = ["expression"] :=
  rfl

/-- The fields of `CELDeviceSelector` are read back as they were written. -/
theorem celDeviceSelectorFields_roundTrips :
    celDeviceSelectorFields.RoundTrips :=
  FieldsCodec.iso_roundTrips _ _ _
    (FieldsCodec.field_roundTrips _ _ _ _ (by simp) stringCodec_roundTrips
      FieldsCodec.nil_roundTrips)
    (fun _ => rfl)

/-- A `CELDeviceSelector` is decoded to what was encoded. -/
theorem celDeviceSelectorCodec_roundTrips :
    celDeviceSelectorCodec.RoundTrips :=
  Codec.object_roundTrips _ celDeviceSelectorFields_roundTrips

/-- The JSON names of the fields of `DeviceSelector`. -/
@[simp]
theorem deviceSelectorFields_keys : deviceSelectorFields.keys = ["cel"] :=
  rfl

/-- The fields of `DeviceSelector` are read back as they were written. -/
theorem deviceSelectorFields_roundTrips :
    deviceSelectorFields.RoundTrips :=
  FieldsCodec.iso_roundTrips _ _ _
    (FieldsCodec.field_roundTrips _ _ _ _ (by simp) (ptrCodec_roundTrips _ celDeviceSelectorCodec_roundTrips (Codec.object_neverNull _))
      FieldsCodec.nil_roundTrips)
    (fun _ => rfl)

/-- A `DeviceSelector` is decoded to what was encoded. -/
theorem deviceSelectorCodec_roundTrips :
    deviceSelectorCodec.RoundTrips :=
  Codec.object_roundTrips _ deviceSelectorFields_roundTrips

/-- The JSON names of the fields of `ExactDeviceRequest`. -/
@[simp]
theorem exactDeviceRequestFields_keys :
    exactDeviceRequestFields.keys =
      ["deviceClassName", "selectors", "allocationMode", "count", "adminAccess", "tolerations"] :=
  rfl

/-- The fields of `ExactDeviceRequest` are read back as they were written. -/
theorem exactDeviceRequestFields_roundTrips :
    exactDeviceRequestFields.RoundTrips :=
  FieldsCodec.iso_roundTrips _ _ _
    (FieldsCodec.field_roundTrips _ _ _ _ (by simp) stringCodec_roundTrips
      (FieldsCodec.field_roundTrips _ _ _ _ (by simp) (listCodec_roundTrips _ deviceSelectorCodec_roundTrips)
        (FieldsCodec.field_roundTrips _ _ _ _ (by simp) stringCodec_roundTrips
          (FieldsCodec.field_roundTrips _ _ _ _ (by simp) intCodec_roundTrips
            (FieldsCodec.field_roundTrips _ _ _ _ (by simp) (ptrCodec_roundTrips _ boolCodec_roundTrips boolCodec_neverNull)
              (FieldsCodec.field_roundTrips _ _ _ _ (by simp) (listCodec_roundTrips _ deviceTolerationCodec_roundTrips)
                FieldsCodec.nil_roundTrips))))))
    (fun _ => rfl)

/-- A `ExactDeviceRequest` is decoded to what was encoded. -/
theorem exactDeviceRequestCodec_roundTrips :
    exactDeviceRequestCodec.RoundTrips :=
  Codec.object_roundTrips _ exactDeviceRequestFields_roundTrips

/-- The JSON names of the fields of `DeviceSubRequest`. -/
@[simp]
theorem deviceSubRequestFields_keys :
    deviceSubRequestFields.keys =
      ["name", "deviceClassName", "selectors", "allocationMode", "count", "tolerations"] :=
  rfl

/-- The fields of `DeviceSubRequest` are read back as they were written. -/
theorem deviceSubRequestFields_roundTrips :
    deviceSubRequestFields.RoundTrips :=
  FieldsCodec.iso_roundTrips _ _ _
    (FieldsCodec.field_roundTrips _ _ _ _ (by simp) stringCodec_roundTrips
      (FieldsCodec.field_roundTrips _ _ _ _ (by simp) stringCodec_roundTrips
        (FieldsCodec.field_roundTrips _ _ _ _ (by simp) (listCodec_roundTrips _ deviceSelectorCodec_roundTrips)
          (FieldsCodec.field_roundTrips _ _ _ _ (by simp) stringCodec_roundTrips
            (FieldsCodec.field_roundTrips _ _ _ _ (by simp) intCodec_roundTrips
              (FieldsCodec.field_roundTrips _ _ _ _ (by simp) (listCodec_roundTrips _ deviceTolerationCodec_roundTrips)
                FieldsCodec.nil_roundTrips))))))
    (fun _ => rfl)

/-- A `DeviceSubRequest` is decoded to what was encoded. -/
theorem deviceSubRequestCodec_roundTrips :
    deviceSubRequestCodec.RoundTrips :=
  Codec.object_roundTrips _ deviceSubRequestFields_roundTrips

/-- The JSON names of the fields of `DeviceRequest`. -/
@[simp]
theorem deviceRequestFields_keys :
    deviceRequestFields.keys =
      ["name", "exactly", "firstAvailable"] :=
  rfl

/-- The fields of `DeviceRequest` are read back as they were written. -/
theorem deviceRequestFields_roundTrips :
    deviceRequestFields.RoundTrips :=
  FieldsCodec.iso_roundTrips _ _ _
    (FieldsCodec.field_roundTrips _ _ _ _ (by simp) stringCodec_roundTrips
      (FieldsCodec.field_roundTrips _ _ _ _ (by simp) (ptrCodec_roundTrips _ exactDeviceRequestCodec_roundTrips (Codec.object_neverNull _))
        (FieldsCodec.field_roundTrips _ _ _ _ (by simp) (listCodec_roundTrips _ deviceSubRequestCodec_roundTrips)
          FieldsCodec.nil_roundTrips)))
    (fun _ => rfl)

/-- A `DeviceRequest` is decoded to what was encoded. -/
theorem deviceRequestCodec_roundTrips :
    deviceRequestCodec.RoundTrips :=
  Codec.object_roundTrips _ deviceRequestFields_roundTrips

/-- The JSON names of the fields of `DeviceConstraint`. -/
@[simp]
theorem deviceConstraintFields_keys :
    deviceConstraintFields.keys =
      ["requests", "matchAttribute"] :=
  rfl

/-- The fields of `DeviceConstraint` are read back as they were written. -/
theorem deviceConstraintFields_roundTrips :
    deviceConstraintFields.RoundTrips :=
  FieldsCodec.iso_roundTrips _ _ _
    (FieldsCodec.field_roundTrips _ _ _ _ (by simp) (listCodec_roundTrips _ stringCodec_roundTrips)
      (FieldsCodec.field_roundTrips _ _ _ _ (by simp) (ptrCodec_roundTrips _ stringCodec_roundTrips stringCodec_neverNull)
        FieldsCodec.nil_roundTrips))
    (fun _ => rfl)

/-- A `DeviceConstraint` is decoded to what was encoded. -/
theorem deviceConstraintCodec_roundTrips :
    deviceConstraintCodec.RoundTrips :=
  Codec.object_roundTrips _ deviceConstraintFields_roundTrips

/-- The JSON names of the fields of `OpaqueDeviceConfiguration`. -/
@[simp]
theorem opaqueDeviceConfigurationFields_keys (E : ExternalCodecs) :
    (opaqueDeviceConfigurationFields E).keys =
      ["driver", "parameters"] :=
  rfl

/-- The fields of `OpaqueDeviceConfiguration` are read back as they were written. -/
theorem opaqueDeviceConfigurationFields_roundTrips (E : ExternalCodecs) (hE : E.RoundTrip) :
    (opaqueDeviceConfigurationFields E).RoundTrips :=
  FieldsCodec.iso_roundTrips _ _ _
    (FieldsCodec.field_roundTrips _ _ _ _ (by simp) stringCodec_roundTrips
      (FieldsCodec.field_roundTrips _ _ _ _ (by simp) hE.rawExtension
        FieldsCodec.nil_roundTrips))
    (fun _ => rfl)

/-- A `OpaqueDeviceConfiguration` is decoded to what was encoded. -/
theorem opaqueDeviceConfigurationCodec_roundTrips (E : ExternalCodecs) (hE : E.RoundTrip) :
    (opaqueDeviceConfigurationCodec E).RoundTrips :=
  Codec.object_roundTrips _ (opaqueDeviceConfigurationFields_roundTrips E hE)

/-- The JSON names of the fields of `DeviceConfiguration`. -/
@[simp]
theorem deviceConfigurationFields_keys (E : ExternalCodecs) :
    (deviceConfigurationFields E).keys =
      ["opaque"] :=
  rfl

/-- The fields of `DeviceConfiguration` are read back as they were written. -/
theorem deviceConfigurationFields_roundTrips (E : ExternalCodecs) (hE : E.RoundTrip) :
    (deviceConfigurationFields E).RoundTrips :=
  FieldsCodec.iso_roundTrips _ _ _
    (FieldsCodec.field_roundTrips _ _ _ _ (by simp) (ptrCodec_roundTrips _ (opaqueDeviceConfigurationCodec_roundTrips E hE) (Codec.object_neverNull _))
      FieldsCodec.nil_roundTrips)
    (fun _ => rfl)

/-- A `DeviceConfiguration` is decoded to what was encoded. -/
theorem deviceConfigurationCodec_roundTrips (E : ExternalCodecs) (hE : E.RoundTrip) :
    (deviceConfigurationCodec E).RoundTrips :=
  Codec.object_roundTrips _ (deviceConfigurationFields_roundTrips E hE)

/-- The JSON names of the fields of `DeviceClaimConfiguration`. -/
@[simp]
theorem deviceClaimConfigurationFields_keys (E : ExternalCodecs) :
    (deviceClaimConfigurationFields E).keys =
      ["requests", "opaque"] :=
  rfl

/-- The fields of `DeviceClaimConfiguration` are read back as they were written. -/
theorem deviceClaimConfigurationFields_roundTrips (E : ExternalCodecs) (hE : E.RoundTrip) :
    (deviceClaimConfigurationFields E).RoundTrips :=
  FieldsCodec.iso_roundTrips _ _ _
    (FieldsCodec.field_roundTrips _ _ _ _ (by simp) (listCodec_roundTrips _ stringCodec_roundTrips)
      (FieldsCodec.inline_roundTrips _ _ (by simp) (deviceConfigurationFields_roundTrips E hE)
        FieldsCodec.nil_roundTrips))
    (fun _ => rfl)

/-- A `DeviceClaimConfiguration` is decoded to what was encoded. -/
theorem deviceClaimConfigurationCodec_roundTrips (E : ExternalCodecs) (hE : E.RoundTrip) :
    (deviceClaimConfigurationCodec E).RoundTrips :=
  Codec.object_roundTrips _ (deviceClaimConfigurationFields_roundTrips E hE)

/-- The JSON names of the fields of `DeviceClaim`. -/
@[simp]
theorem deviceClaimFields_keys (E : ExternalCodecs) :
    (deviceClaimFields E).keys =
      ["requests", "constraints", "config"] :=
  rfl

/-- The fields of `DeviceClaim` are read back as they were written. -/
theorem deviceClaimFields_roundTrips (E : ExternalCodecs) (hE : E.RoundTrip) :
    (deviceClaimFields E).RoundTrips :=
  FieldsCodec.iso_roundTrips _ _ _
    (FieldsCodec.field_roundTrips _ _ _ _ (by simp) (listCodec_roundTrips _ deviceRequestCodec_roundTrips)
      (FieldsCodec.field_roundTrips _ _ _ _ (by simp) (listCodec_roundTrips _ deviceConstraintCodec_roundTrips)
        (FieldsCodec.field_roundTrips _ _ _ _ (by simp) (listCodec_roundTrips _ (deviceClaimConfigurationCodec_roundTrips E hE))
          FieldsCodec.nil_roundTrips)))
    (fun _ => rfl)

/-- A `DeviceClaim` is decoded to what was encoded. -/
theorem deviceClaimCodec_roundTrips (E : ExternalCodecs) (hE : E.RoundTrip) :
    (deviceClaimCodec E).RoundTrips :=
  Codec.object_roundTrips _ (deviceClaimFields_roundTrips E hE)

/-- The JSON names of the fields of `ResourceClaimSpec`. -/
@[simp]
theorem resourceClaimSpecFields_keys (E : ExternalCodecs) :
    (resourceClaimSpecFields E).keys =
      ["devices"] :=
  rfl

/-- The fields of `ResourceClaimSpec` are read back as they were written. -/
theorem resourceClaimSpecFields_roundTrips (E : ExternalCodecs) (hE : E.RoundTrip) :
    (resourceClaimSpecFields E).RoundTrips :=
  FieldsCodec.iso_roundTrips _ _ _
    (FieldsCodec.field_roundTrips _ _ _ _ (by simp) (deviceClaimCodec_roundTrips E hE)
      FieldsCodec.nil_roundTrips)
    (fun _ => rfl)

/-- A `ResourceClaimSpec` is decoded to what was encoded. -/
theorem resourceClaimSpecCodec_roundTrips (E : ExternalCodecs) (hE : E.RoundTrip) :
    (resourceClaimSpecCodec E).RoundTrips :=
  Codec.object_roundTrips _ (resourceClaimSpecFields_roundTrips E hE)

/-- The JSON names of the fields of `ResourceClaimConsumerReference`. -/
@[simp]
theorem resourceClaimConsumerReferenceFields_keys :
    resourceClaimConsumerReferenceFields.keys =
      ["apiGroup", "resource", "name", "uid"] :=
  rfl

/-- The fields of `ResourceClaimConsumerReference` are read back as they were written. -/
theorem resourceClaimConsumerReferenceFields_roundTrips :
    resourceClaimConsumerReferenceFields.RoundTrips :=
  FieldsCodec.iso_roundTrips _ _ _
    (FieldsCodec.field_roundTrips _ _ _ _ (by simp) stringCodec_roundTrips
      (FieldsCodec.field_roundTrips _ _ _ _ (by simp) stringCodec_roundTrips
        (FieldsCodec.field_roundTrips _ _ _ _ (by simp) stringCodec_roundTrips
          (FieldsCodec.field_roundTrips _ _ _ _ (by simp) stringCodec_roundTrips
            FieldsCodec.nil_roundTrips))))
    (fun _ => rfl)

/-- A `ResourceClaimConsumerReference` is decoded to what was encoded. -/
theorem resourceClaimConsumerReferenceCodec_roundTrips :
    resourceClaimConsumerReferenceCodec.RoundTrips :=
  Codec.object_roundTrips _ resourceClaimConsumerReferenceFields_roundTrips

/-- The JSON names of the fields of `DeviceRequestAllocationResult`. -/
@[simp]
theorem deviceRequestAllocationResultFields_keys :
    deviceRequestAllocationResultFields.keys =
      ["request", "driver", "pool", "device", "adminAccess", "tolerations", "bindingConditions",
       "bindingFailureConditions"] :=
  rfl

/-- The fields of `DeviceRequestAllocationResult` are read back as they were written. -/
theorem deviceRequestAllocationResultFields_roundTrips :
    deviceRequestAllocationResultFields.RoundTrips :=
  FieldsCodec.iso_roundTrips _ _ _
    (FieldsCodec.field_roundTrips _ _ _ _ (by simp) stringCodec_roundTrips
      (FieldsCodec.field_roundTrips _ _ _ _ (by simp) stringCodec_roundTrips
        (FieldsCodec.field_roundTrips _ _ _ _ (by simp) stringCodec_roundTrips
          (FieldsCodec.field_roundTrips _ _ _ _ (by simp) stringCodec_roundTrips
            (FieldsCodec.field_roundTrips _ _ _ _ (by simp) (ptrCodec_roundTrips _ boolCodec_roundTrips boolCodec_neverNull)
              (FieldsCodec.field_roundTrips _ _ _ _ (by simp) (listCodec_roundTrips _ deviceTolerationCodec_roundTrips)
                (FieldsCodec.field_roundTrips _ _ _ _ (by simp) (listCodec_roundTrips _ stringCodec_roundTrips)
                  (FieldsCodec.field_roundTrips _ _ _ _ (by simp) (listCodec_roundTrips _ stringCodec_roundTrips)
                    FieldsCodec.nil_roundTrips))))))))
    (fun _ => rfl)

/-- A `DeviceRequestAllocationResult` is decoded to what was encoded. -/
theorem deviceRequestAllocationResultCodec_roundTrips :
    deviceRequestAllocationResultCodec.RoundTrips :=
  Codec.object_roundTrips _ deviceRequestAllocationResultFields_roundTrips

/-- The JSON names of the fields of `DeviceAllocationConfiguration`. -/
@[simp]
theorem deviceAllocationConfigurationFields_keys (E : ExternalCodecs) :
    (deviceAllocationConfigurationFields E).keys =
      ["source", "requests", "opaque"] :=
  rfl

/-- The fields of `DeviceAllocationConfiguration` are read back as they were written. -/
theorem deviceAllocationConfigurationFields_roundTrips (E : ExternalCodecs) (hE : E.RoundTrip) :
    (deviceAllocationConfigurationFields E).RoundTrips :=
  FieldsCodec.iso_roundTrips _ _ _
    (FieldsCodec.field_roundTrips _ _ _ _ (by simp) stringCodec_roundTrips
      (FieldsCodec.field_roundTrips _ _ _ _ (by simp) (listCodec_roundTrips _ stringCodec_roundTrips)
        (FieldsCodec.inline_roundTrips _ _ (by simp) (deviceConfigurationFields_roundTrips E hE)
          FieldsCodec.nil_roundTrips)))
    (fun _ => rfl)

/-- A `DeviceAllocationConfiguration` is decoded to what was encoded. -/
theorem deviceAllocationConfigurationCodec_roundTrips (E : ExternalCodecs) (hE : E.RoundTrip) :
    (deviceAllocationConfigurationCodec E).RoundTrips :=
  Codec.object_roundTrips _ (deviceAllocationConfigurationFields_roundTrips E hE)

/-- The JSON names of the fields of `DeviceAllocationResult`. -/
@[simp]
theorem deviceAllocationResultFields_keys (E : ExternalCodecs) :
    (deviceAllocationResultFields E).keys =
      ["results", "config"] :=
  rfl

/-- The fields of `DeviceAllocationResult` are read back as they were written. -/
theorem deviceAllocationResultFields_roundTrips (E : ExternalCodecs) (hE : E.RoundTrip) :
    (deviceAllocationResultFields E).RoundTrips :=
  FieldsCodec.iso_roundTrips _ _ _
    (FieldsCodec.field_roundTrips _ _ _ _ (by simp) (listCodec_roundTrips _ deviceRequestAllocationResultCodec_roundTrips)
      (FieldsCodec.field_roundTrips _ _ _ _ (by simp) (listCodec_roundTrips _ (deviceAllocationConfigurationCodec_roundTrips E hE))
        FieldsCodec.nil_roundTrips))
    (fun _ => rfl)

/-- A `DeviceAllocationResult` is decoded to what was encoded. -/
theorem deviceAllocationResultCodec_roundTrips (E : ExternalCodecs) (hE : E.RoundTrip) :
    (deviceAllocationResultCodec E).RoundTrips :=
  Codec.object_roundTrips _ (deviceAllocationResultFields_roundTrips E hE)

/-- The JSON names of the fields of `AllocationResult`. -/
@[simp]
theorem allocationResultFields_keys (E : ExternalCodecs) :
    (allocationResultFields E).keys =
      ["devices", "nodeSelector", "allocationTimestamp"] :=
  rfl

/-- The fields of `AllocationResult` are read back as they were written. -/
theorem allocationResultFields_roundTrips (E : ExternalCodecs) (hE : E.RoundTrip) :
    (allocationResultFields E).RoundTrips :=
  FieldsCodec.iso_roundTrips _ _ _
    (FieldsCodec.field_roundTrips _ _ _ _ (by simp) (deviceAllocationResultCodec_roundTrips E hE)
      (FieldsCodec.field_roundTrips _ _ _ _ (by simp) (ptrCodec_roundTrips _ hE.nodeSelector hE.nodeSelector_neverNull)
        (FieldsCodec.field_roundTrips _ _ _ _ (by simp) (ptrCodec_roundTrips _ hE.time hE.time_neverNull)
          FieldsCodec.nil_roundTrips)))
    (fun _ => rfl)

/-- A `AllocationResult` is decoded to what was encoded. -/
theorem allocationResultCodec_roundTrips (E : ExternalCodecs) (hE : E.RoundTrip) :
    (allocationResultCodec E).RoundTrips :=
  Codec.object_roundTrips _ (allocationResultFields_roundTrips E hE)

/-- The JSON names of the fields of `NetworkDeviceData`. -/
@[simp]
theorem networkDeviceDataFields_keys :
    networkDeviceDataFields.keys =
      ["interfaceName", "ips", "hardwareAddress"] :=
  rfl

/-- The fields of `NetworkDeviceData` are read back as they were written. -/
theorem networkDeviceDataFields_roundTrips :
    networkDeviceDataFields.RoundTrips :=
  FieldsCodec.iso_roundTrips _ _ _
    (FieldsCodec.field_roundTrips _ _ _ _ (by simp) stringCodec_roundTrips
      (FieldsCodec.field_roundTrips _ _ _ _ (by simp) (listCodec_roundTrips _ stringCodec_roundTrips)
        (FieldsCodec.field_roundTrips _ _ _ _ (by simp) stringCodec_roundTrips
          FieldsCodec.nil_roundTrips)))
    (fun _ => rfl)

/-- A `NetworkDeviceData` is decoded to what was encoded. -/
theorem networkDeviceDataCodec_roundTrips :
    networkDeviceDataCodec.RoundTrips :=
  Codec.object_roundTrips _ networkDeviceDataFields_roundTrips

/-- The JSON names of the fields of `AllocatedDeviceStatus`. -/
@[simp]
theorem allocatedDeviceStatusFields_keys (E : ExternalCodecs) :
    (allocatedDeviceStatusFields E).keys =
      ["driver", "pool", "device", "conditions", "data", "networkData"] :=
  rfl

/-- The fields of `AllocatedDeviceStatus` are read back as they were written. -/
theorem allocatedDeviceStatusFields_roundTrips (E : ExternalCodecs) (hE : E.RoundTrip) :
    (allocatedDeviceStatusFields E).RoundTrips :=
  FieldsCodec.iso_roundTrips _ _ _
    (FieldsCodec.field_roundTrips _ _ _ _ (by simp) stringCodec_roundTrips
      (FieldsCodec.field_roundTrips _ _ _ _ (by simp) stringCodec_roundTrips
        (FieldsCodec.field_roundTrips _ _ _ _ (by simp) stringCodec_roundTrips
          (FieldsCodec.field_roundTrips _ _ _ _ (by simp) (listCodec_roundTrips _ hE.condition)
            (FieldsCodec.field_roundTrips _ _ _ _ (by simp) (ptrCodec_roundTrips _ hE.rawExtension hE.rawExtension_neverNull)
              (FieldsCodec.field_roundTrips _ _ _ _ (by simp) (ptrCodec_roundTrips _ networkDeviceDataCodec_roundTrips (Codec.object_neverNull _))
                FieldsCodec.nil_roundTrips))))))
    (fun _ => rfl)

/-- A `AllocatedDeviceStatus` is decoded to what was encoded. -/
theorem allocatedDeviceStatusCodec_roundTrips (E : ExternalCodecs) (hE : E.RoundTrip) :
    (allocatedDeviceStatusCodec E).RoundTrips :=
  Codec.object_roundTrips _ (allocatedDeviceStatusFields_roundTrips E hE)

/-- The JSON names of the fields of `ResourceClaimStatus`. -/
@[simp]
theorem resourceClaimStatusFields_keys (E : ExternalCodecs) :
    (resourceClaimStatusFields E).keys =
      ["allocation", "reservedFor", "devices"] :=
  rfl

/-- The fields of `ResourceClaimStatus` are read back as they were written. -/
theorem resourceClaimStatusFields_roundTrips (E : ExternalCodecs) (hE : E.RoundTrip) :
    (resourceClaimStatusFields E).RoundTrips :=
  FieldsCodec.iso_roundTrips _ _ _
    (FieldsCodec.field_roundTrips _ _ _ _ (by simp) (ptrCodec_roundTrips _ (allocationResultCodec_roundTrips E hE) (Codec.object_neverNull _))
      (FieldsCodec.field_roundTrips _ _ _ _ (by simp) (listCodec_roundTrips _ resourceClaimConsumerReferenceCodec_roundTrips)
        (FieldsCodec.field_roundTrips _ _ _ _ (by simp) (listCodec_roundTrips _ (allocatedDeviceStatusCodec_roundTrips E hE))
          FieldsCodec.nil_roundTrips)))
    (fun _ => rfl)

/-- A `ResourceClaimStatus` is decoded to what was encoded. -/
theorem resourceClaimStatusCodec_roundTrips (E : ExternalCodecs) (hE : E.RoundTrip) :
    (resourceClaimStatusCodec E).RoundTrips :=
  Codec.object_roundTrips _ (resourceClaimStatusFields_roundTrips E hE)

/-- The JSON names of the fields of `ResourceClaim`. -/
@[simp]
theorem resourceClaimFields_keys (E : ExternalCodecs) :
    (resourceClaimFields E).keys =
      ["kind", "apiVersion", "metadata", "spec", "status"] :=
  rfl

/-- The fields of `ResourceClaim` are read back as they were written. -/
theorem resourceClaimFields_roundTrips (E : ExternalCodecs) (hE : E.RoundTrip) :
    (resourceClaimFields E).RoundTrips :=
  FieldsCodec.iso_roundTrips _ _ _
    (FieldsCodec.inline_roundTrips _ _ (by simp) typeMetaFields_roundTrips
      (FieldsCodec.field_roundTrips _ _ _ _ (by simp) hE.objectMeta
        (FieldsCodec.field_roundTrips _ _ _ _ (by simp) (resourceClaimSpecCodec_roundTrips E hE)
          (FieldsCodec.field_roundTrips _ _ _ _ (by simp) (resourceClaimStatusCodec_roundTrips E hE)
            FieldsCodec.nil_roundTrips))))
    (fun _ => rfl)

/-- A `ResourceClaim` is decoded to what was encoded. -/
theorem resourceClaimCodec_roundTrips (E : ExternalCodecs) (hE : E.RoundTrip) :
    (resourceClaimCodec E).RoundTrips :=
  Codec.object_roundTrips _ (resourceClaimFields_roundTrips E hE)

/-- The JSON names of the fields of `DeviceClassConfiguration`. -/
@[simp]
theorem deviceClassConfigurationFields_keys (E : ExternalCodecs) :
    (deviceClassConfigurationFields E).keys =
      ["opaque"] :=
  rfl

/-- The fields of `DeviceClassConfiguration` are read back as they were written. -/
theorem deviceClassConfigurationFields_roundTrips (E : ExternalCodecs) (hE : E.RoundTrip) :
    (deviceClassConfigurationFields E).RoundTrips :=
  FieldsCodec.iso_roundTrips _ _ _
    (FieldsCodec.inline_roundTrips _ _ (by simp) (deviceConfigurationFields_roundTrips E hE)
      FieldsCodec.nil_roundTrips)
    (fun _ => rfl)

/-- A `DeviceClassConfiguration` is decoded to what was encoded. -/
theorem deviceClassConfigurationCodec_roundTrips (E : ExternalCodecs) (hE : E.RoundTrip) :
    (deviceClassConfigurationCodec E).RoundTrips :=
  Codec.object_roundTrips _ (deviceClassConfigurationFields_roundTrips E hE)

/-- The JSON names of the fields of `DeviceClassSpec`. -/
@[simp]
theorem deviceClassSpecFields_keys (E : ExternalCodecs) :
    (deviceClassSpecFields E).keys =
      ["selectors", "config"] :=
  rfl

/-- The fields of `DeviceClassSpec` are read back as they were written. -/
theorem deviceClassSpecFields_roundTrips (E : ExternalCodecs) (hE : E.RoundTrip) :
    (deviceClassSpecFields E).RoundTrips :=
  FieldsCodec.iso_roundTrips _ _ _
    (FieldsCodec.field_roundTrips _ _ _ _ (by simp) (listCodec_roundTrips _ deviceSelectorCodec_roundTrips)
      (FieldsCodec.field_roundTrips _ _ _ _ (by simp) (listCodec_roundTrips _ (deviceClassConfigurationCodec_roundTrips E hE))
        FieldsCodec.nil_roundTrips))
    (fun _ => rfl)

/-- A `DeviceClassSpec` is decoded to what was encoded. -/
theorem deviceClassSpecCodec_roundTrips (E : ExternalCodecs) (hE : E.RoundTrip) :
    (deviceClassSpecCodec E).RoundTrips :=
  Codec.object_roundTrips _ (deviceClassSpecFields_roundTrips E hE)

/-- The JSON names of the fields of `DeviceClass`. -/
@[simp]
theorem deviceClassFields_keys (E : ExternalCodecs) :
    (deviceClassFields E).keys =
      ["kind", "apiVersion", "metadata", "spec"] :=
  rfl

/-- The fields of `DeviceClass` are read back as they were written. -/
theorem deviceClassFields_roundTrips (E : ExternalCodecs) (hE : E.RoundTrip) :
    (deviceClassFields E).RoundTrips :=
  FieldsCodec.iso_roundTrips _ _ _
    (FieldsCodec.inline_roundTrips _ _ (by simp) typeMetaFields_roundTrips
      (FieldsCodec.field_roundTrips _ _ _ _ (by simp) hE.objectMeta
        (FieldsCodec.field_roundTrips _ _ _ _ (by simp) (deviceClassSpecCodec_roundTrips E hE)
          FieldsCodec.nil_roundTrips)))
    (fun _ => rfl)

/-- A `DeviceClass` is decoded to what was encoded. -/
theorem deviceClassCodec_roundTrips (E : ExternalCodecs) (hE : E.RoundTrip) :
    (deviceClassCodec E).RoundTrips :=
  Codec.object_roundTrips _ (deviceClassFields_roundTrips E hE)

/-- The codecs of the types of other packages round-trip, and none writes
`null`. -/
theorem externalCodecs_roundTrip : externalCodecs.RoundTrip where
  objectMeta := Codec.object_roundTrips _
    (FieldsCodec.iso_roundTrips _ _ _
      (FieldsCodec.field_roundTrips _ _ _ _ (by simp) stringCodec_roundTrips
        FieldsCodec.nil_roundTrips) (fun _ => rfl))
  nodeSelector := Codec.object_roundTrips _
    (FieldsCodec.iso_roundTrips _ _ _
      (FieldsCodec.field_roundTrips _ _ _ _ (by simp)
        (listCodec_roundTrips _ stringCodec_roundTrips) FieldsCodec.nil_roundTrips)
      (fun _ => rfl))
  nodeSelector_neverNull := Codec.object_neverNull _
  quantity := ⟨fun q => by simp [externalCodecs],
    fun q h => by simpa [externalCodecs] using h⟩
  time := intCodec_roundTrips
  time_neverNull := intCodec_neverNull
  rawExtension := Codec.object_roundTrips _
    (FieldsCodec.iso_roundTrips _ _ _
      (FieldsCodec.field_roundTrips _ _ _ _ (by simp) stringCodec_roundTrips
        FieldsCodec.nil_roundTrips) (fun _ => rfl))
  rawExtension_neverNull := Codec.object_neverNull _
  condition := Codec.object_roundTrips _
    (FieldsCodec.iso_roundTrips _ _ _
      (FieldsCodec.field_roundTrips _ _ _ _ (by simp) stringCodec_roundTrips
        (FieldsCodec.field_roundTrips _ _ _ _ (by simp) stringCodec_roundTrips
          FieldsCodec.nil_roundTrips)) (fun _ => rfl))

/-- How `omitempty` shows in an encoding: an attribute with only `IntValue` set
is written as an object with the single field `int`, and a slice pool keeps
all three of its fields, none of which is tagged `omitempty`. -/
theorem encoding_examples :
    deviceAttributeCodec.enc
        { IntValue := some 1, BoolValue := none, StringValue := none, VersionValue := none } =
      Json.obj [("int", Json.num 1)] ∧
    resourcePoolCodec.enc { Name := "", Generation := 0, ResourceSliceCount := 0 } =
      Json.obj [("name", Json.str ""), ("generation", Json.num 0),
        ("resourceSliceCount", Json.num 0)] :=
  ⟨rfl, rfl⟩

/-- C19. Serialization round trip: encoding a `ResourceClaim`, a
`ResourceSlice` or a `DeviceClass` with the JSON names and `omitempty` flags of
the tags and decoding the result gives the original value back, equal in every
field (a slice or a map by its entries), and this for every value, valid or
not. The decoded value therefore has
the same members set in each one-of group: the node selection of a slice and
of each of its devices, the value of each attribute, and the kind of each
request of a claim. -/
theorem serialization_round_trip :
    (∀ claim : ResourceClaim,
      (resourceClaimCodec externalCodecs).dec
        ((resourceClaimCodec externalCodecs).enc claim) = some claim) ∧
    (∀ slice : ResourceSlice,
      (resourceSliceCodec externalCodecs).dec
        ((resourceSliceCodec externalCodecs).enc slice) = some slice) ∧
    (∀ cls : DeviceClass,
      (deviceClassCodec externalCodecs).dec
        ((deviceClassCodec externalCodecs).enc cls) = some cls) ∧
    (∀ slice : ResourceSlice,
      ((resourceSliceCodec externalCodecs).dec
          ((resourceSliceCodec externalCodecs).enc slice)).map
        (fun d => (d.Spec.nodeSelectionSet, d.Spec.Devices.map Device.nodeSelectionSet,
          d.Spec.Devices.map (fun dev => dev.Attributes.map (fun a => a.2.valueSet)))) =
      some (slice.Spec.nodeSelectionSet, slice.Spec.Devices.map Device.nodeSelectionSet,
        slice.Spec.Devices.map (fun dev => dev.Attributes.map (fun a => a.2.valueSet)))) ∧
    (∀ claim : ResourceClaim,
      ((resourceClaimCodec externalCodecs).dec
          ((resourceClaimCodec externalCodecs).enc claim)).map
        (fun c => c.Spec.Devices.Requests.map DeviceRequest.requestTypeSet) =
      some (claim.Spec.Devices.Requests.map DeviceRequest.requestTypeSet)) := by
  have hclaim := (resourceClaimCodec_roundTrips externalCodecs externalCodecs_roundTrip).dec_enc
  have hslice := (resourceSliceCodec_roundTrips externalCodecs externalCodecs_roundTrip).dec_enc
  have hclass := (deviceClassCodec_roundTrips externalCodecs externalCodecs_roundTrip).dec_enc
  refine ⟨hclaim, hslice, hclass, fun slice => ?_, fun claim => ?_⟩
  · rw [hslice slice]; rfl
  · rw [hclaim claim]; rfl

/-! ## Ceilings of devices, requests and status -/

/-- The counters of a list of devices that consume `k` counters each. -/
theorem counterCount_sum_of_uniform (k : Nat) (l : List Device)
    (h : ∀ d ∈ l, d.counterCount = k) : (l.map Device.counterCount).sum = l.length * k := by
  induction l with
  | nil => simp
  | cons d rest ih =>
    have hd : d.counterCount = k := h d (List.mem_cons_self _ _)
    have hrest : ∀ e ∈ rest, e.counterCount = k :=
      fun e he => h e (List.mem_cons_of_mem _ he)
    rw [List.map_cons, List.sum_cons, ih hrest, hd, List.length_cons]
    rw [Nat.succ_mul]
    omega

/-- The sample device consumes as many counters as it was built with. -/
theorem counterDevice_counterCount (i k : Nat) : (counterDevice i k).counterCount = k := by
  simp [counterDevice, Device.counterCount]

/-- The sample slice holds the devices it was built with. -/
theorem counterSlice_devices_length (n k : Nat) : (counterSlice n k).Devices.length = n := by
  simp [counterSlice]

/-- Each device of the sample slice consumes `k` counters. -/
theorem counterSlice_device_counterCount (n k : Nat) :
    ∀ d ∈ (counterSlice n k).Devices, d.counterCount = k := by
  intro d hd
  simp only [counterSlice, List.mem_map] at hd
  obtain ⟨i, _, rfl⟩ := hd
  exact counterDevice_counterCount i k

/-- The devices of the sample slice consume `n * k` counters together. -/
theorem counterSlice_deviceCounterCount (n k : Nat) :
    (counterSlice n k).deviceCounterCount = n * k := by
  unfold ResourceSliceSpec.deviceCounterCount
  rw [counterCount_sum_of_uniform k _ (counterSlice_device_counterCount n k),
    counterSlice_devices_length]

/-- C21. Device counter-consumption ceilings are consistent:
`ResourceSliceMaxCountersPerDevice` is 32 and
`ResourceSliceMaxDeviceCountersPerSlice` is 1024, which is 64 * 16. The
documented example, a slice of 64 devices with 16 counters each, meets the
limit on devices, the limit per device and the limit per slice at once. The
limit per slice is strictly smaller than `ResourceSliceMaxDevices` times
`ResourceSliceMaxCountersPerDevice`: a slice of 128 devices with 32 counters
each meets the other two limits and exceeds it. -/
theorem device_counter_ceilings_consistent :
    ResourceSliceMaxCountersPerDevice = 32 ∧
    ResourceSliceMaxDeviceCountersPerSlice = 1024 ∧
    ResourceSliceMaxDeviceCountersPerSlice = 64 * 16 ∧
    ((counterSlice 64 16).Devices.length = 64 ∧
      (counterSlice 64 16).Devices.length ≤ ResourceSliceMaxDevices ∧
      (∀ d ∈ (counterSlice 64 16).Devices,
        d.counterCount = 16 ∧ d.counterCount ≤ ResourceSliceMaxCountersPerDevice) ∧
      (counterSlice 64 16).deviceCounterCount = 64 * 16 ∧
      (counterSlice 64 16).deviceCounterCount ≤ ResourceSliceMaxDeviceCountersPerSlice) ∧
    ResourceSliceMaxDeviceCountersPerSlice <
      ResourceSliceMaxDevices * ResourceSliceMaxCountersPerDevice ∧
    ((counterSlice 128 32).Devices.length ≤ ResourceSliceMaxDevices ∧
      (∀ d ∈ (counterSlice 128 32).Devices,
        d.counterCount ≤ ResourceSliceMaxCountersPerDevice) ∧
      ResourceSliceMaxDeviceCountersPerSlice < (counterSlice 128 32).deviceCounterCount) := by
  have hdev : ResourceSliceMaxDevices = 128 := rfl
  have hper : ResourceSliceMaxCountersPerDevice = 32 := rfl
  have hslice : ResourceSliceMaxDeviceCountersPerSlice = 1024 := rfl
  refine ⟨rfl, rfl, rfl, ⟨?_, ?_, ?_, ?_, ?_⟩, by decide, ?_, ?_, ?_⟩
  · exact counterSlice_devices_length 64 16
  · rw [counterSlice_devices_length, hdev]; omega
  · intro d hd
    rw [counterSlice_device_counterCount 64 16 d hd, hper]
    exact ⟨rfl, by omega⟩
  · exact counterSlice_deviceCounterCount 64 16
  · rw [counterSlice_deviceCounterCount, hslice]
  · rw [counterSlice_devices_length, hdev]
  · intro d hd
    rw [counterSlice_device_counterCount 128 32 d hd, hper]
  · rw [counterSlice_deviceCounterCount, hslice]; omega

/-- C22. Ceilings of one device: at most 32 attributes and capacities
together, string and version values of at most 64 characters, at most 4
taints, at most 4 binding conditions and at most 4 binding failure
conditions. -/
theorem per_device_ceilings :
    ResourceSliceMaxAttributesAndCapacitiesPerDevice = 32 ∧
    DeviceAttributeMaxValueLength = 64 ∧
    DeviceTaintsMaxLength = 4 ∧
    BindingConditionsMaxSize = 4 ∧
    BindingFailureConditionsMaxSize = 4 :=
  ⟨rfl, rfl, rfl, rfl, rfl⟩

/-- C23. Ceilings of one request: at most 32 selectors, at most 16
tolerations, and at most 8 alternatives under `firstAvailable`. -/
theorem per_request_ceilings :
    DeviceSelectorsMaxSize = 32 ∧
    DeviceTolerationsMaxLength = 16 ∧
    FirstAvailableDeviceRequestMaxSize = 8 :=
  ⟨rfl, rfl, rfl⟩

/-- C24. Ceilings of the status: `AllocationResultsMaxSize` is 32,
`DeviceRequestsMaxSize` is the same number, so a claim that keeps to the
ceiling on requests declares no more requests than an allocation result holds
bindings, `ResourceClaimReservedForMaxSize` is 256 and
`AllocatedDeviceStatusMaxConditions` is 8. -/
theorem status_ceilings (claim : DeviceClaim)
    (h : claim.Requests.length ≤ DeviceRequestsMaxSize) :
    AllocationResultsMaxSize = 32 ∧
    DeviceRequestsMaxSize = AllocationResultsMaxSize ∧
    claim.Requests.length ≤ AllocationResultsMaxSize ∧
    ResourceClaimReservedForMaxSize = 256 ∧
    AllocatedDeviceStatusMaxConditions = 8 :=
  ⟨rfl, rfl, h, rfl, rfl⟩

/-- Witness of C24: a claim with one request. -/
theorem status_ceilings_witness :
    (List.length (DeviceClaim.Requests
      { Requests := [{ Name := "gpu", Exactly := none, FirstAvailable := [] }],
        Constraints := [], Config := [] }) ≤ DeviceRequestsMaxSize) ∧
    (List.length (DeviceClaim.Requests
      { Requests := [{ Name := "gpu", Exactly := none, FirstAvailable := [] }],
        Constraints := [], Config := [] }) ≤ AllocationResultsMaxSize) :=
  ⟨by decide,
    (status_ceilings
      { Requests := [{ Name := "gpu", Exactly := none, FirstAvailable := [] }],
        Constraints := [], Config := [] } (by decide)).2.2.1⟩

/-- The length of a name of the form `<domain>/<ID>`. -/
theorem fullyQualifiedName_length (domain id : String) :
    (fullyQualifiedName domain id).length = domain.length + 1 + id.length := by
  have h : "/".length = 1 := by decide
  simp [fullyQualifiedName, String.length_append, h]

/-- C25. Limits on the length of names: a driver name and the domain of a
qualified name have the same limit, 63, the identifier of a qualified name
has the limit 32, so a name `<domain>/<ID>` that keeps to both is at most
63 + 1 + 32 = 96 characters long, and a pool name has the limit 253, the
maximum of a DNS-1123 subdomain. -/
theorem name_length_limits (domain id : String)
    (hd : domain.length ≤ DeviceMaxDomainLength) (hi : id.length ≤ DeviceMaxIDLength) :
    DriverNameMaxLength = 63 ∧
    DeviceMaxDomainLength = 63 ∧
    DriverNameMaxLength = DeviceMaxDomainLength ∧
    DeviceMaxIDLength = 32 ∧
    DeviceMaxDomainLength + 1 + DeviceMaxIDLength = 96 ∧
    (fullyQualifiedName domain id).length ≤ 96 ∧
    PoolNameMaxLength = 253 ∧
    PoolNameMaxLength = DNS1123SubdomainMaxLength := by
  have h1 : DeviceMaxDomainLength = 63 := rfl
  have h2 : DeviceMaxIDLength = 32 := rfl
  refine ⟨rfl, rfl, rfl, rfl, rfl, ?_, rfl, rfl⟩
  rw [fullyQualifiedName_length]
  omega

/-- Witness of C25: the qualified name of the example in the comment on
`QualifiedName`. -/
theorem name_length_limits_witness :
    ("dra.example.com".length ≤ DeviceMaxDomainLength ∧
      "theName".length ≤ DeviceMaxIDLength) ∧
    (fullyQualifiedName "dra.example.com" "theName").length ≤ 96 :=
  ⟨⟨by decide, by decide⟩,
    (name_length_limits "dra.example.com" "theName" (by decide) (by decide)).2.2.2.2.2.1⟩

/-- The JSON codec of each struct writes the names that the tags of the struct
declare, in the order of declaration. -/
theorem codec_keys_eq_tag_names (E : ExternalCodecs) :
    (tagsOf "ResourcePool").map StructTags.jsonNames = some resourcePoolFields.keys ∧
    (tagsOf "Counter").map StructTags.jsonNames = some (counterFields E).keys ∧
    (tagsOf "CounterSet").map StructTags.jsonNames = some (counterSetFields E).keys ∧
    (tagsOf "DeviceCounterConsumption").map StructTags.jsonNames =
      some (deviceCounterConsumptionFields E).keys ∧
    (tagsOf "DeviceCapacity").map StructTags.jsonNames = some (deviceCapacityFields E).keys ∧
    (tagsOf "DeviceAttribute").map StructTags.jsonNames = some deviceAttributeFields.keys ∧
    (tagsOf "DeviceTaint").map StructTags.jsonNames = some (deviceTaintFields E).keys ∧
    (tagsOf "Device").map StructTags.jsonNames = some (deviceFields E).keys ∧
    (tagsOf "ResourceSliceSpec").map StructTags.jsonNames = some (resourceSliceSpecFields E).keys ∧
    (tagsOf "ResourceSlice").map StructTags.jsonNames = some (resourceSliceFields E).keys ∧
    (tagsOf "DeviceToleration").map StructTags.jsonNames = some deviceTolerationFields.keys ∧
    (tagsOf "CELDeviceSelector").map StructTags.jsonNames = some celDeviceSelectorFields.keys ∧
    (tagsOf "DeviceSelector").map StructTags.jsonNames = some deviceSelectorFields.keys ∧
    (tagsOf "ExactDeviceRequest").map StructTags.jsonNames = some exactDeviceRequestFields.keys ∧
    (tagsOf "DeviceSubRequest").map StructTags.jsonNames = some deviceSubRequestFields.keys ∧
    (tagsOf "DeviceRequest").map StructTags.jsonNames = some deviceRequestFields.keys ∧
    (tagsOf "DeviceConstraint").map StructTags.jsonNames = some deviceConstraintFields.keys ∧
    (tagsOf "OpaqueDeviceConfiguration").map StructTags.jsonNames =
      some (opaqueDeviceConfigurationFields E).keys ∧
    (tagsOf "DeviceConfiguration").map StructTags.jsonNames =
      some (deviceConfigurationFields E).keys ∧
    (tagsOf "DeviceClaimConfiguration").map StructTags.jsonNames =
      some (deviceClaimConfigurationFields E).keys ∧
    (tagsOf "DeviceClaim").map StructTags.jsonNames = some (deviceClaimFields E).keys ∧
    (tagsOf "ResourceClaimSpec").map StructTags.jsonNames = some (resourceClaimSpecFields E).keys ∧
    (tagsOf "ResourceClaimConsumerReference").map StructTags.jsonNames =
      some resourceClaimConsumerReferenceFields.keys ∧
    (tagsOf "DeviceRequestAllocationResult").map StructTags.jsonNames =
      some deviceRequestAllocationResultFields.keys ∧
    (tagsOf "DeviceAllocationConfiguration").map StructTags.jsonNames =
      some (deviceAllocationConfigurationFields E).keys ∧
    (tagsOf "DeviceAllocationResult").map StructTags.jsonNames =
      some (deviceAllocationResultFields E).keys ∧
    (tagsOf "AllocationResult").map StructTags.jsonNames = some (allocationResultFields E).keys ∧
    (tagsOf "NetworkDeviceData").map StructTags.jsonNames = some networkDeviceDataFields.keys ∧
    (tagsOf "AllocatedDeviceStatus").map StructTags.jsonNames =
      some (allocatedDeviceStatusFields E).keys ∧
    (tagsOf "ResourceClaimStatus").map StructTags.jsonNames =
      some (resourceClaimStatusFields E).keys ∧
    (tagsOf "ResourceClaim").map StructTags.jsonNames = some (resourceClaimFields E).keys ∧
    (tagsOf "DeviceClassConfiguration").map StructTags.jsonNames =
      some (deviceClassConfigurationFields E).keys ∧
    (tagsOf "DeviceClassSpec").map StructTags.jsonNames = some (deviceClassSpecFields E).keys ∧
    (tagsOf "DeviceClass").map StructTags.jsonNames = some (deviceClassFields E).keys := by
  simp only [resourcePoolFields_keys, counterFields_keys, counterSetFields_keys,
    deviceCounterConsumptionFields_keys, deviceCapacityFields_keys, deviceAttributeFields_keys,
    deviceTaintFields_keys, deviceFields_keys, resourceSliceSpecFields_keys,
    resourceSliceFields_keys, deviceTolerationFields_keys, celDeviceSelectorFields_keys,
    deviceSelectorFields_keys, exactDeviceRequestFields_keys, deviceSubRequestFields_keys,
    deviceRequestFields_keys, deviceConstraintFields_keys, opaqueDeviceConfigurationFields_keys,
    deviceConfigurationFields_keys, deviceClaimConfigurationFields_keys, deviceClaimFields_keys,
    resourceClaimSpecFields_keys, resourceClaimConsumerReferenceFields_keys,
    deviceRequestAllocationResultFields_keys, deviceAllocationConfigurationFields_keys,
    deviceAllocationResultFields_keys, allocationResultFields_keys, networkDeviceDataFields_keys,
    allocatedDeviceStatusFields_keys, resourceClaimStatusFields_keys, resourceClaimFields_keys,
    deviceClassConfigurationFields_keys, deviceClassSpecFields_keys, deviceClassFields_keys]
  refine ⟨?_, ?_, ?_, ?_, ?_, ?_, ?_, ?_, ?_, ?_, ?_, ?_, ?_, ?_, ?_, ?_, ?_,
    ?_, ?_, ?_, ?_, ?_, ?_, ?_, ?_, ?_, ?_, ?_, ?_, ?_, ?_, ?_, ?_, ?_⟩ <;> decide

/-! ## Struct tags -/

/-- C29. Field-selector constants address the fields they name: the tag on
`ResourceSlice.Spec` is `spec`, the tags on `ResourceSliceSpec.NodeName` and
`ResourceSliceSpec.Driver` are `nodeName` and `driver`, these are keys of the
JSON objects written for a slice and for its spec, and
`ResourceSliceSelectorNodeName` and `ResourceSliceSelectorDriver` are the
paths `spec.nodeName` and `spec.driver` built from them; the two constants
differ. -/
theorem field_selectors_address_fields (E : ExternalCodecs) :
    jsonNameOf "ResourceSlice" "Spec" = some "spec" ∧
    jsonNameOf "ResourceSliceSpec" "NodeName" = some "nodeName" ∧
    jsonNameOf "ResourceSliceSpec" "Driver" = some "driver" ∧
    "spec" ∈ (resourceSliceFields E).keys ∧
    "nodeName" ∈ (resourceSliceSpecFields E).keys ∧
    "driver" ∈ (resourceSliceSpecFields E).keys ∧
    jsonPath "ResourceSlice" ["Spec", "NodeName"] = some ResourceSliceSelectorNodeName ∧
    jsonPath "ResourceSlice" ["Spec", "Driver"] = some ResourceSliceSelectorDriver ∧
    ResourceSliceSelectorNodeName = "spec" ++ "." ++ "nodeName" ∧
    ResourceSliceSelectorDriver = "spec" ++ "." ++ "driver" ∧
    ResourceSliceSelectorNodeName ≠ ResourceSliceSelectorDriver := by
  refine ⟨by decide, by decide, by decide, ?_, ?_, ?_, by decide, by decide, by decide,
    by decide, by decide⟩
  · rw [resourceSliceFields_keys]; decide
  · rw [resourceSliceSpecFields_keys]; decide
  · rw [resourceSliceSpecFields_keys]; decide

/-- C30. Wire field identities are unambiguous: `types.go` declares 40
structs with distinct names, and within each of them no two fields share a
protobuf field number, no two fields share a JSON name, also when the names of
inlined structs are counted in, every field that is not inlined has a JSON
name, only the inlined `TypeMeta` has no protobuf number, and no field uses a
number that a tombstone of the struct reserves. The tombstones reserve 2 in
`ResourceClaimSpec`, 3 in `ResourceClaimStatus`, 4 in `AllocationResult` and 3
in `DeviceClassSpec`. -/
theorem wire_identities_unambiguous :
    structTags.length = 40 ∧
    (structTags.map (fun s => s.name)).Nodup ∧
    (∀ s ∈ structTags,
      s.protobufNumbers.Nodup ∧ s.ownJsonNames.Nodup ∧ s.jsonNames.Nodup ∧
      (∀ n ∈ s.ownJsonNames, n ≠ "") ∧
      (∀ f ∈ s.fields, f.protobuf = none → f.goType = "metav1.TypeMeta" ∧ f.inline = true) ∧
      (∀ n ∈ s.reservedNumbers, n ∉ s.protobufNumbers)) ∧
    reservedTable =
      [("ResourceClaimSpec", [2]), ("ResourceClaimStatus", [3]), ("AllocationResult", [4]),
        ("DeviceClassSpec", [3])] := by
  refine ⟨by decide, by decide, by decide, by decide⟩

end V1beta2

